import Mathlib

/-!
# Mental-health support platform: route handlers over a document store

A shallow embedding of the Express/Mongoose route handlers of the backend
(`backend/routes/*.js`) together with the schemas they persist
(`backend/models/*.js`).

Modelling conventions

* A collection is the list of its documents in insertion order.  `findById`
  and `findOne` return the first document that matches, `save` overwrites the
  first document carrying the same `_id`, `findByIdAndDelete` removes the first
  document carrying the `_id`.
* An `ObjectId` is a natural number; `a.toString() === b.toString()` on two
  ObjectIds is equality of the ids (the hex rendering is injective).
* A request field read from `req.body` is an `Option String`: `none` stands for
  a missing field, and a JSON value that is not a string behaves like a string
  that matches no literal of the handler.
* A handler is a function from the collection(s) and the request to the
  response and the new collection(s).  The `auth` middleware has already run:
  the handler receives the `_id` of `req.user`.
* Times are milliseconds since the epoch, as integers.  The time zone of the host is a parameter
  (`Zone`): the `Date` methods `setHours` and `setDate` go through local time as ECMAScript
  defines them, so a local calendar day lasts 23 or 25 hours where the zone changes its offset.
* A document carries the paths its schema declares.  The bookkeeping paths that Mongoose keeps
  by itself (`updatedAt`, `__v`) are not modelled; `createdAt` is modelled on `Mood`, whose
  handler queries it.  `doc.save()` validates the paths the handler modified; the stored
  documents have passed validation when they were written.
* Schema numbers are modelled as integers; a `views` counter is a natural number and `views += 1`
  is the addition of doubles (`incrementViews`): the exact sum rounded to 53 significant bits.
  A string is a sequence of Unicode characters and its length, as the `maxlength` validator
  sees it, is its number of UTF-16 code units (`jsLength`).
* The store itself does not fail and the `:id` of a path is a well-formed ObjectId: a handler
  reaches its `catch` branch only when `save` rejects a document.
* `populate` only shapes the body of a response and is left out; `sort` is an insertion sort on
  `createdAt` where the handler fixes the order and a parameter where the request chooses it.
* A middleware maps the request to an `Outcome`: an error response, or `next()` with the request
  as the middleware has left it.  `jwt.verify` with the server secret is a parameter.
* `models/User.js` is not among the sources: the `User` schema and `toJSON` follow the spec, and
  `comparePassword`, the token issuer and the construction of a new user are parameters.
* The body of an update request is the record of the schema paths it sets; a key that is not a
  path of the schema is dropped by the store and is not modelled.
-/

namespace MentalHealth

/-- A MongoDB ObjectId. -/
abbrev ObjectId := Nat

/-- An HTTP response: status code and JSON body. -/
structure Response (β : Type) where
  status : Nat
  body : β
deriving DecidableEq, Repr

/-- Documents of a collection carry an `_id`. -/
class Document (α : Type) where
  _id : α → ObjectId

/-- The call `Model.findById(id)`: the first document with this `_id`, if any. -/
def findById {α : Type} [Document α] (coll : List α) (id : ObjectId) : Option α :=
  coll.find? (fun d => decide (Document._id d = id))

/-- The call `doc.save()` for a document loaded from the collection: the stored document with the
same `_id` is overwritten in place. -/
def save {α : Type} [Document α] : List α → α → List α
  | [], _ => []
  | d :: ds, x => if Document._id d = Document._id x then x :: ds else d :: save ds x

/-- The call `Model.findByIdAndDelete(id)`: the first document with this `_id` is removed. -/
def findByIdAndDelete {α : Type} [Document α] (coll : List α) (id : ObjectId) : List α :=
  coll.eraseP (fun d => decide (Document._id d = id))

/-! ## Forum (`models/Forum.js`, `routes/forum.js`) -/

/-- The schema `forumSchema`. -/
structure Forum where
  _id : ObjectId
  title : String
  description : String
  category : String
  author : ObjectId
  isAnonymous : Bool
  isPinned : Bool
  isLocked : Bool
  views : Nat
  upvotes : List ObjectId
  downvotes : List ObjectId
  tags : List String
  isFlagged : Bool
  flagReason : Option String
  isModerated : Bool
deriving DecidableEq, Repr

instance : Document Forum := ⟨Forum._id⟩

/-- Body of the responses of `POST /forum/:id/vote`. -/
inductive VoteBody where
  | error (error : String)
  | recorded (message : String) (upvotes downvotes : Nat)
deriving DecidableEq, Repr

/-- Lines 216-238 of `routes/forum.js`: the in-memory update of the loaded post. -/
def applyVote (post : Forum) (userId : ObjectId) (voteType : Option String) : Forum :=
  if voteType = some "upvote" then
    let downvotes := post.downvotes.filter (fun id => decide (id ≠ userId))
    let hasUpvoted := post.upvotes.any (fun id => decide (id = userId))
    if hasUpvoted then
      { post with
        downvotes := downvotes
        upvotes := post.upvotes.filter (fun id => decide (id ≠ userId)) }
    else
      { post with downvotes := downvotes, upvotes := post.upvotes ++ [userId] }
  else if voteType = some "downvote" then
    let upvotes := post.upvotes.filter (fun id => decide (id ≠ userId))
    let hasDownvoted := post.downvotes.any (fun id => decide (id = userId))
    if hasDownvoted then
      { post with
        upvotes := upvotes
        downvotes := post.downvotes.filter (fun id => decide (id ≠ userId)) }
    else
      { post with upvotes := upvotes, downvotes := post.downvotes ++ [userId] }
  else
    post

/-- The handler `router.post('/:id/vote', auth, ...)` of `routes/forum.js`. -/
def vote (forums : List Forum) (id : ObjectId) (userId : ObjectId) (voteType : Option String) :
    Response VoteBody × List Forum :=
  match findById forums id with
  | none => (⟨404, .error "Post not found"⟩, forums)
  | some post =>
    let post := applyVote post userId voteType
    (⟨200, .recorded "Vote recorded" post.upvotes.length post.downvotes.length⟩, save forums post)

/-- The collection after a vote request. -/
def voteStore (forums : List Forum) (id userId : ObjectId) (voteType : Option String) :
    List Forum :=
  (vote forums id userId voteType).2

/-- A vote request: the post id of the path, the authenticated user, the `voteType` of the body. -/
structure VoteRequest where
  id : ObjectId
  userId : ObjectId
  voteType : Option String
deriving DecidableEq, Repr

/-- A sequence of vote requests served one after the other. -/
def runVotes (forums : List Forum) (reqs : List VoteRequest) : List Forum :=
  reqs.foldl (fun s r => voteStore s r.id r.userId r.voteType) forums

/-! ## Journal (`models/Journal.js`, `routes/journal.js`) -/

/-- An element of `reactions` in `journalSchema`. -/
structure Reaction where
  user : ObjectId
  type : String
  createdAt : Int
deriving DecidableEq, Repr

/-- An element of `comments` in `journalSchema`. -/
structure Comment where
  user : ObjectId
  content : String
  isAnonymous : Bool
  createdAt : Int
deriving DecidableEq, Repr

/-- The schema `journalSchema`. -/
structure Journal where
  _id : ObjectId
  author : ObjectId
  content : String
  mood : String
  isAnonymous : Bool
  isPublic : Bool
  tags : List String
  reactions : List Reaction
  comments : List Comment
  isFlagged : Bool
  flagReason : Option String
  isModerated : Bool
deriving DecidableEq, Repr

instance : Document Journal := ⟨Journal._id⟩

/-- The `enum` of `reactions.type` in `journalSchema`. -/
def reactionTypes : List String := ["heart", "hug", "support", "understand"]

/-- Body of the responses of `POST /journal/:id/react`. -/
inductive ReactBody where
  | error (error : String)
  | ok (message : String) (reactions : List Reaction)
deriving DecidableEq, Repr

/-- The test `r.user.toString() === req.user._id.toString() && r.type === reactionType`. -/
def isReactionOf (userId : ObjectId) (reactionType : Option String) (r : Reaction) : Bool :=
  decide (r.user = userId) && decide (some r.type = reactionType)

/-- The handler `router.post('/:id/react', auth, ...)` of `routes/journal.js`.  `now` is the value of
`Date.now` that the schema default gives to `createdAt` of a pushed reaction.  `entry.save()`
validates the pushed reaction: its `type` is required and must be in the `enum`, otherwise the
save throws and the handler answers 500 without writing. -/
def react (journals : List Journal) (id : ObjectId) (userId : ObjectId)
    (reactionType : Option String) (now : Int) : Response ReactBody × List Journal :=
  match findById journals id with
  | none => (⟨404, .error "Entry not found"⟩, journals)
  | some entry =>
    match entry.reactions.find? (isReactionOf userId reactionType) with
    | some _ =>
      let entry := { entry with
        reactions := entry.reactions.filter (fun r => !isReactionOf userId reactionType r) }
      (⟨200, .ok "Reaction removed" entry.reactions⟩, save journals entry)
    | none =>
      match reactionType with
      | some t =>
        if t ∈ reactionTypes then
          let entry := { entry with
            reactions := entry.reactions ++ [{ user := userId, type := t, createdAt := now }] }
          (⟨200, .ok "Reaction added" entry.reactions⟩, save journals entry)
        else
          (⟨500, .error "Failed to react to entry"⟩, journals)
      | none => (⟨500, .error "Failed to react to entry"⟩, journals)

/-- The list holds at most one reaction of user `u` with type `t`, for every `u` and `t`. -/
def UniqueReactions (rs : List Reaction) : Prop :=
  ∀ (u : ObjectId) (t : String), rs.countP (fun r => decide (r.user = u ∧ r.type = t)) ≤ 1

/-! ## Admin moderation (`routes/admin.js`) -/

/-- Body of the responses of `PUT /admin/moderation/:type/:id`. -/
inductive ModerationBody where
  | error (error : String)
  | message (message : String)
  | journal (message : String) (item : Journal)
  | forum (message : String) (item : Forum)
deriving DecidableEq, Repr

/-- The assignments of `case 'approve'` on a journal entry. -/
def Journal.approve (item : Journal) : Journal :=
  { item with isFlagged := false, flagReason := none, isModerated := true }

/-- The assignment of `case 'reject'` on a journal entry. -/
def Journal.reject (item : Journal) : Journal :=
  { item with isModerated := true }

/-- The assignments of `case 'approve'` on a forum post. -/
def Forum.approve (item : Forum) : Forum :=
  { item with isFlagged := false, flagReason := none, isModerated := true }

/-- The assignment of `case 'reject'` on a forum post. -/
def Forum.reject (item : Forum) : Forum :=
  { item with isModerated := true }

/-- Lines 162-188 of `routes/admin.js`, for the collection `model` that the `type` selected:
`approve` and `reject` are the assignments of the two cases on a document of that collection and
`wrap` builds the body `{ message, item }`. -/
def moderateModel {α : Type} [Document α] (approve reject : α → α)
    (wrap : String → α → ModerationBody) (model : List α) (id : ObjectId)
    (action : Option String) : Response ModerationBody × List α :=
  match findById model id with
  | none => (⟨404, .error "Content not found"⟩, model)
  | some item =>
    if action = some "approve" then
      (⟨200, wrap "Content approved successfully" (approve item)⟩, save model (approve item))
    else if action = some "reject" then
      (⟨200, wrap "Content rejectd successfully" (reject item)⟩, save model (reject item))
    else if action = some "delete" then
      (⟨200, .message "Content deleted successfully"⟩, findByIdAndDelete model id)
    else
      (⟨400, .error "Invalid action"⟩, model)

/-- The handler `router.put('/moderation/:type/:id', ...)` of `routes/admin.js`, behind
`router.use(auth, requireRole(['admin']))`. -/
def moderate (journals : List Journal) (forums : List Forum) (type : String) (id : ObjectId)
    (action : Option String) : Response ModerationBody × List Journal × List Forum :=
  if type = "journal" then
    let r := moderateModel Journal.approve Journal.reject ModerationBody.journal journals id action
    (r.1, r.2, forums)
  else if type = "forum" then
    let r := moderateModel Forum.approve Forum.reject ModerationBody.forum forums id action
    (r.1, journals, r.2)
  else
    (⟨400, .error "Invalid content type"⟩, journals, forums)

/-- The collection holds no two documents with the same `_id` (the unique index of MongoDB on
`_id`). -/
def UniqueIds {α : Type} [Document α] (coll : List α) : Prop :=
  (coll.map Document._id).Nodup

instance {α : Type} [Document α] (coll : List α) : Decidable (UniqueIds coll) :=
  inferInstanceAs (Decidable (coll.map Document._id).Nodup)

/-! ## Mood (`models/Mood.js`, `routes/mood.js`) -/

/-- The schema `moodSchema`, with the `createdAt` of `timestamps: true`. -/
structure Mood where
  _id : ObjectId
  user : ObjectId
  mood : String
  intensity : Int
  activities : List String
  notes : Option String
  sleepHours : Option Int
  stressLevel : Option Int
  energyLevel : Option Int
  isPrivate : Bool
  tags : List String
  createdAt : Int
deriving DecidableEq, Repr

instance : Document Mood := ⟨Mood._id⟩

/-- The fields that `POST /mood` reads from `req.body`. -/
structure MoodPayload where
  mood : Option String
  intensity : Option Int
  activities : List String
  notes : Option String
  sleepHours : Option Int
  stressLevel : Option Int
  energyLevel : Option Int
  isPrivate : Option Bool
  tags : List String
deriving DecidableEq, Repr

/-- The `enum` of `mood` in `moodSchema`. -/
def moodValues : List String :=
  ["very-happy", "happy", "neutral", "sad", "very-sad", "anxious", "stressed", "excited", "calm",
    "angry", "frustrated"]

/-- The `enum` of `activities` in `moodSchema`. -/
def activityValues : List String :=
  ["exercise", "meditation", "socializing", "studying", "sleeping", "eating", "hobby", "work",
    "other"]

/-- The number of UTF-16 code units that hold a character: two (a surrogate pair) for a character
beyond U+FFFF, one otherwise. -/
def utf16Units (c : Char) : Nat := if c.toNat < 0x10000 then 1 else 2

/-- The `length` of a JavaScript string, which the `maxlength` validator compares with its bound:
the number of UTF-16 code units of the string. -/
def jsLength (s : String) : Nat := (s.data.map utf16Units).sum

/-- A `min`/`max` validator of the schema on an optional number. -/
def inRange (lo hi : Int) : Option Int → Bool
  | none => true
  | some v => decide (lo ≤ v) && decide (v ≤ hi)

/-- The validators of `moodSchema` on the document built from the payload. -/
def validMood (e : Mood) : Bool :=
  decide (e.mood ∈ moodValues) && inRange 1 10 (some e.intensity) &&
    e.activities.all (fun a => decide (a ∈ activityValues)) &&
    (match e.notes with | none => true | some n => decide (jsLength n ≤ 500)) &&
    inRange 0 24 e.sleepHours && inRange 1 10 e.stressLevel && inRange 1 10 e.energyLevel

/-- The constant `msPerDay` of ECMAScript: the milliseconds of 24 hours. -/
def msPerDay : Int := 86400000

/-- The time zone of the host as the `Date` methods see it, in milliseconds east of UTC.
`offsetAt t` is the offset of local time in force at the instant `t` (`LocalTZA(t, true)` of
ECMAScript); `offsetOfLocal w` is the offset by which the local time value `w` is read
(`LocalTZA(w, false)`: where a change of offset repeats or skips `w`, the offset in force before
the change). -/
structure Zone where
  offsetAt : Int → Int
  offsetOfLocal : Int → Int

/-- The local time value of the instant `t`: `LocalTime(t)`. -/
def Zone.localTime (z : Zone) (t : Int) : Int := t + z.offsetAt t

/-- The instant of the local time value `w`: `UTC(w)`. -/
def Zone.utc (z : Zone) (w : Int) : Int := w - z.offsetOfLocal w

/-- The number of the local calendar day of the instant `t`: `Day(LocalTime(t))`. -/
def Zone.localDay (z : Zone) (t : Int) : Int := z.localTime t / msPerDay

/-- The method `d.setHours(0, 0, 0, 0)` on the date of the instant `t`: the new instant is
`UTC(MakeDate(Day(LocalTime(t)), 0))`, midnight of the local day of `t`. -/
def setHoursZero (z : Zone) (t : Int) : Int := z.utc (z.localDay t * msPerDay)

/-- The method `d.setDate(d.getDate() + 1)` on the date of the instant `t`: the local time value
moves to the next calendar day at the same time of day, `UTC(LocalTime(t) + msPerDay)`. -/
def setDateNext (z : Zone) (t : Int) : Int := z.utc (z.localTime t + msPerDay)

/-- The date `today` of `POST /mood` after `today.setHours(0, 0, 0, 0)`, for the clock `now`. -/
def today (z : Zone) (now : Int) : Int := setHoursZero z now

/-- The date `tomorrow` after `tomorrow.setDate(tomorrow.getDate() + 1)`, built from `today`. -/
def tomorrow (z : Zone) (now : Int) : Int := setDateNext z (today z now)

/-- A zone that keeps the offset `tz` all year. -/
def fixedZone (tz : Int) : Zone := ⟨fun _ => tz, fun _ => tz⟩

/-- The rules of the zone `America/New_York` for the instants from 2023-03-12T07:00Z to
2024-11-03T06:00Z: daylight time (UTC-4), except standard time (UTC-5) from 2023-11-05T06:00Z,
when the clocks go back from 02:00 to 01:00, to 2024-03-10T07:00Z, when they go forward from
02:00 to 03:00.  The local times 01:00 to 02:00 of 5 November are read as daylight time and
those from 02:00 to 03:00 of 10 March as standard time. -/
def newYork : Zone where
  offsetAt t := if 1699164000000 ≤ t ∧ t < 1710054000000 then -18000000 else -14400000
  offsetOfLocal w :=
    if 1699164000000 - 14400000 ≤ w ∧ w < 1710054000000 - 14400000 then -18000000
    else -14400000

/-- The local calendar day never goes back as time passes. -/
def Zone.DaysInOrder (z : Zone) : Prop := ∀ s t : Int, s ≤ t → z.localDay s ≤ z.localDay t

/-- The dates `today` and `tomorrow` computed at `now` enclose the local calendar day of `now`:
every instant of that day lies in `[today, tomorrow)`. -/
def Zone.DayInWindow (z : Zone) : Prop :=
  ∀ now t : Int, z.localDay t = z.localDay now → today z now ≤ t ∧ t < tomorrow z now

/-- The filter `{ user, createdAt: { $gte: today, $lt: tomorrow } }`. -/
def isTodayOf (z : Zone) (now : Int) (userId : ObjectId) (e : Mood) : Bool :=
  decide (e.user = userId) && decide (today z now ≤ e.createdAt) &&
    decide (e.createdAt < tomorrow z now)

/-- Body of the responses of the mood handlers. -/
inductive MoodBody where
  | error (error : String)
  | conflict (error : String) (entry : Mood)
  | created (message : String) (entry : Mood)
  | message (message : String)
deriving DecidableEq, Repr

/-- The handler `router.post('/', auth, ...)` of `routes/mood.js`.  `now` is the clock at
`new Date()` (line 87), `newId` the `_id` that `new Mood(...)` allocates and `savedAt` the clock
when `entry.save()` stamps `createdAt`. -/
def createMood (z : Zone) (moods : List Mood) (userId : ObjectId) (body : MoodPayload)
    (now : Int) (newId : ObjectId) (savedAt : Int) : Response MoodBody × List Mood :=
  match moods.find? (isTodayOf z now userId) with
  | some existingEntry =>
    (⟨400, .conflict "Mood entry already exists for today" existingEntry⟩, moods)
  | none =>
    match body.mood with
    | none => (⟨500, .error "Failed to create mood entry"⟩, moods)
    | some mood =>
      let entry : Mood :=
        { _id := newId, user := userId, mood := mood, intensity := body.intensity.getD 5,
          activities := body.activities, notes := body.notes, sleepHours := body.sleepHours,
          stressLevel := body.stressLevel, energyLevel := body.energyLevel,
          isPrivate := body.isPrivate.getD true, tags := body.tags, createdAt := savedAt }
      if validMood entry then
        (⟨201, .created "Mood entry created successfully" entry⟩, moods ++ [entry])
      else
        (⟨500, .error "Failed to create mood entry"⟩, moods)

/-- The handler `router.delete('/:id', auth, ...)` of `routes/mood.js`. -/
def deleteMood (moods : List Mood) (userId : ObjectId) (id : ObjectId) :
    Response MoodBody × List Mood :=
  match findById moods id with
  | none => (⟨404, .error "Mood entry not found"⟩, moods)
  | some entry =>
    if entry.user ≠ userId then
      (⟨403, .error "Not authorized to delete this entry"⟩, moods)
    else
      (⟨200, .message "Mood entry deleted successfully"⟩, findByIdAndDelete moods id)

/-- The entry `e` is of user `u` and was created in the local calendar day number `d`. -/
def isOfDay (z : Zone) (u : ObjectId) (d : Int) (e : Mood) : Bool :=
  decide (e.user = u) && decide (z.localDay e.createdAt = d)

/-- Every user has at most one entry in every calendar day: for each user `u` and each local
calendar day `d` of the host, at most one entry of `u` has its `createdAt` in `d`. -/
def OnePerDay (z : Zone) (moods : List Mood) : Prop :=
  ∀ (u : ObjectId) (d : Int), moods.countP (isOfDay z u d) ≤ 1

/-- A create or delete request on the mood collection. -/
inductive MoodOp where
  | create (userId : ObjectId) (body : MoodPayload) (now : Int) (newId : ObjectId) (savedAt : Int)
  | delete (userId : ObjectId) (id : ObjectId)
deriving DecidableEq, Repr

/-- The collection after one request. -/
def stepMood (z : Zone) (moods : List Mood) : MoodOp → List Mood
  | .create userId body now newId savedAt => (createMood z moods userId body now newId savedAt).2
  | .delete userId id => (deleteMood moods userId id).2

/-- The collection after a sequence of requests served one after the other. -/
def runMoodOps (z : Zone) (moods : List Mood) (ops : List MoodOp) : List Mood :=
  ops.foldl (stepMood z) moods

/-- The clock readings of the requests never go back, starting from the reading `c`. -/
def ClockMonotone : Int → List MoodOp → Prop
  | _, [] => True
  | c, .create _ _ now _ savedAt :: ops => c ≤ now ∧ now ≤ savedAt ∧ ClockMonotone savedAt ops
  | c, .delete _ _ :: ops => ClockMonotone c ops

/-! ## Users (`models/User.js`) -/

/-- Modelled from the spec: the schema of `models/User.js`, which is not among the sources.  The
fields are those the spec lists for a User (`preferences` apart, whose shape it does not give). -/
structure User where
  _id : ObjectId
  username : String
  email : String
  password : String
  role : String
  firstName : String
  lastName : String
  bio : String
  avatar : String
  specialization : String
  isActive : Bool
  isVerified : Bool
  lastLogin : Option Int
deriving DecidableEq, Repr

instance : Document User := ⟨User._id⟩

/-! ## Chat (`models/Chat.js`, `models/Message.js`, `routes/chat.js`) -/

/-- The schema `chatSchema`; `unreadCount` is the `Map` from participant to count. -/
structure Chat where
  _id : ObjectId
  participants : List ObjectId
  chatType : String
  isActive : Bool
  lastMessage : Option ObjectId
  lastMessageTime : Int
  unreadCount : List (ObjectId × Nat)
deriving DecidableEq, Repr

instance : Document Chat := ⟨Chat._id⟩

/-- An element of `readBy` in `messageSchema`. -/
structure ReadReceipt where
  user : ObjectId
  readAt : Int
deriving DecidableEq, Repr

/-- The schema `messageSchema`, with the `createdAt` of `timestamps: true`. -/
structure Message where
  _id : ObjectId
  chat : ObjectId
  sender : ObjectId
  content : String
  messageType : String
  mediaUrl : Option String
  isRead : Bool
  readBy : List ReadReceipt
  isEdited : Bool
  editedAt : Option Int
  isDeleted : Bool
  createdAt : Int
deriving DecidableEq, Repr

instance : Document Message := ⟨Message._id⟩

/-- The `enum` of `chatType` in `chatSchema`. -/
def chatTypes : List String := ["student-counsellor", "student-peer", "group"]

/-- Body of the responses of the chat handlers. -/
inductive ChatBody where
  | error (error : String)
  | chat (success : Bool) (message : String) (chat : Chat)
  | detail (chat : Chat) (messages : List Message)
  | message (message : Message)
  | text (message : String)
deriving DecidableEq, Repr

/-- The filter `{ participants: { $all: [userId, targetId] }, chatType, isActive: true }`:
the `participants` array holds both ids. -/
def isExistingChat (userId targetId : ObjectId) (chatType : String) (ch : Chat) : Bool :=
  [userId, targetId].all (fun p => decide (p ∈ ch.participants)) &&
    decide (ch.chatType = chatType) && ch.isActive

/-- The document `new Chat({ participants: [userId, targetId], chatType })` with the defaults of
`chatSchema`. -/
def newChat (userId targetId : ObjectId) (chatType : String) (newId : ObjectId) (now : Int) :
    Chat :=
  { _id := newId, participants := [userId, targetId], chatType := chatType, isActive := true,
    lastMessage := none, lastMessageTime := now, unreadCount := [] }

/-- The handler `router.post('/', auth, ...)` of `routes/chat.js`.  `participantId` and
`counsellorId` are `none` when the body field is missing or empty, `chatType` is `none` when it is
missing; `newId` is the `_id` that `new Chat(...)` allocates and `now` the `Date.now` default of
`lastMessageTime`.  `chat.save()` rejects a `chatType` outside the `enum`. -/
def createChat (users : List User) (chats : List Chat) (userId : ObjectId)
    (participantId counsellorId : Option ObjectId) (chatType : Option String)
    (newId : ObjectId) (now : Int) : Response ChatBody × List Chat :=
  let chatType := chatType.getD "student-counsellor"
  match participantId <|> counsellorId with
  | none => (⟨400, .error "Participant ID or counsellor ID is required"⟩, chats)
  | some targetId =>
    match findById users targetId with
    | none => (⟨404, .error "Participant not found"⟩, chats)
    | some _ =>
      match chats.find? (isExistingChat userId targetId chatType) with
      | some existingChat => (⟨200, .chat true "Chat already exists" existingChat⟩, chats)
      | none =>
        let chat := newChat userId targetId chatType newId now
        if chatType ∈ chatTypes then
          (⟨201, .chat true "Chat created successfully" chat⟩, chats ++ [chat])
        else
          (⟨500, .error "Failed to create chat"⟩, chats)

/-- The participants of the chat are exactly `a` and `b`. -/
def isChatOfPair (a b : ObjectId) (ch : Chat) : Bool :=
  ch.participants.all (fun p => decide (p = a ∨ p = b)) &&
    decide (a ∈ ch.participants) && decide (b ∈ ch.participants)

/-- At most one active chat per participant pair and chat type. -/
def OneActiveChatPerPair (chats : List Chat) : Prop :=
  ∀ (a b : ObjectId) (k : String),
    chats.countP (fun ch => isChatOfPair a b ch && decide (ch.chatType = k) && ch.isActive) ≤ 1

/-- The validators `required` and `maxlength: 2000` of `content` in `messageSchema`. -/
def validContent (content : Option String) : Bool :=
  match content with
  | none => false
  | some c => decide (c ≠ "") && decide (jsLength c ≤ 2000)

/-- The handler `router.put('/messages/:messageId', auth, ...)` of `routes/chat.js`; `now` is the
`new Date()` given to `editedAt`.  `message.save()` rejects a missing, empty or too long
`content`. -/
def editMessage (messages : List Message) (messageId userId : ObjectId)
    (content : Option String) (now : Int) : Response ChatBody × List Message :=
  match findById messages messageId with
  | none => (⟨404, .error "Message not found"⟩, messages)
  | some message =>
    if message.sender ≠ userId then
      (⟨403, .error "Not authorized to edit this message"⟩, messages)
    else if validContent content then
      let message := { message with
        content := content.getD "", isEdited := true, editedAt := some now }
      (⟨200, .message message⟩, save messages message)
    else
      (⟨500, .error "Failed to edit message"⟩, messages)

/-- The handler `router.delete('/messages/:messageId', auth, ...)` of `routes/chat.js`. -/
def deleteMessage (messages : List Message) (messageId userId : ObjectId) :
    Response ChatBody × List Message :=
  match findById messages messageId with
  | none => (⟨404, .error "Message not found"⟩, messages)
  | some message =>
    if message.sender ≠ userId then
      (⟨403, .error "Not authorized to delete this message"⟩, messages)
    else
      (⟨200, .text "Message deleted successfully"⟩, save messages { message with isDeleted := true })

/-- The update `Message.updateMany({ chat, sender: { $ne: userId }, isRead: false },
{ isRead: true })`. -/
def markRead (messages : List Message) (chatId userId : ObjectId) : List Message :=
  messages.map (fun m =>
    if m.chat = chatId ∧ m.sender ≠ userId ∧ m.isRead = false then { m with isRead := true } else m)

/-- The handler `router.get('/:id', auth, ...)` of `routes/chat.js`.  The caller is a stored user,
so the populated `participants` hold the caller exactly when the stored array does.  The body
carries the messages as they were found before the update. -/
def getChat (chats : List Chat) (messages : List Message) (id userId : ObjectId) :
    Response ChatBody × List Message :=
  match findById chats id with
  | none => (⟨404, .error "Chat not found"⟩, messages)
  | some chat =>
    if !chat.participants.any (fun p => decide (p = userId)) then
      (⟨403, .error "Not authorized to access this chat"⟩, messages)
    else
      let found := (messages.filter (fun m => decide (m.chat = id) && !m.isDeleted)).insertionSort
        (fun a b => a.createdAt ≤ b.createdAt)
      (⟨200, .detail chat found⟩, markRead messages id userId)

/-! ## Detail fetches (`routes/forum.js`, `routes/resources.js`) -/

/-- The schema `forumReplySchema`, with the `createdAt` of `timestamps: true`. -/
structure ForumReply where
  _id : ObjectId
  forum : ObjectId
  author : ObjectId
  content : String
  isAnonymous : Bool
  parentReply : Option ObjectId
  upvotes : List ObjectId
  downvotes : List ObjectId
  isFlagged : Bool
  flagReason : Option String
  isModerated : Bool
  createdAt : Int
deriving DecidableEq, Repr

instance : Document ForumReply := ⟨ForumReply._id⟩

/-- The schema `resourceSchema`. -/
structure Resource where
  _id : ObjectId
  title : String
  description : String
  content : String
  category : String
  type : String
  mediaUrl : Option String
  thumbnail : Option String
  author : ObjectId
  tags : List String
  isPublished : Bool
  isFeatured : Bool
  views : Nat
  likes : Nat
  readingTime : Nat
  difficulty : String
deriving DecidableEq, Repr

instance : Document Resource := ⟨Resource._id⟩

/-- The value a JavaScript `Number` holds for the exact result `n`: the double nearest to `n`, a
tie going to the even significand.  A double has 53 significant bits, so the naturals up to
`2 ^ 53` are kept and a larger `n`, with `2 ^ k ≤ n < 2 ^ (k + 1)`, is rounded to a multiple of
`2 ^ (k - 52)`. -/
def toDouble (n : Nat) : Nat :=
  if n < 2 ^ 53 then n
  else
    let ulp := 2 ^ (Nat.log2 n - 52)
    let q := n / ulp
    let r := n % ulp
    if 2 * r < ulp then q * ulp
    else if ulp < 2 * r then (q + 1) * ulp
    else if q % 2 = 0 then q * ulp else (q + 1) * ulp

/-- The natural number `v` is the value of a `Number`. -/
def IsDouble (v : Nat) : Prop := toDouble v = v

/-- The statement `views += 1` on the `Number` path `views`. -/
def incrementViews (views : Nat) : Nat := toDouble (views + 1)

/-- Body of the responses of `GET /forum/:id`. -/
inductive ForumDetailBody where
  | error (error : String)
  | detail (post : Forum) (replies : List ForumReply)
deriving DecidableEq, Repr

/-- The handler `router.get('/:id', optionalAuth, ...)` of `routes/forum.js`. -/
def getForumPost (forums : List Forum) (replies : List ForumReply) (id : ObjectId) :
    Response ForumDetailBody × List Forum :=
  match findById forums id with
  | none => (⟨404, .error "Post not found"⟩, forums)
  | some post =>
    let post := { post with views := incrementViews post.views }
    let found := (replies.filter (fun r => decide (r.forum = id))).insertionSort
      (fun a b => a.createdAt ≤ b.createdAt)
    (⟨200, .detail post found⟩, save forums post)

/-- Body of the responses of `GET /resources/:id`. -/
inductive ResourceDetailBody where
  | error (error : String)
  | detail (resource : Resource)
deriving DecidableEq, Repr

/-- The handler `router.get('/:id', optionalAuth, ...)` of `routes/resources.js`; `user` is the
`req.user` that `optionalAuth` may have attached. -/
def getResource (resources : List Resource) (id : ObjectId) (user : Option User) :
    Response ResourceDetailBody × List Resource :=
  match findById resources id with
  | none => (⟨404, .error "Resource not found"⟩, resources)
  | some resource =>
    if !resource.isPublished &&
        (match user with | none => true | some u => decide (u.role ≠ "admin")) then
      (⟨404, .error "Resource not found"⟩, resources)
    else
      let resource := { resource with views := incrementViews resource.views }
      (⟨200, .detail resource⟩, save resources resource)

/-! ## List endpoints (`routes/forum.js`, `routes/admin.js`) -/

/-- The envelope `{ items, totalPages, currentPage, total }` of a list response. -/
structure Page (α : Type) where
  items : List α
  totalPages : Nat
  currentPage : Nat
  total : Nat
deriving DecidableEq, Repr

/-- The query `Model.find(query).sort(sortOptions).limit(limit * 1).skip((page - 1) * limit)`;
`sort` is the order the store gives to the matching documents. -/
def findPage {α : Type} (coll : List α) (query : α → Bool) (sort : List α → List α)
    (page limit : Nat) : List α :=
  ((sort (coll.filter query)).drop ((page - 1) * limit)).take limit

/-- The call `Model.countDocuments(query)`. -/
def countDocuments {α : Type} (coll : List α) (query : α → Bool) : Nat :=
  (coll.filter query).length

/-- The value `Math.ceil(total / limit)` for a positive `limit`. -/
def ceilDiv (total limit : Nat) : Nat := (total + limit - 1) / limit

/-- The `query` object of `GET /forum`: `isModerated: false`, the `category` when one is given,
the `$text` search when one is given; `textSearch` is the text match of the store. -/
def forumQuery (textSearch : String → Forum → Bool) (category search : Option String)
    (post : Forum) : Bool :=
  !post.isModerated &&
    (match category with | none => true | some c => decide (post.category = c)) &&
    (match search with | none => true | some q => textSearch q post)

/-- The handler `router.get('/', optionalAuth, ...)` of `routes/forum.js`, for positive integers
`page` and `limit`; `category` and `search` are `none` when missing or empty. -/
def listForum (textSearch : String → Forum → Bool) (sort : List Forum → List Forum)
    (forums : List Forum) (category search : Option String) (page limit : Nat) :
    Response (Page Forum) :=
  let query := forumQuery textSearch category search
  let posts := findPage forums query sort page limit
  let total := countDocuments forums query
  ⟨200, { items := posts, totalPages := ceilDiv total limit, currentPage := page, total := total }⟩

/-- An element of `flaggedItems`: the document with its `type`. -/
inductive FlaggedItem where
  | journal (item : Journal)
  | forum (item : Forum)
deriving DecidableEq, Repr

/-- The handler `router.get('/moderation/flagged', ...)` of `routes/admin.js`, for positive
integers `page` and `limit`; `type` is `none` when missing or empty. -/
def flaggedContent (sortJournals : List Journal → List Journal)
    (sortForums : List Forum → List Forum) (journals : List Journal) (forums : List Forum)
    (type : Option String) (page limit : Nat) : Response (Page FlaggedItem) :=
  let flaggedJournals :=
    if type = none ∨ type = some "journal" then
      (findPage journals (fun d => d.isFlagged) sortJournals page limit).map FlaggedItem.journal
    else []
  let flaggedForums :=
    if type = none ∨ type = some "forum" then
      (findPage forums (fun d => d.isFlagged) sortForums page limit).map FlaggedItem.forum
    else []
  let total := countDocuments journals (fun d => d.isFlagged) +
    countDocuments forums (fun d => d.isFlagged)
  ⟨200, { items := flaggedJournals ++ flaggedForums, totalPages := ceilDiv total limit,
          currentPage := page, total := total }⟩

/-- The documents that the query of `GET /admin/moderation/flagged` matches: the flagged journal
entries unless `type` asks for forum posts only, the flagged forum posts unless it asks for
journal entries only. -/
def flaggedMatching (journals : List Journal) (forums : List Forum) (type : Option String) :
    Nat :=
  (if type = none ∨ type = some "journal" then
      countDocuments journals (fun d => d.isFlagged) else 0) +
    (if type = none ∨ type = some "forum" then
      countDocuments forums (fun d => d.isFlagged) else 0)

/-! ## Auth middleware (`middleware/auth.js`) -/

/-- The parts of an Express request the middleware reads and writes: the `Authorization` header,
`req.user` and `req.token`. -/
structure Request where
  authorization : Option String
  user : Option User
  token : Option String
deriving DecidableEq, Repr

/-- What a middleware does with a request: it writes an error response, or it calls `next()`
with the request as it has left it. -/
inductive Outcome where
  | respond (status : Nat) (error : String)
  | next (req : Request)
deriving DecidableEq, Repr

/-- The payload that `jwt.verify` returns; `userId` is `none` when the payload has no usable
`userId`. -/
structure Decoded where
  userId : Option ObjectId
deriving DecidableEq, Repr

/-- The call `s.replace(pat, '')` of JavaScript for a string pattern: the first occurrence of
`pat` is removed. -/
def removeFirst (pat : List Char) : List Char → List Char
  | [] => []
  | c :: cs => if pat <+: c :: cs then (c :: cs).drop pat.length else c :: removeFirst pat cs

/-- The expression `req.header('Authorization')?.replace('Bearer ', '')`. -/
def bearerToken (req : Request) : Option String :=
  req.authorization.map (fun h => String.mk (removeFirst "Bearer ".data h.data))

/-- The middleware `auth` of `middleware/auth.js`.  `verify` is `jwt.verify` with the server
secret: `none` when it throws. -/
def auth (verify : String → Option Decoded) (users : List User) (req : Request) : Outcome :=
  match bearerToken req with
  | none => .respond 401 "Access denied. No token provided."
  | some token =>
    if token = "" then .respond 401 "Access denied. No token provided."
    else
      match verify token with
      | none => .respond 401 "Invalid token."
      | some decoded =>
        match decoded.userId.bind (findById users) with
        | none => .respond 401 "Invalid token."
        | some user =>
          if !user.isActive then .respond 401 "Account is deactivated."
          else .next { req with user := some user, token := some token }

/-- The argument of `requireRole`: an array of roles, or a single string as in
`requireRole('admin')`. -/
inductive Roles where
  | list (roles : List String)
  | text (roles : String)
deriving DecidableEq, Repr

/-- The call `roles.includes(role)`: membership for an array, substring test for a string. -/
def Roles.includes : Roles → String → Bool
  | .list roles, role => decide (role ∈ roles)
  | .text roles, role => decide (role.data <:+: roles.data)

/-- The middleware `requireRole(roles)` of `middleware/auth.js`. -/
def requireRole (roles : Roles) (req : Request) : Outcome :=
  match req.user with
  | none => .respond 401 "Authentication required."
  | some user =>
    if !roles.includes user.role then .respond 403 "Insufficient permissions."
    else .next req

/-- The middleware `optionalAuth` of `middleware/auth.js`. -/
def optionalAuth (verify : String → Option Decoded) (users : List User) (req : Request) :
    Outcome :=
  match bearerToken req with
  | none => .next req
  | some token =>
    if token = "" then .next req
    else
      match verify token with
      | none => .next req
      | some decoded =>
        match decoded.userId.bind (findById users) with
        | none => .next req
        | some user =>
          if user.isActive then .next { req with user := some user, token := some token }
          else .next req

/-- A chain of middleware: the second runs on the request the first passes on. -/
def Outcome.andThen (o : Outcome) (f : Request → Outcome) : Outcome :=
  match o with
  | .respond status error => .respond status error
  | .next req => f req

/-- The gate `router.use(auth, requireRole(['admin']))` in front of every route of
`routes/admin.js`. -/
def adminRouter (verify : String → Option Decoded) (users : List User) (req : Request) :
    Outcome :=
  (auth verify users req).andThen (requireRole (.list ["admin"]))

/-- The gates in front of `router.get('/database', auth, requireRole('admin'), ...)`: those of the
router, then those of the route. -/
def adminDatabase (verify : String → Option Decoded) (users : List User) (req : Request) :
    Outcome :=
  ((adminRouter verify users req).andThen (auth verify users)).andThen
    (requireRole (.text "admin"))

/-- The identity that the credential of a request resolves to: the request carries a token, the
token verifies, its subject is a stored user and that user is active. -/
def ResolvesTo (verify : String → Option Decoded) (users : List User) (req : Request)
    (user : User) (token : String) : Prop :=
  bearerToken req = some token ∧ token ≠ "" ∧
    ∃ decoded uid, verify token = some decoded ∧ decoded.userId = some uid ∧
      findById users uid = some user ∧ user.isActive = true

/-! ## Accounts (`routes/auth.js`, `routes/users.js`, `routes/admin.js`) -/

/-- A user document as a response body carries it: a path is present with its value or left
out. -/
structure UserJson where
  _id : Option ObjectId
  username : Option String
  email : Option String
  password : Option String
  role : Option String
  firstName : Option String
  lastName : Option String
  bio : Option String
  avatar : Option String
  specialization : Option String
  isActive : Option Bool
  isVerified : Option Bool
  lastLogin : Option Int
deriving DecidableEq, Repr

/-- The stored document with every path: what the driver returns for `find({})`. -/
def User.raw (u : User) : UserJson :=
  { _id := some u._id, username := some u.username, email := some u.email,
    password := some u.password, role := some u.role, firstName := some u.firstName,
    lastName := some u.lastName, bio := some u.bio, avatar := some u.avatar,
    specialization := some u.specialization, isActive := some u.isActive,
    isVerified := some u.isVerified, lastLogin := u.lastLogin }

/-- The projection `.select('-password')`. -/
def User.withoutPassword (u : User) : UserJson :=
  { u.raw with password := none }

/-- Modelled from the spec: the method `toJSON` of `models/User.js`, which is not among the
sources; the spec has the password 'never serialized to clients'. -/
def User.toJSON (u : User) : UserJson :=
  { u.raw with password := none }

/-- The object `limitedProfile` of `GET /users/:id`. -/
def User.limitedProfile (u : User) : UserJson :=
  { _id := some u._id, username := some u.username, email := none, password := none,
    role := some u.role, firstName := some u.firstName, lastName := some u.lastName,
    bio := some u.bio, avatar := some u.avatar, specialization := none, isActive := none,
    isVerified := some u.isVerified, lastLogin := none }

/-- Body of the responses of `POST /auth/register` and `POST /auth/login`. -/
inductive AuthBody where
  | error (error : String)
  | session (message : String) (user : UserJson) (token : String)
deriving DecidableEq, Repr

/-- The handler `router.post('/login', ...)` of `routes/auth.js`.  `comparePassword` is the method
of `models/User.js` (a bcrypt comparison), `sign` is `generateToken`, `now` the `new Date()`
given to `lastLogin`. -/
def login (comparePassword : User → Option String → Bool) (sign : ObjectId → String)
    (users : List User) (email password : Option String) (now : Int) :
    Response AuthBody × List User :=
  match users.find? (fun u => decide (some u.email = email)) with
  | none => (⟨401, .error "Invalid email or password"⟩, users)
  | some user =>
    if !user.isActive then
      (⟨401, .error "Account is deactivated. Please contact support."⟩, users)
    else if !comparePassword user password then
      (⟨401, .error "Invalid email or password"⟩, users)
    else
      let user := { user with lastLogin := some now }
      (⟨200, .session "Login successful" user.toJSON (sign user._id)⟩, save users user)

/-- The fields that `POST /auth/register` reads from `req.body`; `profile` is the pair of names. -/
structure RegisterBody where
  username : Option String
  email : Option String
  password : Option String
  role : Option String
  profile : Option (String × String)
deriving DecidableEq, Repr

/-- The handler `router.post('/register', ...)` of `routes/auth.js`.  `build` is
`new User({ username, email, password, role, profile })` followed by `save()`, with the defaults,
validators and password hashing of `models/User.js`: `none` when `save` throws. -/
def register (build : RegisterBody → ObjectId → Option User) (sign : ObjectId → String)
    (users : List User) (body : RegisterBody) (newId : ObjectId) :
    Response AuthBody × List User :=
  let body := { body with role := some (body.role.getD "student") }
  match users.find? (fun u =>
      decide (some u.email = body.email) || decide (some u.username = body.username)) with
  | some _ => (⟨400, .error "User with this email or username already exists"⟩, users)
  | none =>
    match build body newId with
    | none => (⟨500, .error "Registration failed. Please try again."⟩, users)
    | some user =>
      (⟨201, .session "User registered successfully" user.toJSON (sign user._id)⟩,
        users ++ [user])

/-- The query `{ role?, isActive? }` of the two user lists. -/
def userQuery (role : Option String) (isActive : Option String) (u : User) : Bool :=
  (match role with | none => true | some r => decide (u.role = r)) &&
    (match isActive with | none => true | some a => decide (u.isActive = decide (a = "true")))

/-- The handlers `router.get('/', auth, requireRole(['admin']), ...)` of `routes/users.js` and
`router.get('/users', ...)` of `routes/admin.js`, which have the same body; for positive integers
`page` and `limit`. -/
def listUsers (sort : List User → List User) (users : List User)
    (role isActive : Option String) (page limit : Nat) : Response (Page UserJson) :=
  let query := userQuery role isActive
  let found := (findPage users query sort page limit).map User.withoutPassword
  let total := countDocuments users query
  ⟨200, { items := found, totalPages := ceilDiv total limit, currentPage := page,
          total := total }⟩

/-- Body of the responses of `GET /users/:id`. -/
inductive UserBody where
  | error (error : String)
  | user (user : UserJson)
deriving DecidableEq, Repr

/-- The handler `router.get('/:id', auth, ...)` of `routes/users.js`; `caller` is `req.user`. -/
def getUser (users : List User) (id : ObjectId) (caller : User) : Response UserBody :=
  match findById users id with
  | none => ⟨404, .error "User not found"⟩
  | some user =>
    if caller._id ≠ id ∧ caller.role ≠ "admin" then ⟨200, .user user.limitedProfile⟩
    else ⟨200, .user user.withoutPassword⟩

/-- The `data` of the response of `GET /admin/database`: for each collection the documents that
`db.collection(name).find({}).toArray()` returns, read from the driver without any schema. -/
structure DatabaseDump where
  users : List UserJson
  journals : List Journal
  forums : List Forum
  forumreplies : List ForumReply
  moods : List Mood
  chats : List Chat
  messages : List Message
  resources : List Resource
deriving DecidableEq, Repr

/-- The handler `router.get('/database', auth, requireRole('admin'), ...)` of
`routes/admin.js`. -/
def getDatabase (users : List User) (journals : List Journal) (forums : List Forum)
    (forumreplies : List ForumReply) (moods : List Mood) (chats : List Chat)
    (messages : List Message) (resources : List Resource) : Response DatabaseDump :=
  ⟨200, { users := users.map User.raw, journals := journals, forums := forums,
          forumreplies := forumreplies, moods := moods, chats := chats, messages := messages,
          resources := resources }⟩

/-! ## Public journal feed (`routes/journal.js`) -/

/-- The author of an entry after `.populate('author', 'username profile.firstName
profile.lastName')`: the selected paths and the `_id`. -/
structure PublicAuthor where
  _id : ObjectId
  username : String
  firstName : String
  lastName : String
deriving DecidableEq, Repr

/-- An entry of the feed: the stored entry with its populated author, `none` when the author is
not stored any more. -/
structure FeedEntry where
  entry : Journal
  author : Option PublicAuthor
deriving DecidableEq, Repr

/-- The population of `author`. -/
def populateAuthor (users : List User) (author : ObjectId) : Option PublicAuthor :=
  (findById users author).map (fun u =>
    { _id := u._id, username := u.username, firstName := u.firstName, lastName := u.lastName })

/-- The `query` object of `GET /journal/public`: `isPublic: true`, `isModerated: false` and the
`mood` when one is given. -/
def publicQuery (mood : Option String) (e : Journal) : Bool :=
  e.isPublic && !e.isModerated &&
    (match mood with | none => true | some m => decide (e.mood = m))

/-- The handler `router.get('/public', optionalAuth, ...)` of `routes/journal.js`, for positive
integers `page` and `limit`; `mood` is `none` when missing or empty.  The handler does not read
`req.user`. -/
def publicFeed (sort : List Journal → List Journal) (users : List User)
    (journals : List Journal) (mood : Option String) (page limit : Nat) :
    Response (Page FeedEntry) :=
  let query := publicQuery mood
  let entries := (findPage journals query sort page limit).map (fun e =>
    { entry := e, author := populateAuthor users e.author })
  let total := countDocuments journals query
  ⟨200, { items := entries, totalPages := ceilDiv total limit, currentPage := page,
          total := total }⟩

/-! ## Resource likes (`routes/resources.js`) -/

/-- A value of the path `likes` as the handler of `POST /resources/:id/like` meets it.  The
schema declares `likes` a Number, so a loaded resource carries a `number`. -/
inductive LikesValue where
  | number (n : Nat)
  | array (ids : List ObjectId)
deriving DecidableEq, Repr

/-- The call `likes.includes(userId)`: an array has the method, a number has not and the call
throws a `TypeError`. -/
def LikesValue.includes : LikesValue → ObjectId → Option Bool
  | .array ids, userId => some (decide (userId ∈ ids))
  | .number _, _ => none

/-- Lines 173-179 of `routes/resources.js` on an array of user ids: the toggle the handler
intends, with the message it would send. -/
def toggleLike (ids : List ObjectId) (userId : ObjectId) : List ObjectId × String :=
  if userId ∈ ids then (ids.filter (fun id => decide (id ≠ userId)), "Resource unliked")
  else (ids ++ [userId], "Resource liked")

/-- Body of the responses of `POST /resources/:id/like`. -/
inductive LikeBody where
  | error (error : String)
  | liked (message : String) (likes : Nat)
deriving DecidableEq, Repr

/-- The handler `router.post('/:id/like', auth, ...)` of `routes/resources.js`.  On the array
branch, which a loaded resource never takes, the array assigned to the Number path `likes` does
not pass `save`. -/
def likeResource (resources : List Resource) (id userId : ObjectId) :
    Response LikeBody × List Resource :=
  match findById resources id with
  | none => (⟨404, .error "Resource not found"⟩, resources)
  | some resource =>
    match (LikesValue.number resource.likes).includes userId with
    | none => (⟨500, .error "Failed to like resource"⟩, resources)
    | some _ => (⟨500, .error "Failed to like resource"⟩, resources)

/-! ## Owner operations on journal entries, forum posts and mood entries -/

/-- Body of the responses of the update, delete and flag handlers. -/
inductive DocBody (α : Type) where
  | error (error : String)
  | message (message : String)
  | updated (message : String) (doc : α)
deriving DecidableEq, Repr

/-- The `enum` of `flagReason` in `journalSchema` and `forumSchema`. -/
def flagReasons : List String := ["inappropriate", "spam", "harassment", "other"]

/-- The validator of `flagReason` on the reason of a flag request: none, or one of the `enum`. -/
def validReason (reason : Option String) : Bool :=
  match reason with
  | none => true
  | some r => decide (r ∈ flagReasons)

/-- The `enum` of `mood` in `journalSchema`. -/
def journalMoods : List String :=
  ["very-happy", "happy", "neutral", "sad", "very-sad", "anxious", "stressed", "excited", "calm"]

/-- The `enum` of `category` in `forumSchema`. -/
def forumCategories : List String :=
  ["general", "academic-stress", "relationships", "anxiety", "depression", "self-care",
    "motivation", "crisis-support"]

/-- The `req.body` of `PUT /journal/:id`: for each scalar path of `journalSchema` and for `tags`,
the value the body gives it, if any.  `flagReason` may be given as `null`. -/
structure JournalUpdate where
  author : Option ObjectId
  content : Option String
  mood : Option String
  isAnonymous : Option Bool
  isPublic : Option Bool
  tags : Option (List String)
  isFlagged : Option Bool
  flagReason : Option (Option String)
  isModerated : Option Bool
deriving DecidableEq, Repr

/-- The update validators (`runValidators: true`) on the paths the body sets. -/
def JournalUpdate.valid (body : JournalUpdate) : Bool :=
  (match body.content with
    | none => true
    | some c => decide (c ≠ "") && decide (jsLength c ≤ 2000)) &&
  (match body.mood with | none => true | some m => decide (m ∈ journalMoods)) &&
  (match body.flagReason with
    | some (some r) => decide (r ∈ flagReasons)
    | _ => true)

/-- The document after `findByIdAndUpdate(id, req.body)`: every path the body gives is set. -/
def JournalUpdate.apply (body : JournalUpdate) (e : Journal) : Journal :=
  { e with
    author := body.author.getD e.author
    content := body.content.getD e.content
    mood := body.mood.getD e.mood
    isAnonymous := body.isAnonymous.getD e.isAnonymous
    isPublic := body.isPublic.getD e.isPublic
    tags := body.tags.getD e.tags
    isFlagged := body.isFlagged.getD e.isFlagged
    flagReason := body.flagReason.getD e.flagReason
    isModerated := body.isModerated.getD e.isModerated }

/-- The handler `router.put('/:id', auth, ...)` of `routes/journal.js`. -/
def updateJournal (journals : List Journal) (id userId : ObjectId) (body : JournalUpdate) :
    Response (DocBody Journal) × List Journal :=
  match findById journals id with
  | none => (⟨404, .error "Entry not found"⟩, journals)
  | some entry =>
    if entry.author ≠ userId then
      (⟨403, .error "Not authorized to edit this entry"⟩, journals)
    else if body.valid then
      (⟨200, .updated "Entry updated successfully" (body.apply entry)⟩,
        save journals (body.apply entry))
    else
      (⟨500, .error "Failed to update entry"⟩, journals)

/-- The handler `router.delete('/:id', auth, ...)` of `routes/journal.js`. -/
def deleteJournal (journals : List Journal) (id userId : ObjectId) :
    Response (DocBody Journal) × List Journal :=
  match findById journals id with
  | none => (⟨404, .error "Entry not found"⟩, journals)
  | some entry =>
    if entry.author ≠ userId then
      (⟨403, .error "Not authorized to delete this entry"⟩, journals)
    else
      (⟨200, .message "Entry deleted successfully"⟩, findByIdAndDelete journals id)

/-- The handler `router.post('/:id/flag', auth, ...)` of `routes/journal.js`; `reason` is `none`
when the body has none.  `entry.save()` rejects a reason outside the `enum`. -/
def flagJournal (journals : List Journal) (id : ObjectId) (reason : Option String) :
    Response (DocBody Journal) × List Journal :=
  match findById journals id with
  | none => (⟨404, .error "Entry not found"⟩, journals)
  | some entry =>
    if validReason reason then
      (⟨200, .message "Entry flagged for moderation"⟩,
        save journals { entry with isFlagged := true, flagReason := reason })
    else
      (⟨500, .error "Failed to flag entry"⟩, journals)

/-- The `req.body` of `PUT /forum/:id`: for each scalar path of `forumSchema` and for `tags`, the
value the body gives it, if any. -/
structure ForumUpdate where
  title : Option String
  description : Option String
  category : Option String
  author : Option ObjectId
  isAnonymous : Option Bool
  isPinned : Option Bool
  isLocked : Option Bool
  views : Option Nat
  tags : Option (List String)
  isFlagged : Option Bool
  flagReason : Option (Option String)
  isModerated : Option Bool
deriving DecidableEq, Repr

/-- The update validators (`runValidators: true`) on the paths the body sets. -/
def ForumUpdate.valid (body : ForumUpdate) : Bool :=
  (match body.title with
    | none => true
    | some t => decide (t ≠ "") && decide (jsLength t ≤ 200)) &&
  (match body.description with
    | none => true
    | some d => decide (d ≠ "") && decide (jsLength d ≤ 1000)) &&
  (match body.category with | none => true | some c => decide (c ∈ forumCategories)) &&
  (match body.flagReason with
    | some (some r) => decide (r ∈ flagReasons)
    | _ => true)

/-- The document after `findByIdAndUpdate(id, req.body)`: every path the body gives is set. -/
def ForumUpdate.apply (body : ForumUpdate) (p : Forum) : Forum :=
  { p with
    title := body.title.getD p.title
    description := body.description.getD p.description
    category := body.category.getD p.category
    author := body.author.getD p.author
    isAnonymous := body.isAnonymous.getD p.isAnonymous
    isPinned := body.isPinned.getD p.isPinned
    isLocked := body.isLocked.getD p.isLocked
    views := body.views.getD p.views
    tags := body.tags.getD p.tags
    isFlagged := body.isFlagged.getD p.isFlagged
    flagReason := body.flagReason.getD p.flagReason
    isModerated := body.isModerated.getD p.isModerated }

/-- The handler `router.put('/:id', auth, ...)` of `routes/forum.js`. -/
def updateForum (forums : List Forum) (id userId : ObjectId) (body : ForumUpdate) :
    Response (DocBody Forum) × List Forum :=
  match findById forums id with
  | none => (⟨404, .error "Post not found"⟩, forums)
  | some post =>
    if post.author ≠ userId then
      (⟨403, .error "Not authorized to edit this post"⟩, forums)
    else if body.valid then
      (⟨200, .updated "Post updated successfully" (body.apply post)⟩,
        save forums (body.apply post))
    else
      (⟨500, .error "Failed to update forum post"⟩, forums)

/-- The handler `router.delete('/:id', auth, ...)` of `routes/forum.js`: the replies of the post
go with `ForumReply.deleteMany({ forum: id })`, then the post; `caller` is `req.user`. -/
def deleteForum (forums : List Forum) (replies : List ForumReply) (id : ObjectId)
    (caller : User) : Response (DocBody Forum) × List Forum × List ForumReply :=
  match findById forums id with
  | none => (⟨404, .error "Post not found"⟩, forums, replies)
  | some post =>
    if post.author ≠ caller._id ∧ caller.role ≠ "admin" then
      (⟨403, .error "Not authorized to delete this post"⟩, forums, replies)
    else
      (⟨200, .message "Post deleted successfully"⟩, findByIdAndDelete forums id,
        replies.filter (fun r => !decide (r.forum = id)))

/-- The handler `router.post('/:id/flag', auth, ...)` of `routes/forum.js`. -/
def flagForum (forums : List Forum) (id : ObjectId) (reason : Option String) :
    Response (DocBody Forum) × List Forum :=
  match findById forums id with
  | none => (⟨404, .error "Post not found"⟩, forums)
  | some post =>
    if validReason reason then
      (⟨200, .message "Post flagged for moderation"⟩,
        save forums { post with isFlagged := true, flagReason := reason })
    else
      (⟨500, .error "Failed to flag post"⟩, forums)

/-- The `req.body` of `PUT /mood/:id`: for each path of `moodSchema`, the value the body gives
it, if any. -/
structure MoodUpdate where
  user : Option ObjectId
  mood : Option String
  intensity : Option Int
  activities : Option (List String)
  notes : Option String
  sleepHours : Option Int
  stressLevel : Option Int
  energyLevel : Option Int
  isPrivate : Option Bool
  tags : Option (List String)
deriving DecidableEq, Repr

/-- The document after `findByIdAndUpdate(id, req.body)`: every path the body gives is set. -/
def MoodUpdate.apply (body : MoodUpdate) (e : Mood) : Mood :=
  { e with
    user := body.user.getD e.user
    mood := body.mood.getD e.mood
    intensity := body.intensity.getD e.intensity
    activities := body.activities.getD e.activities
    notes := (body.notes.map some).getD e.notes
    sleepHours := (body.sleepHours.map some).getD e.sleepHours
    stressLevel := (body.stressLevel.map some).getD e.stressLevel
    energyLevel := (body.energyLevel.map some).getD e.energyLevel
    isPrivate := body.isPrivate.getD e.isPrivate
    tags := body.tags.getD e.tags }

/-- The handler `router.put('/:id', auth, ...)` of `routes/mood.js`; the update validators are
those of `validMood` on the paths the body sets. -/
def updateMood (moods : List Mood) (id userId : ObjectId) (body : MoodUpdate) :
    Response (DocBody Mood) × List Mood :=
  match findById moods id with
  | none => (⟨404, .error "Mood entry not found"⟩, moods)
  | some entry =>
    if entry.user ≠ userId then
      (⟨403, .error "Not authorized to edit this entry"⟩, moods)
    else if validMood (body.apply entry) then
      (⟨200, .updated "Mood entry updated successfully" (body.apply entry)⟩,
        save moods (body.apply entry))
    else
      (⟨500, .error "Failed to update mood entry"⟩, moods)

/-! ## Dashboard (`frontend/js/dashboard.js`) -/

/-- The loop of `calculateMoodStreak` from the entry it has reached, with the current value of
`streak`; `today` is the date `today` after `setHours(0, 0, 0, 0)`, the list holds the `createdAt`
of the remaining entries.  The difference of two dates is their difference in milliseconds. -/
def streakLoop (z : Zone) (today : Int) : List Int → Nat → Nat
  | [], streak => streak
  | createdAt :: rest, streak =>
    let entryDate := setHoursZero z createdAt
    let diffDays := (today - entryDate) / (1000 * 60 * 60 * 24)
    if diffDays = (streak : Int) then streakLoop z today rest (streak + 1) else streak

/-- The function `calculateMoodStreak(entries)` of `frontend/js/dashboard.js`, in a browser of
time zone `z` at the instant `now`; `entries` is `none` when the argument is missing. -/
def calculateMoodStreak (z : Zone) (now : Int) (entries : Option (List Mood)) : Nat :=
  match entries with
  | none => 0
  | some [] => 0
  | some es => streakLoop z (setHoursZero z now) (es.map (fun e => e.createdAt)) 0

/-- The local calendar day of the instant `t` is exactly `i` days before that of `now`. -/
def daysBefore (z : Zone) (now : Int) (i : Nat) (t : Int) : Prop :=
  z.localDay t = z.localDay now - (i : Int)

/-! ## Sample data -/

/-- A flagged forum post whose vote lists hold user 7 on both sides. -/
def samplePost : Forum :=
  { _id := 1, title := "Exam stress", description := "How do you cope?",
    category := "academic-stress", author := 10, isAnonymous := true, isPinned := false,
    isLocked := false, views := 3, upvotes := [7, 8], downvotes := [7, 9], tags := ["exams"],
    isFlagged := true, flagReason := some "spam", isModerated := false }

/-- A forum post nobody has voted on. -/
def freshPost : Forum :=
  { _id := 2, title := "Sleep", description := "Tips wanted", category := "self-care",
    author := 11, isAnonymous := false, isPinned := false, isLocked := false, views := 0,
    upvotes := [], downvotes := [], tags := [], isFlagged := false, flagReason := none,
    isModerated := false }

/-- A flagged journal entry with two reactions. -/
def sampleEntry : Journal :=
  { _id := 5, author := 10, content := "A long day", mood := "stressed", isAnonymous := true,
    isPublic := true, tags := [], reactions := [⟨7, "hug", 100⟩, ⟨8, "heart", 120⟩],
    comments := [], isFlagged := true, flagReason := some "other", isModerated := false }

/-- A second journal entry. -/
def otherEntry : Journal :=
  { _id := 6, author := 11, content := "Better today", mood := "calm", isAnonymous := false,
    isPublic := true, tags := [], reactions := [], comments := [], isFlagged := false,
    flagReason := none, isModerated := false }

/-- A mood entry of user 7 created on 2023-11-14 at 22:13:20 UTC. -/
def sampleMood : Mood :=
  { _id := 20, user := 7, mood := "happy", intensity := 7, activities := ["exercise"],
    notes := none, sleepHours := some 8, stressLevel := none, energyLevel := none,
    isPrivate := true, tags := [], createdAt := 1700000000000 }

/-- A mood entry of user 7 created on 5 November 2023 at 00:30 in New York (04:30 UTC), the day
the clocks go back. -/
def novemberMood : Mood := { sampleMood with _id := 25, createdAt := 1699158600000 }

/-- A mood entry of user 7 created on 11 March 2024 at 09:00 in New York (13:00 UTC). -/
def marchMood : Mood := { sampleMood with _id := 26, createdAt := 1710162000000 }

/-- A mood entry of user 7 created on 10 March 2024 at 19:00 in New York (23:00 UTC), the day the
clocks go forward. -/
def springMood : Mood := { sampleMood with _id := 27, createdAt := 1710111600000 }

/-- A payload of `POST /mood`. -/
def samplePayload : MoodPayload :=
  { mood := some "calm", intensity := none, activities := [], notes := none, sleepHours := none,
    stressLevel := some 3, energyLevel := none, isPrivate := none, tags := [] }

/-- Requests of 5 and 6 November 2023 in New York: user 7 posts on the 5th at 23:30 (04:30 UTC of
the 6th), user 8 posts, user 7 posts again, user 7 posts on the 6th, user 7 deletes entry 21. -/
def novemberOps : List MoodOp :=
  [.create 7 samplePayload 1699245000000 21 1699245000004,
    .create 8 samplePayload 1699245000100 22 1699245000104,
    .create 7 samplePayload 1699245000200 23 1699245000204,
    .create 7 samplePayload 1699250000000 24 1699250000003, .delete 7 21]

/-- A student. -/
def studentUser : User :=
  { _id := 1, username := "asha", email := "asha@example.org", password := "h1",
    role := "student", firstName := "Asha", lastName := "K", bio := "", avatar := "",
    specialization := "", isActive := true, isVerified := true, lastLogin := none }

/-- A counsellor. -/
def counsellorUser : User :=
  { _id := 2, username := "ravi", email := "ravi@example.org", password := "h2",
    role := "counsellor", firstName := "Ravi", lastName := "S", bio := "", avatar := "",
    specialization := "anxiety", isActive := true, isVerified := true, lastLogin := none }

/-- An admin. -/
def adminUser : User :=
  { _id := 3, username := "root", email := "root@example.org", password := "h3",
    role := "admin", firstName := "Ro", lastName := "Ot", bio := "", avatar := "",
    specialization := "", isActive := true, isVerified := true, lastLogin := none }

/-- A deactivated student. -/
def inactiveUser : User :=
  { _id := 4, username := "gone", email := "gone@example.org", password := "h4",
    role := "student", firstName := "Go", lastName := "Ne", bio := "", avatar := "",
    specialization := "", isActive := false, isVerified := false, lastLogin := none }

/-- The users collection of the examples. -/
def sampleUsers : List User := [studentUser, counsellorUser, adminUser, inactiveUser]

/-- An active chat between users 1 and 2. -/
def sampleChat : Chat :=
  { _id := 30, participants := [1, 2], chatType := "student-counsellor", isActive := true,
    lastMessage := none, lastMessageTime := 100, unreadCount := [] }

/-- An active group chat of users 1, 2 and 3. -/
def groupChat : Chat :=
  { _id := 31, participants := [1, 2, 3], chatType := "group", isActive := true,
    lastMessage := none, lastMessageTime := 100, unreadCount := [] }

/-- The first message of chat 30, sent by user 1. -/
def helloMessage : Message :=
  { _id := 40, chat := 30, sender := 1, content := "hello", messageType := "text",
    mediaUrl := none, isRead := false, readBy := [], isEdited := false, editedAt := none,
    isDeleted := false, createdAt := 110 }

/-- Messages of chat 30 by both participants and one message of chat 31. -/
def sampleMessages : List Message :=
  [ helloMessage,
    { _id := 41, chat := 30, sender := 2, content := "hi", messageType := "text",
      mediaUrl := none, isRead := false, readBy := [], isEdited := false, editedAt := none,
      isDeleted := false, createdAt := 120 },
    { _id := 42, chat := 31, sender := 3, content := "welcome", messageType := "system",
      mediaUrl := none, isRead := false, readBy := [], isEdited := false, editedAt := none,
      isDeleted := false, createdAt := 130 },
    { _id := 43, chat := 30, sender := 2, content := "typo", messageType := "text",
      mediaUrl := none, isRead := false, readBy := [], isEdited := false, editedAt := none,
      isDeleted := true, createdAt := 140 } ]

/-- A published resource. -/
def sampleResource : Resource :=
  { _id := 50, title := "Breathing", description := "A short guide", content := "Breathe in",
    category := "mindfulness", type := "guide", mediaUrl := none, thumbnail := none,
    author := 2, tags := [], isPublished := true, isFeatured := false, views := 10, likes := 0,
    readingTime := 5, difficulty := "beginner" }

/-- The post `samplePost` with its `views` at `2 ^ 53`. -/
def busyPost : Forum := { samplePost with views := 9007199254740992 }

/-- A body of `PUT /forum/:id` that sets `views` to `2 ^ 53`. -/
def setViews : ForumUpdate :=
  { title := none, description := none, category := none, author := none, isAnonymous := none,
    isPinned := none, isLocked := none, views := some 9007199254740992, tags := none,
    isFlagged := none, flagReason := none, isModerated := none }

/-- The resource `sampleResource` with its `views` at `2 ^ 53`. -/
def busyResource : Resource := { sampleResource with views := 9007199254740992 }

/-- A draft resource. -/
def draftResource : Resource :=
  { _id := 51, title := "Draft", description := "Not yet", content := "...",
    category := "anxiety", type := "article", mediaUrl := none, thumbnail := none,
    author := 2, tags := [], isPublished := false, isFeatured := false, views := 0, likes := 0,
    readingTime := 5, difficulty := "beginner" }

/-- A token verifier for the examples: the token `t<n>` is signed for user `n`, the token
`nouser` verifies without a subject, anything else does not verify. -/
def sampleVerify (token : String) : Option Decoded :=
  if token = "t1" then some ⟨some 1⟩
  else if token = "t3" then some ⟨some 3⟩
  else if token = "t4" then some ⟨some 4⟩
  else if token = "t9" then some ⟨some 9⟩
  else if token = "nouser" then some ⟨none⟩
  else none

/-- A request with the given `Authorization` header and no identity. -/
def requestWith (authorization : Option String) : Request :=
  { authorization := authorization, user := none, token := none }

/-- A password check for the examples: the password of user `n` is `pw<n>`. -/
def sampleCompare (u : User) (password : Option String) : Bool :=
  decide (password = some ("pw" ++ toString u._id))

/-- A token issuer for the examples. -/
def sampleSign (userId : ObjectId) : String := "t" ++ toString userId

/-- A user builder for the examples: it takes the names the body gives and rejects a body
without username, email or password. -/
def sampleBuild (body : RegisterBody) (newId : ObjectId) : Option User :=
  match body.username, body.email, body.password with
  | some username, some email, some password =>
    some { _id := newId, username := username, email := email, password := "h" ++ password,
           role := body.role.getD "student", firstName := "", lastName := "", bio := "",
           avatar := "", specialization := "", isActive := true, isVerified := false,
           lastLogin := none }
  | _, _, _ => none

/-- A body that moves a journal entry out of moderation. -/
def unflagJournal : JournalUpdate :=
  { author := none, content := none, mood := none, isAnonymous := none, isPublic := none,
    tags := none, isFlagged := some false, flagReason := some none, isModerated := some true }

/-- A body that changes the content of a journal entry. -/
def editJournal : JournalUpdate :=
  { author := none, content := some "edited", mood := none, isAnonymous := none,
    isPublic := none, tags := none, isFlagged := none, flagReason := none, isModerated := none }

/-- A body that changes the title of a forum post. -/
def editForum : ForumUpdate :=
  { title := some "edited", description := none, category := none, author := none,
    isAnonymous := none, isPinned := none, isLocked := none, views := none, tags := none,
    isFlagged := none, flagReason := none, isModerated := none }

/-- A body that changes the intensity of a mood entry. -/
def editMood : MoodUpdate :=
  { user := none, mood := none, intensity := some 3, activities := none, notes := none,
    sleepHours := none, stressLevel := none, energyLevel := none, isPrivate := none,
    tags := none }

/-- Two replies to `samplePost` and one to `freshPost`. -/
def sampleReplies : List ForumReply :=
  [ { _id := 60, forum := 1, author := 11, content := "same here", isAnonymous := true,
      parentReply := none, upvotes := [], downvotes := [], isFlagged := false,
      flagReason := none, isModerated := false, createdAt := 150 },
    { _id := 61, forum := 2, author := 10, content := "try tea", isAnonymous := true,
      parentReply := none, upvotes := [], downvotes := [], isFlagged := false,
      flagReason := none, isModerated := false, createdAt := 160 },
    { _id := 62, forum := 1, author := 10, content := "thanks", isAnonymous := true,
      parentReply := some 60, upvotes := [], downvotes := [], isFlagged := false,
      flagReason := none, isModerated := false, createdAt := 170 } ]

/-! ### Store lemmas -/

theorem findById_id {α : Type} [Document α] {coll : List α} {id : ObjectId} {d : α}
    (h : findById coll id = some d) : Document._id d = id := by
  have := List.find?_some h
  simpa using this

theorem findById_save_same {α : Type} [Document α] (coll : List α) (id : ObjectId) (d x : α)
    (h : findById coll id = some d) (hx : Document._id x = id) :
    findById (save coll x) id = some x := by
  induction coll with
  | nil => simp [findById] at h
  | cons a as ih =>
    unfold findById at h ih ⊢
    by_cases ha : Document._id a = id
    · simp [save, ha, hx]
    · have hne : ¬ Document._id a = Document._id x := by rw [hx]; exact ha
      simp only [save, hne, if_false]
      rw [List.find?_cons_of_neg _ (by simpa using ha)] at h ⊢
      exact ih h

theorem findById_save_other {α : Type} [Document α] (coll : List α) (id : ObjectId) (x : α)
    (hx : Document._id x ≠ id) :
    findById (save coll x) id = findById coll id := by
  induction coll with
  | nil => simp [save]
  | cons a as ih =>
    unfold findById at ih ⊢
    by_cases hax : Document._id a = Document._id x
    · have ha : ¬ Document._id a = id := by rw [hax]; exact hx
      simp only [save, hax, if_true]
      rw [List.find?_cons_of_neg _ (by simpa using hx), List.find?_cons_of_neg _ (by simpa using ha)]
    · simp only [save, hax, if_false]
      by_cases ha : Document._id a = id
      · simp [ha]
      · rw [List.find?_cons_of_neg _ (by simpa using ha), List.find?_cons_of_neg _ (by simpa using ha)]
        exact ih

theorem save_self {α : Type} [Document α] (coll : List α) (id : ObjectId) (d : α)
    (h : findById coll id = some d) : save coll d = coll := by
  have hd := findById_id h
  induction coll with
  | nil => rfl
  | cons a as ih =>
    unfold findById at h ih
    by_cases ha : Document._id a = id
    · rw [List.find?_cons_of_pos _ (by simpa using ha)] at h
      have : a = d := by simpa using h
      subst this
      simp [save]
    · have hne : ¬ Document._id a = Document._id d := by rw [hd]; exact ha
      rw [List.find?_cons_of_neg _ (by simpa using ha)] at h
      simp only [save, hne, if_false, ih h]

theorem save_save {α : Type} [Document α] (coll : List α) (x y : α)
    (h : Document._id x = Document._id y) : save (save coll x) y = save coll y := by
  induction coll with
  | nil => rfl
  | cons a as ih =>
    by_cases ha : Document._id a = Document._id x
    · simp [save, ha, h]
    · have ha' : ¬ Document._id a = Document._id y := by rw [← h]; exact ha
      simp [save, ha, ha', ih]

theorem findByIdAndDelete_eq_filter {α : Type} [Document α] (coll : List α) (id : ObjectId)
    (hu : UniqueIds coll) :
    findByIdAndDelete coll id = coll.filter (fun d => decide (Document._id d ≠ id)) := by
  induction coll with
  | nil => rfl
  | cons a as ih =>
    have hu' : UniqueIds as := by
      unfold UniqueIds at hu ⊢
      exact (List.nodup_cons.1 (by simpa using hu)).2
    have hnot : Document._id a ∉ as.map Document._id := by
      unfold UniqueIds at hu
      exact (List.nodup_cons.1 (by simpa using hu)).1
    unfold findByIdAndDelete at ih ⊢
    by_cases ha : Document._id a = id
    · rw [List.eraseP_cons_of_pos (by simpa using ha)]
      rw [List.filter_cons_of_neg (by simpa using ha)]
      symm
      rw [List.filter_eq_self]
      intro d hd
      have : Document._id d ≠ Document._id a := by
        intro hEq
        exact hnot (hEq ▸ List.mem_map_of_mem _ hd)
      simpa [← ha] using this
    · rw [List.eraseP_cons_of_neg (by simpa using ha)]
      rw [List.filter_cons_of_pos (by simpa using ha), ih hu']

theorem findById_filter_ne_same {α : Type} [Document α] (coll : List α) (id : ObjectId) :
    findById (coll.filter (fun d => decide (Document._id d ≠ id))) id = none := by
  unfold findById
  rw [List.find?_eq_none]
  intro d hd
  have := (List.mem_filter.1 hd).2
  simpa using this

theorem findById_filter_ne_other {α : Type} [Document α] (coll : List α) (id j : ObjectId)
    (hj : j ≠ id) :
    findById (coll.filter (fun d => decide (Document._id d ≠ id))) j = findById coll j := by
  unfold findById
  induction coll with
  | nil => rfl
  | cons a as ih =>
    by_cases ha : Document._id a = id
    · have haj : ¬ Document._id a = j := by rw [ha]; exact fun h => hj h.symm
      rw [List.filter_cons_of_neg (by simpa using ha),
        List.find?_cons_of_neg _ (by simpa using haj)]
      exact ih
    · rw [List.filter_cons_of_pos (by simpa using ha)]
      by_cases haj : Document._id a = j
      · simp [haj]
      · rw [List.find?_cons_of_neg _ (by simpa using haj),
          List.find?_cons_of_neg _ (by simpa using haj)]
        exact ih

/-! ### Forum votes -/

theorem applyVote_id (post : Forum) (u : ObjectId) (vt : Option String) :
    (applyVote post u vt)._id = post._id := by
  simp only [applyVote]
  split_ifs <;> rfl

theorem vote_found (forums : List Forum) (id u : ObjectId) (vt : Option String) (post : Forum)
    (h : findById forums id = some post) :
    vote forums id u vt =
      (⟨200, .recorded "Vote recorded" (applyVote post u vt).upvotes.length
          (applyVote post u vt).downvotes.length⟩, save forums (applyVote post u vt)) := by
  simp [vote, h]

theorem findById_voteStore_same (forums : List Forum) (id u : ObjectId) (vt : Option String)
    (post : Forum) (h : findById forums id = some post) :
    findById (voteStore forums id u vt) id = some (applyVote post u vt) := by
  have hid : Document._id (applyVote post u vt) = id := by
    have := findById_id h
    simpa [Document._id, applyVote_id] using this
  simp only [voteStore, vote_found forums id u vt post h]
  exact findById_save_same forums id post _ h hid

theorem findById_voteStore_other (forums : List Forum) (id j u : ObjectId) (vt : Option String)
    (hj : j ≠ id) : findById (voteStore forums j u vt) id = findById forums id := by
  unfold voteStore vote
  cases hf : findById forums j with
  | none => rfl
  | some q =>
    have hq : Document._id (applyVote q u vt) ≠ id := by
      have := findById_id hf
      simp only [Document._id, applyVote_id] at this ⊢
      rw [this]; exact hj
    exact findById_save_other forums id _ hq

theorem applyVote_up_down (post : Forum) (u : ObjectId) :
    u ∈ (applyVote (applyVote post u (some "upvote")) u (some "downvote")).downvotes ∧
      u ∉ (applyVote (applyVote post u (some "upvote")) u (some "downvote")).upvotes := by
  have hne : (some "downvote" : Option String) ≠ some "upvote" := by decide
  simp only [applyVote, hne, if_true, if_false]
  split_ifs <;> simp_all

theorem applyVote_up_up (post : Forum) (u : ObjectId) :
    (applyVote (applyVote post u (some "upvote")) u (some "upvote")).upvotes.toFinset =
      post.upvotes.toFinset := by
  simp only [applyVote, if_true]
  by_cases hu : u ∈ post.upvotes
  · have h1 : (post.upvotes.any fun id => decide (id = u)) = true := by simpa using hu
    simp only [h1, if_true]
    ext x
    by_cases hx : x = u
    · subst hx; simp [hu]
    · simp [hx]
  · have h1 : ¬ (post.upvotes.any fun id => decide (id = u)) = true := by simpa using hu
    simp only [h1, if_false]
    ext x
    by_cases hx : x = u
    · subst hx; simp [hu]
    · simp [hx]

theorem applyVote_nodup (post : Forum) (u : ObjectId) (vt : Option String)
    (h : post.upvotes.Nodup ∧ post.downvotes.Nodup) :
    (applyVote post u vt).upvotes.Nodup ∧ (applyVote post u vt).downvotes.Nodup := by
  obtain ⟨hu, hd⟩ := h
  have fu := hu.filter (fun id => decide (id ≠ u))
  have fd := hd.filter (fun id => decide (id ≠ u))
  simp only [applyVote]
  split_ifs with h1 h2 h3 h4
  · exact ⟨fu, fd⟩
  · refine ⟨?_, fd⟩
    have : u ∉ post.upvotes := by simpa using h2
    exact List.Nodup.append hu (List.nodup_singleton u) (by simpa using this)
  · exact ⟨fu, fd⟩
  · refine ⟨fu, ?_⟩
    have : u ∉ post.downvotes := by simpa using h4
    exact List.Nodup.append hd (List.nodup_singleton u) (by simpa using this)
  · exact ⟨hu, hd⟩

theorem runVotes_nodup (reqs : List VoteRequest) (forums : List Forum) (id : ObjectId)
    (post : Forum) (h : findById forums id = some post)
    (hn : post.upvotes.Nodup ∧ post.downvotes.Nodup) :
    ∃ post', findById (runVotes forums reqs) id = some post' ∧
      post'.upvotes.Nodup ∧ post'.downvotes.Nodup := by
  induction reqs generalizing forums post with
  | nil => exact ⟨post, h, hn⟩
  | cons r rs ih =>
    simp only [runVotes, List.foldl_cons]
    by_cases hr : r.id = id
    · exact ih _ _ (hr ▸ findById_voteStore_same forums id r.userId r.voteType post h)
        (applyVote_nodup post r.userId r.voteType hn)
    · exact ih _ post ((findById_voteStore_other forums id r.id r.userId r.voteType hr).trans h) hn

/-- C1: whatever the stored post looks like, once user `u` has voted `upvote` and then `downvote`
on it, the stored post lists `u` among its downvotes and not among its upvotes. -/
theorem vote_upvote_then_downvote (forums : List Forum) (id u : ObjectId) (post : Forum)
    (h : findById forums id = some post) :
    ∃ post', findById (voteStore (voteStore forums id u (some "upvote")) id u (some "downvote")) id
        = some post' ∧ u ∈ post'.downvotes ∧ u ∉ post'.upvotes := by
  refine ⟨applyVote (applyVote post u (some "upvote")) u (some "downvote"), ?_, applyVote_up_down post u⟩
  exact findById_voteStore_same _ id u _ _ (findById_voteStore_same forums id u _ post h)

/-- Witness of C1 on `samplePost`, where user 7 starts in both lists. -/
theorem vote_upvote_then_downvote_witness :
    findById [samplePost, freshPost] 1 = some samplePost ∧
      ∃ post', findById (voteStore (voteStore [samplePost, freshPost] 1 7 (some "upvote")) 1 7
          (some "downvote")) 1 = some post' ∧ 7 ∈ post'.downvotes ∧ 7 ∉ post'.upvotes :=
  ⟨rfl, vote_upvote_then_downvote [samplePost, freshPost] 1 7 samplePost rfl⟩

/-- C2: `2 * n` successive `upvote` requests of the same user on a post leave the set of user ids
in its `upvotes` equal to the set before the first request. -/
theorem vote_upvote_even_times (n : Nat) (forums : List Forum) (id u : ObjectId) (post : Forum)
    (h : findById forums id = some post) :
    ∃ post', findById ((fun s => voteStore s id u (some "upvote"))^[2 * n] forums) id = some post' ∧
      post'.upvotes.toFinset = post.upvotes.toFinset := by
  induction n generalizing forums post with
  | zero => exact ⟨post, h, rfl⟩
  | succ k ih =>
    have h2 := findById_voteStore_same _ id u (some "upvote") _
      (findById_voteStore_same forums id u (some "upvote") post h)
    obtain ⟨post', hf, hs⟩ := ih _ _ h2
    refine ⟨post', ?_, hs.trans (applyVote_up_up post u)⟩
    rw [show 2 * (k + 1) = (2 * k + 1) + 1 by ring, Function.iterate_succ_apply,
      Function.iterate_succ_apply]
    exact hf

/-- Witness of C2: four upvotes of user 8 on `samplePost`. -/
theorem vote_upvote_even_times_witness :
    findById [samplePost, freshPost] 1 = some samplePost ∧
      ∃ post', findById ((fun s => voteStore s 1 8 (some "upvote"))^[2 * 2]
          [samplePost, freshPost]) 1 = some post' ∧
        post'.upvotes.toFinset = samplePost.upvotes.toFinset :=
  ⟨rfl, vote_upvote_even_times 2 [samplePost, freshPost] 1 8 samplePost rfl⟩

/-- C3: a post whose vote lists start empty and then sees any sequence of vote requests (any posts,
users and vote types) holds no user id twice in `upvotes` or in `downvotes`, and the numbers a
further vote request on it reports are the numbers of distinct users in the two lists. -/
theorem vote_counts_are_cardinalities (forums : List Forum) (id : ObjectId) (post : Forum)
    (reqs : List VoteRequest) (h : findById forums id = some post)
    (hu : post.upvotes = []) (hd : post.downvotes = []) :
    (∃ post', findById (runVotes forums reqs) id = some post' ∧
      post'.upvotes.Nodup ∧ post'.downvotes.Nodup) ∧
    ∀ (u : ObjectId) (vt : Option String),
      ∃ p, findById (voteStore (runVotes forums reqs) id u vt) id = some p ∧
        (vote (runVotes forums reqs) id u vt).1 =
          ⟨200, .recorded "Vote recorded" p.upvotes.toFinset.card p.downvotes.toFinset.card⟩ := by
  have hn : post.upvotes.Nodup ∧ post.downvotes.Nodup := by simp [hu, hd]
  obtain ⟨post', hf, hn'⟩ := runVotes_nodup reqs forums id post h hn
  refine ⟨⟨post', hf, hn'⟩, fun u vt => ?_⟩
  obtain ⟨n1, n2⟩ := applyVote_nodup post' u vt hn'
  refine ⟨applyVote post' u vt, findById_voteStore_same _ id u vt post' hf, ?_⟩
  rw [vote_found _ id u vt post' hf, List.toFinset_card_of_nodup n1, List.toFinset_card_of_nodup n2]

/-- Witness of C3: three vote requests reach `freshPost`, one goes to another post. -/
theorem vote_counts_are_cardinalities_witness :
    (findById [samplePost, freshPost] 2 = some freshPost ∧ freshPost.upvotes = [] ∧
      freshPost.downvotes = []) ∧
    ((∃ post', findById (runVotes [samplePost, freshPost]
          [⟨2, 7, some "upvote"⟩, ⟨1, 7, some "upvote"⟩, ⟨2, 8, some "upvote"⟩,
            ⟨2, 7, some "downvote"⟩]) 2 = some post' ∧
        post'.upvotes.Nodup ∧ post'.downvotes.Nodup) ∧
      ∀ (u : ObjectId) (vt : Option String),
        ∃ p, findById (voteStore (runVotes [samplePost, freshPost]
            [⟨2, 7, some "upvote"⟩, ⟨1, 7, some "upvote"⟩, ⟨2, 8, some "upvote"⟩,
              ⟨2, 7, some "downvote"⟩]) 2 u vt) 2 = some p ∧
          (vote (runVotes [samplePost, freshPost]
            [⟨2, 7, some "upvote"⟩, ⟨1, 7, some "upvote"⟩, ⟨2, 8, some "upvote"⟩,
              ⟨2, 7, some "downvote"⟩]) 2 u vt).1 =
            ⟨200, .recorded "Vote recorded" p.upvotes.toFinset.card p.downvotes.toFinset.card⟩) :=
  ⟨⟨rfl, rfl, rfl⟩, vote_counts_are_cardinalities [samplePost, freshPost] 2 freshPost
    [⟨2, 7, some "upvote"⟩, ⟨1, 7, some "upvote"⟩, ⟨2, 8, some "upvote"⟩,
      ⟨2, 7, some "downvote"⟩] rfl rfl rfl⟩

/-! ### Journal reactions -/

theorem react_add (journals : List Journal) (id u : ObjectId) (t : String) (now : Int)
    (entry : Journal) (h : findById journals id = some entry) (ht : t ∈ reactionTypes)
    (hno : entry.reactions.find? (isReactionOf u (some t)) = none) :
    react journals id u (some t) now =
      (⟨200, .ok "Reaction added" (entry.reactions ++ [⟨u, t, now⟩])⟩,
        save journals { entry with reactions := entry.reactions ++ [⟨u, t, now⟩] }) := by
  simp only [react, h, hno, ht, if_true]

theorem react_remove (journals : List Journal) (id u : ObjectId) (rt : Option String) (now : Int)
    (entry : Journal) (r : Reaction) (h : findById journals id = some entry)
    (hr : entry.reactions.find? (isReactionOf u rt) = some r) :
    react journals id u rt now =
      (⟨200, .ok "Reaction removed" (entry.reactions.filter (fun r => !isReactionOf u rt r))⟩,
        save journals { entry with
          reactions := entry.reactions.filter (fun r => !isReactionOf u rt r) }) := by
  simp only [react, h, hr]

theorem react_other (journals : List Journal) (id j u : ObjectId) (rt : Option String) (now : Int)
    (hj : j ≠ id) : findById (react journals j u rt now).2 id = findById journals id := by
  have key : ∀ e : Journal, Document._id e = j → findById (save journals e) id = findById journals id :=
    fun e he => findById_save_other journals id e (by rw [he]; exact hj)
  unfold react
  cases hf : findById journals j with
  | none => rfl
  | some entry =>
    have hid : Document._id entry = j := findById_id hf
    simp only
    split
    · exact key _ hid
    · split
      · split_ifs
        · exact key _ hid
        · rfl
      · rfl

theorem uniqueReactions_filter (rs : List Reaction) (q : Reaction → Bool)
    (h : UniqueReactions rs) : UniqueReactions (rs.filter q) := fun u t =>
  le_trans ((List.filter_sublist rs).countP_le _) (h u t)

theorem uniqueReactions_push (rs : List Reaction) (u : ObjectId) (t : String) (now : Int)
    (h : UniqueReactions rs) (hno : rs.find? (isReactionOf u (some t)) = none) :
    UniqueReactions (rs ++ [⟨u, t, now⟩]) := by
  intro u' t'
  rw [List.countP_append]
  by_cases hk : u = u' ∧ t = t'
  · obtain ⟨rfl, rfl⟩ := hk
    have h0 : rs.countP (fun r => decide (r.user = u ∧ r.type = t)) = 0 := by
      rw [List.countP_eq_zero]
      intro r hr
      have := List.find?_eq_none.1 hno r hr
      simpa [isReactionOf] using this
    rw [h0]
    simp [List.countP_cons]
  · have h1 : List.countP (fun r => decide (r.user = u' ∧ r.type = t')) [(⟨u, t, now⟩ : Reaction)] = 0 := by
      rw [List.countP_eq_zero]
      intro r hr
      have : r = ⟨u, t, now⟩ := by simpa using hr
      subst this
      simpa using hk
    rw [h1]
    exact h u' t'

theorem uniqueReactions_of_nodup (rs : List Reaction)
    (h : (rs.map (fun r => (r.user, r.type))).Nodup) : UniqueReactions rs := by
  intro u t
  induction rs with
  | nil => simp
  | cons a as ih =>
    rw [List.map_cons, List.nodup_cons] at h
    rw [List.countP_cons]
    by_cases ha : a.user = u ∧ a.type = t
    · have h0 : as.countP (fun r => decide (r.user = u ∧ r.type = t)) = 0 := by
        rw [List.countP_eq_zero]
        intro r hr hp
        have hp' : r.user = u ∧ r.type = t := by simpa using hp
        apply h.1
        rw [List.mem_map]
        exact ⟨r, hr, by rw [hp'.1, hp'.2, ha.1, ha.2]⟩
      rw [h0]
      simp [ha]
    · have := ih h.2
      simpa [ha] using this

/-- C4: when user `u` has no reaction of type `t` on the entry, a first react request appends the
one reaction `(u, t)` and answers 'Reaction added', a second one answers 'Reaction removed', and
after both the reactions list (the whole collection, in fact) is what it was. -/
theorem react_twice (journals : List Journal) (id u : ObjectId) (t : String) (now now' : Int)
    (entry : Journal) (h : findById journals id = some entry) (ht : t ∈ reactionTypes)
    (hno : ∀ r ∈ entry.reactions, ¬ (r.user = u ∧ r.type = t)) :
    (react journals id u (some t) now).1 =
        ⟨200, .ok "Reaction added" (entry.reactions ++ [⟨u, t, now⟩])⟩ ∧
      findById (react journals id u (some t) now).2 id =
        some { entry with reactions := entry.reactions ++ [⟨u, t, now⟩] } ∧
      (react (react journals id u (some t) now).2 id u (some t) now').1 =
        ⟨200, .ok "Reaction removed" entry.reactions⟩ ∧
      (react (react journals id u (some t) now).2 id u (some t) now').2 = journals := by
  have hfind : entry.reactions.find? (isReactionOf u (some t)) = none := by
    rw [List.find?_eq_none]
    intro r hr
    have := hno r hr
    simpa [isReactionOf] using this
  have hid : Document._id entry = id := findById_id h
  have h1 := react_add journals id u t now entry h ht hfind
  have hf1 : findById (save journals { entry with reactions := entry.reactions ++ [⟨u, t, now⟩] }) id
      = some { entry with reactions := entry.reactions ++ [⟨u, t, now⟩] } :=
    findById_save_same journals id entry _ h hid
  have hfilter : (entry.reactions ++ [(⟨u, t, now⟩ : Reaction)]).filter
      (fun r => !isReactionOf u (some t) r) = entry.reactions := by
    rw [List.filter_append, List.filter_eq_self.2]
    · simp [isReactionOf]
    · intro r hr
      have := List.find?_eq_none.1 hfind r hr
      simpa using this
  have hsome : ∃ r, (entry.reactions ++ [(⟨u, t, now⟩ : Reaction)]).find? (isReactionOf u (some t))
      = some r := by
    rw [← Option.isSome_iff_exists, List.find?_isSome]
    exact ⟨⟨u, t, now⟩, by simp, by simp [isReactionOf]⟩
  obtain ⟨r, hr⟩ := hsome
  have h2 := react_remove _ id u (some t) now' _ r hf1 hr
  simp only [hfilter] at h2
  rw [h1]
  refine ⟨rfl, hf1, ?_, ?_⟩
  · rw [h2]
  · rw [h2]
    have hss := save_save journals
      { entry with reactions := entry.reactions ++ [(⟨u, t, now⟩ : Reaction)] } entry rfl
    exact hss.trans (save_self journals id entry h)

/-- Witness of C4: user 9 reacts twice with 'support' on `sampleEntry`. -/
theorem react_twice_witness :
    (findById [sampleEntry, otherEntry] 5 = some sampleEntry ∧ "support" ∈ reactionTypes ∧
      ∀ r ∈ sampleEntry.reactions, ¬ (r.user = 9 ∧ r.type = "support")) ∧
    ((react [sampleEntry, otherEntry] 5 9 (some "support") 130).1 =
        ⟨200, .ok "Reaction added" (sampleEntry.reactions ++ [⟨9, "support", 130⟩])⟩ ∧
      findById (react [sampleEntry, otherEntry] 5 9 (some "support") 130).2 5 =
        some { sampleEntry with reactions := sampleEntry.reactions ++ [⟨9, "support", 130⟩] } ∧
      (react (react [sampleEntry, otherEntry] 5 9 (some "support") 130).2 5 9
          (some "support") 140).1 = ⟨200, .ok "Reaction removed" sampleEntry.reactions⟩ ∧
      (react (react [sampleEntry, otherEntry] 5 9 (some "support") 130).2 5 9
          (some "support") 140).2 = [sampleEntry, otherEntry]) :=
  ⟨⟨rfl, by decide, by decide⟩,
    react_twice [sampleEntry, otherEntry] 5 9 "support" 130 140 sampleEntry rfl (by decide)
      (by decide)⟩

/-- C5: a react request (any entry, user and type) keeps 'at most one reaction per user and type'
true of every stored entry, and the reactions that are not of the requesting user with the
requested type stay in the list, unchanged and in the same order. -/
theorem react_preserves_unique (journals : List Journal) (id j u : ObjectId)
    (rt : Option String) (now : Int) (entry : Journal) (h : findById journals id = some entry)
    (hu : UniqueReactions entry.reactions) :
    ∃ entry', findById (react journals j u rt now).2 id = some entry' ∧
      UniqueReactions entry'.reactions ∧
      entry'.reactions.filter (fun r => !isReactionOf u rt r) =
        entry.reactions.filter (fun r => !isReactionOf u rt r) := by
  by_cases hj : j = id
  · subst hj
    have hid : Document._id entry = j := findById_id h
    cases hf : entry.reactions.find? (isReactionOf u rt) with
    | some r =>
      rw [react_remove journals j u rt now entry r h hf]
      refine ⟨_, findById_save_same journals j entry _ h hid, uniqueReactions_filter _ _ hu, ?_⟩
      simp [List.filter_filter]
    | none =>
      cases rt with
      | none =>
        refine ⟨entry, ?_, hu, rfl⟩
        simp [react, h, hf]
      | some t =>
        by_cases ht : t ∈ reactionTypes
        · rw [react_add journals j u t now entry h ht hf]
          refine ⟨_, findById_save_same journals j entry _ h hid,
            uniqueReactions_push _ u t now hu hf, ?_⟩
          simp [List.filter_append, isReactionOf]
        · refine ⟨entry, ?_, hu, rfl⟩
          simp [react, h, hf, ht]
  · exact ⟨entry, (react_other journals id j u rt now hj).trans h, hu, rfl⟩

/-- Witness of C5: user 7 reacts with 'hug' on `sampleEntry`, which holds that reaction. -/
theorem react_preserves_unique_witness :
    (findById [sampleEntry, otherEntry] 5 = some sampleEntry ∧
      UniqueReactions sampleEntry.reactions) ∧
    ∃ entry', findById (react [sampleEntry, otherEntry] 5 7 (some "hug") 130).2 5 = some entry' ∧
      UniqueReactions entry'.reactions ∧
      entry'.reactions.filter (fun r => !isReactionOf 7 (some "hug") r) =
        sampleEntry.reactions.filter (fun r => !isReactionOf 7 (some "hug") r) :=
  ⟨⟨rfl, uniqueReactions_of_nodup _ (by decide)⟩,
    react_preserves_unique [sampleEntry, otherEntry] 5 5 7 (some "hug") 130 sampleEntry rfl
      (uniqueReactions_of_nodup _ (by decide))⟩

/-! ### Admin moderation -/

theorem moderateModel_approve {α : Type} [Document α] (approve reject : α → α)
    (wrap : String → α → ModerationBody) (model : List α) (id : ObjectId) (item : α)
    (h : findById model id = some item) :
    moderateModel approve reject wrap model id (some "approve") =
      (⟨200, wrap "Content approved successfully" (approve item)⟩, save model (approve item)) := by
  simp [moderateModel, h]

theorem moderateModel_reject {α : Type} [Document α] (approve reject : α → α)
    (wrap : String → α → ModerationBody) (model : List α) (id : ObjectId) (item : α)
    (h : findById model id = some item) :
    moderateModel approve reject wrap model id (some "reject") =
      (⟨200, wrap "Content rejectd successfully" (reject item)⟩, save model (reject item)) := by
  simp [moderateModel, h]

theorem moderateModel_delete {α : Type} [Document α] (approve reject : α → α)
    (wrap : String → α → ModerationBody) (model : List α) (id : ObjectId) (item : α)
    (h : findById model id = some item) :
    moderateModel approve reject wrap model id (some "delete") =
      (⟨200, .message "Content deleted successfully"⟩, findByIdAndDelete model id) := by
  simp [moderateModel, h]

theorem moderateModel_invalid {α : Type} [Document α] (approve reject : α → α)
    (wrap : String → α → ModerationBody) (model : List α) (id : ObjectId) (item : α)
    (action : Option String) (h : findById model id = some item)
    (ha : action ≠ some "approve") (hr : action ≠ some "reject") (hd : action ≠ some "delete") :
    moderateModel approve reject wrap model id action =
      (⟨400, .error "Invalid action"⟩, model) := by
  simp [moderateModel, h, ha, hr, hd]

/-- C6: on an existing journal entry and on an existing forum post, moderation with `approve`
stores the item with `isFlagged = false`, `flagReason = null`, `isModerated = true` and every other
field as before, and moderation with `reject` stores it with `isModerated = true` and every other
field, `isFlagged` and `flagReason` included, as before. -/
theorem moderate_approve_reject (journals : List Journal) (forums : List Forum) :
    (∀ (i : ObjectId) (entry : Journal), findById journals i = some entry →
      findById (moderate journals forums "journal" i (some "approve")).2.1 i =
          some { entry with isFlagged := false, flagReason := none, isModerated := true } ∧
        findById (moderate journals forums "journal" i (some "reject")).2.1 i =
          some { entry with isModerated := true }) ∧
    (∀ (k : ObjectId) (post : Forum), findById forums k = some post →
      findById (moderate journals forums "forum" k (some "approve")).2.2 k =
          some { post with isFlagged := false, flagReason := none, isModerated := true } ∧
        findById (moderate journals forums "forum" k (some "reject")).2.2 k =
          some { post with isModerated := true }) := by
  have hne : ¬ ("forum" = "journal") := by decide
  refine ⟨fun i entry hj => ?_, fun k post hf => ?_⟩
  · have hi : Document._id entry = i := findById_id hj
    refine ⟨?_, ?_⟩
    · simp only [moderate, if_true, moderateModel_approve _ _ _ journals i entry hj]
      exact findById_save_same journals i entry _ hj hi
    · simp only [moderate, if_true, moderateModel_reject _ _ _ journals i entry hj]
      exact findById_save_same journals i entry _ hj hi
  · have hk : Document._id post = k := findById_id hf
    refine ⟨?_, ?_⟩
    · simp only [moderate, hne, if_true, if_false, moderateModel_approve _ _ _ forums k post hf]
      exact findById_save_same forums k post _ hf hk
    · simp only [moderate, hne, if_true, if_false, moderateModel_reject _ _ _ forums k post hf]
      exact findById_save_same forums k post _ hf hk

/-- Witness of C6 on `sampleEntry` and `samplePost`, both flagged. -/
theorem moderate_approve_reject_witness :
    (findById [sampleEntry, otherEntry] 5 = some sampleEntry ∧
      findById [samplePost, freshPost] 1 = some samplePost) ∧
    (findById (moderate [sampleEntry, otherEntry] [samplePost, freshPost] "journal" 5
          (some "approve")).2.1 5 =
        some { sampleEntry with isFlagged := false, flagReason := none, isModerated := true } ∧
      findById (moderate [sampleEntry, otherEntry] [samplePost, freshPost] "journal" 5
          (some "reject")).2.1 5 = some { sampleEntry with isModerated := true }) ∧
    (findById (moderate [sampleEntry, otherEntry] [samplePost, freshPost] "forum" 1
          (some "approve")).2.2 1 =
        some { samplePost with isFlagged := false, flagReason := none, isModerated := true } ∧
      findById (moderate [sampleEntry, otherEntry] [samplePost, freshPost] "forum" 1
          (some "reject")).2.2 1 = some { samplePost with isModerated := true }) :=
  ⟨⟨rfl, rfl⟩,
    (moderate_approve_reject [sampleEntry, otherEntry] [samplePost, freshPost]).1 5 sampleEntry
      rfl,
    (moderate_approve_reject [sampleEntry, otherEntry] [samplePost, freshPost]).2 1 samplePost
      rfl⟩

/-- C7: on an existing journal entry (forum post) with id `i` (`k`), moderation with `delete`
leaves in its collection exactly the documents with another id, in their order, and leaves the
other collection alone; looking the id up afterwards finds nothing, looking any other id up finds
what it found before.  Ids are unique within a collection. -/
theorem moderate_delete (journals : List Journal) (forums : List Forum) :
    (∀ (i : ObjectId) (entry : Journal), findById journals i = some entry → UniqueIds journals →
      moderate journals forums "journal" i (some "delete") =
          (⟨200, .message "Content deleted successfully"⟩,
            journals.filter (fun d => decide (d._id ≠ i)), forums) ∧
        findById (moderate journals forums "journal" i (some "delete")).2.1 i = none ∧
        ∀ j, j ≠ i →
          findById (moderate journals forums "journal" i (some "delete")).2.1 j =
            findById journals j) ∧
    (∀ (k : ObjectId) (post : Forum), findById forums k = some post → UniqueIds forums →
      moderate journals forums "forum" k (some "delete") =
          (⟨200, .message "Content deleted successfully"⟩, journals,
            forums.filter (fun d => decide (d._id ≠ k))) ∧
        findById (moderate journals forums "forum" k (some "delete")).2.2 k = none ∧
        ∀ j, j ≠ k →
          findById (moderate journals forums "forum" k (some "delete")).2.2 j =
            findById forums j) := by
  have hne : ¬ ("forum" = "journal") := by decide
  constructor
  · intro i entry hj uj
    have e1 : moderate journals forums "journal" i (some "delete") =
        (⟨200, .message "Content deleted successfully"⟩,
          journals.filter (fun d => decide (d._id ≠ i)), forums) := by
      simp only [moderate, if_true, moderateModel_delete _ _ _ journals i entry hj]
      rw [findByIdAndDelete_eq_filter journals i uj]
      rfl
    refine ⟨e1, ?_, ?_⟩
    · rw [e1]; exact findById_filter_ne_same journals i
    · intro j hji; rw [e1]; exact findById_filter_ne_other journals i j hji
  · intro k post hf uf
    have e2 : moderate journals forums "forum" k (some "delete") =
        (⟨200, .message "Content deleted successfully"⟩, journals,
          forums.filter (fun d => decide (d._id ≠ k))) := by
      simp only [moderate, hne, if_true, if_false, moderateModel_delete _ _ _ forums k post hf]
      rw [findByIdAndDelete_eq_filter forums k uf]
      rfl
    refine ⟨e2, ?_, ?_⟩
    · rw [e2]; exact findById_filter_ne_same forums k
    · intro j hjk; rw [e2]; exact findById_filter_ne_other forums k j hjk

/-- Witness of C7: `sampleEntry` and `samplePost` are deleted. -/
theorem moderate_delete_witness :
    (findById [sampleEntry, otherEntry] 5 = some sampleEntry ∧
      findById [samplePost, freshPost] 1 = some samplePost ∧
      UniqueIds [sampleEntry, otherEntry] ∧ UniqueIds [samplePost, freshPost]) ∧
    (moderate [sampleEntry, otherEntry] [samplePost, freshPost] "journal" 5 (some "delete") =
        (⟨200, .message "Content deleted successfully"⟩,
          [sampleEntry, otherEntry].filter (fun d => decide (d._id ≠ 5)),
          [samplePost, freshPost]) ∧
      findById (moderate [sampleEntry, otherEntry] [samplePost, freshPost] "journal" 5
        (some "delete")).2.1 5 = none ∧
      ∀ j, j ≠ 5 →
        findById (moderate [sampleEntry, otherEntry] [samplePost, freshPost] "journal" 5
          (some "delete")).2.1 j = findById [sampleEntry, otherEntry] j) ∧
    (moderate [sampleEntry, otherEntry] [samplePost, freshPost] "forum" 1 (some "delete") =
        (⟨200, .message "Content deleted successfully"⟩, [sampleEntry, otherEntry],
          [samplePost, freshPost].filter (fun d => decide (d._id ≠ 1))) ∧
      findById (moderate [sampleEntry, otherEntry] [samplePost, freshPost] "forum" 1
        (some "delete")).2.2 1 = none ∧
      ∀ j, j ≠ 1 →
        findById (moderate [sampleEntry, otherEntry] [samplePost, freshPost] "forum" 1
          (some "delete")).2.2 j = findById [samplePost, freshPost] j) :=
  ⟨⟨rfl, rfl, by decide, by decide⟩,
    (moderate_delete [sampleEntry, otherEntry] [samplePost, freshPost]).1 5 sampleEntry rfl
      (by decide),
    (moderate_delete [sampleEntry, otherEntry] [samplePost, freshPost]).2 1 samplePost rfl
      (by decide)⟩

/-- C8: on an existing item, an action other than `approve`, `reject` and `delete` (a missing one
included) is answered 400 'Invalid action' and both collections stay as they were; a type other
than `journal` and `forum` is answered 400 'Invalid content type' and both collections stay as they
were, whatever the id and the action. -/
theorem moderate_invalid (journals : List Journal) (forums : List Forum) :
    (∀ (i : ObjectId) (entry : Journal) (action : Option String),
      findById journals i = some entry → action ≠ some "approve" → action ≠ some "reject" →
      action ≠ some "delete" →
      moderate journals forums "journal" i action =
        (⟨400, .error "Invalid action"⟩, journals, forums)) ∧
    (∀ (k : ObjectId) (post : Forum) (action : Option String),
      findById forums k = some post → action ≠ some "approve" → action ≠ some "reject" →
      action ≠ some "delete" →
      moderate journals forums "forum" k action =
        (⟨400, .error "Invalid action"⟩, journals, forums)) ∧
    (∀ (type : String) (id : ObjectId) (action : Option String),
      type ≠ "journal" → type ≠ "forum" →
      moderate journals forums type id action =
        (⟨400, .error "Invalid content type"⟩, journals, forums)) := by
  have hne : ¬ ("forum" = "journal") := by decide
  refine ⟨fun i entry action hj ha hr hd => ?_, fun k post action hf ha hr hd => ?_,
    fun type id action hn hm => ?_⟩
  · simp only [moderate, if_true, moderateModel_invalid _ _ _ journals i entry action hj ha hr hd]
  · simp only [moderate, hne, if_true, if_false,
      moderateModel_invalid _ _ _ forums k post action hf ha hr hd]
  · simp only [moderate, hn, hm, if_false]

/-- Witness of C8: the action 'publish' on `sampleEntry`, a missing action on `samplePost`, and
the type 'user'. -/
theorem moderate_invalid_witness :
    (findById [sampleEntry, otherEntry] 5 = some sampleEntry ∧
      findById [samplePost, freshPost] 1 = some samplePost) ∧
    moderate [sampleEntry, otherEntry] [samplePost, freshPost] "journal" 5 (some "publish") =
      (⟨400, .error "Invalid action"⟩, [sampleEntry, otherEntry], [samplePost, freshPost]) ∧
    moderate [sampleEntry, otherEntry] [samplePost, freshPost] "forum" 1 none =
      (⟨400, .error "Invalid action"⟩, [sampleEntry, otherEntry], [samplePost, freshPost]) ∧
    moderate [sampleEntry, otherEntry] [samplePost, freshPost] "user" 5 (some "delete") =
      (⟨400, .error "Invalid content type"⟩, [sampleEntry, otherEntry],
        [samplePost, freshPost]) :=
  ⟨⟨rfl, rfl⟩,
    (moderate_invalid [sampleEntry, otherEntry] [samplePost, freshPost]).1 5 sampleEntry
      (some "publish") rfl (by decide) (by decide) (by decide),
    (moderate_invalid [sampleEntry, otherEntry] [samplePost, freshPost]).2.1 1 samplePost
      none rfl (by decide) (by decide) (by decide),
    (moderate_invalid [sampleEntry, otherEntry] [samplePost, freshPost]).2.2 "user" 5
      (some "delete") (by decide) (by decide)⟩

/-! ### Mood entries -/

theorem fixedZone_daysInOrder (tz : Int) : (fixedZone tz).DaysInOrder := by
  intro s t h
  simp only [Zone.localDay, Zone.localTime, fixedZone, msPerDay]
  omega

/-- At a fixed offset the window `[today, tomorrow)` is the local calendar day of `now`. -/
theorem fixedZone_window_is_day (tz now t : Int) :
    (today (fixedZone tz) now ≤ t ∧ t < tomorrow (fixedZone tz) now) ↔
      (fixedZone tz).localDay t = (fixedZone tz).localDay now := by
  simp only [Zone.localDay, Zone.localTime, fixedZone, msPerDay, today, tomorrow, setHoursZero,
    setDateNext, Zone.utc]
  constructor <;> intro h <;> omega

theorem fixedZone_dayInWindow (tz : Int) : (fixedZone tz).DayInWindow :=
  fun now t h => (fixedZone_window_is_day tz now t).2 h

/-- At a fixed offset `today` and `tomorrow` are 24 hours apart. -/
theorem today_fixedZone (tz now : Int) :
    today (fixedZone tz) now = now - (now + tz) % msPerDay ∧
      tomorrow (fixedZone tz) now = today (fixedZone tz) now + msPerDay := by
  simp only [Zone.localDay, Zone.localTime, fixedZone, msPerDay, today, tomorrow, setHoursZero,
    setDateNext, Zone.utc]
  omega

theorem newYork_daysInOrder : newYork.DaysInOrder := by
  intro s t h
  simp only [Zone.localDay, Zone.localTime, newYork, msPerDay]
  split_ifs <;> omega

/-- In New York the window `[today, tomorrow)` is the local calendar day of `now`, also on the
days of 25 and of 23 hours. -/
theorem newYork_window_is_day (now t : Int) :
    (today newYork now ≤ t ∧ t < tomorrow newYork now) ↔
      newYork.localDay t = newYork.localDay now := by
  simp only [Zone.localDay, Zone.localTime, newYork, msPerDay, today, tomorrow, setHoursZero,
    setDateNext, Zone.utc]
  constructor
  · intro h
    split_ifs at h ⊢ <;> omega
  · intro h
    split_ifs at h ⊢ <;> omega

theorem newYork_dayInWindow : newYork.DayInWindow :=
  fun now t h => (newYork_window_is_day now t).2 h

theorem createMood_store (z : Zone) (moods : List Mood) (u : ObjectId) (body : MoodPayload)
    (now : Int) (newId : ObjectId) (savedAt : Int) :
    (createMood z moods u body now newId savedAt).2 = moods ∨
      ∃ e : Mood, e.user = u ∧ e.createdAt = savedAt ∧
        moods.find? (isTodayOf z now u) = none ∧
        (createMood z moods u body now newId savedAt).2 = moods ++ [e] := by
  unfold createMood
  cases hf : moods.find? (isTodayOf z now u) with
  | some e => exact Or.inl rfl
  | none =>
    cases hm : body.mood with
    | none => exact Or.inl rfl
    | some m =>
      simp only
      split_ifs
      · exact Or.inr ⟨_, rfl, rfl, trivial, rfl⟩
      · exact Or.inl rfl

theorem deleteMood_sublist (moods : List Mood) (u id : ObjectId) :
    (deleteMood moods u id).2.Sublist moods := by
  unfold deleteMood
  cases findById moods id with
  | none => exact List.Sublist.refl _
  | some e =>
    simp only
    split_ifs
    · exact List.Sublist.refl _
    · exact List.eraseP_sublist _

/-- An entry of the past that falls in the local day of the save falls in the window that the
handler computed at `now`. -/
theorem isTodayOf_same_day (z : Zone) (hord : z.DaysInOrder) (hwin : z.DayInWindow)
    (now savedAt : Int) (u : ObjectId) (e : Mood) (h1 : e.createdAt ≤ now) (h2 : now ≤ savedAt)
    (he : isOfDay z u (z.localDay savedAt) e = true) : isTodayOf z now u e = true := by
  simp only [isOfDay, Bool.and_eq_true, decide_eq_true_eq] at he
  have ha : z.localDay e.createdAt ≤ z.localDay now := hord _ _ h1
  have hb : z.localDay now ≤ z.localDay savedAt := hord _ _ h2
  have hday : z.localDay e.createdAt = z.localDay now := by omega
  have hw := hwin now e.createdAt hday
  simp only [isTodayOf, Bool.and_eq_true, decide_eq_true_eq]
  exact ⟨⟨he.1, hw.1⟩, hw.2⟩

theorem onePerDay_step (z : Zone) (hord : z.DaysInOrder) (hwin : z.DayInWindow)
    (moods : List Mood) (op : MoodOp) (c c' : Int)
    (hinv : OnePerDay z moods) (hpast : ∀ e ∈ moods, e.createdAt ≤ c)
    (hclock : match op with
      | .create _ _ now _ savedAt => c ≤ now ∧ now ≤ savedAt ∧ c' = savedAt
      | .delete _ _ => c' = c) :
    OnePerDay z (stepMood z moods op) ∧ ∀ e ∈ stepMood z moods op, e.createdAt ≤ c' := by
  cases op with
  | delete u id =>
    simp only at hclock
    subst hclock
    have hsub := deleteMood_sublist moods u id
    exact ⟨fun v d => le_trans (hsub.countP_le _) (hinv v d), fun e he => hpast e (hsub.subset he)⟩
  | create u body now newId savedAt =>
    obtain ⟨h1, h2, rfl⟩ := hclock
    have hpast' : ∀ e ∈ moods, e.createdAt ≤ c' := fun e he => by
      have := hpast e he
      omega
    rcases createMood_store z moods u body now newId c' with hsame | ⟨e, heu, het, hnone, hpush⟩
    · simp only [stepMood, hsame]
      exact ⟨hinv, hpast'⟩
    · simp only [stepMood, hpush]
      refine ⟨fun v d => ?_, fun x hx => ?_⟩
      · rw [List.countP_append]
        by_cases hin : isOfDay z v d e = true
        · have hin' := hin
          simp only [isOfDay, Bool.and_eq_true, decide_eq_true_eq] at hin'
          have hv : u = v := by rw [← heu, hin'.1]
          have hd : d = z.localDay c' := by rw [← hin'.2, het]
          subst hv
          subst hd
          have h0 : moods.countP (isOfDay z u (z.localDay c')) = 0 := by
            rw [List.countP_eq_zero]
            intro x hx hxt
            have hxn := isTodayOf_same_day z hord hwin now c' u x
              (le_trans (hpast x hx) h1) h2 hxt
            have := List.find?_eq_none.1 hnone x hx
            exact this hxn
          rw [h0]
          simp [List.countP_cons, hin]
        · have h0 : List.countP (isOfDay z v d) [e] = 0 := by
            rw [List.countP_eq_zero]
            intro x hx
            have : x = e := by simpa using hx
            rw [this]
            exact hin
          rw [h0]
          exact hinv v d
      · rcases List.mem_append.1 hx with hx | hx
        · exact hpast' x hx
        · have : x = e := by simpa using hx
          rw [this, het]

theorem onePerDay_run (z : Zone) (hord : z.DaysInOrder) (hwin : z.DayInWindow)
    (ops : List MoodOp) (moods : List Mood) (c : Int)
    (hinv : OnePerDay z moods) (hpast : ∀ e ∈ moods, e.createdAt ≤ c)
    (hclock : ClockMonotone c ops) : OnePerDay z (runMoodOps z moods ops) := by
  induction ops generalizing moods c with
  | nil => exact hinv
  | cons op ops ih =>
    simp only [runMoodOps, List.foldl_cons]
    cases op with
    | create u body now newId savedAt =>
      obtain ⟨h1, h2, h3⟩ := hclock
      obtain ⟨a, b⟩ := onePerDay_step z hord hwin moods (.create u body now newId savedAt) c
        savedAt hinv hpast ⟨h1, h2, rfl⟩
      exact ih _ savedAt a b h3
    | delete u id =>
      obtain ⟨a, b⟩ := onePerDay_step z hord hwin moods (.delete u id) c c hinv hpast rfl
      exact ih _ c a b hclock

/-- C9: in every time zone of the host, when the collection holds an entry of user `u` whose
`createdAt` lies in `[today, tomorrow)`, from the midnight of the local day of `now` to the next
midnight as `setHours` and `setDate` give them, a create request of `u` is answered 400 whatever
its payload, the body carries an entry of `u` stored in the collection and created in that
window, and the collection stays as it was. -/
theorem createMood_conflict (z : Zone) (moods : List Mood) (u : ObjectId) (body : MoodPayload)
    (now : Int) (newId : ObjectId) (savedAt : Int) (e : Mood) (he : e ∈ moods)
    (hu : e.user = u)
    (hw : today z now ≤ e.createdAt ∧ e.createdAt < tomorrow z now) :
    ∃ e', createMood z moods u body now newId savedAt =
        (⟨400, .conflict "Mood entry already exists for today" e'⟩, moods) ∧
      e' ∈ moods ∧ e'.user = u ∧
      today z now ≤ e'.createdAt ∧ e'.createdAt < tomorrow z now := by
  have hsome : ∃ e', moods.find? (isTodayOf z now u) = some e' := by
    rw [← Option.isSome_iff_exists, List.find?_isSome]
    exact ⟨e, he, by simp [isTodayOf, hu, hw.1, hw.2]⟩
  obtain ⟨e', hf⟩ := hsome
  have hp := List.find?_some hf
  simp only [isTodayOf, Bool.and_eq_true, decide_eq_true_eq] at hp
  refine ⟨e', ?_, List.mem_of_find?_eq_some hf, hp.1.1, hp.1.2, hp.2⟩
  simp only [createMood, hf]

/-- Witness of C9 on a server in New York on 5 November 2023, a day of 25 hours from 04:00 UTC to
05:00 UTC of the 6th: user 7 posted at 00:30 and posts again at 23:30, 24 hours later. -/
theorem createMood_conflict_witness :
    (today newYork 1699245000000 = 1699156800000 ∧
      tomorrow newYork 1699245000000 = 1699246800000 ∧
      novemberMood ∈ [novemberMood] ∧ novemberMood.user = 7 ∧
      today newYork 1699245000000 ≤ novemberMood.createdAt ∧
      novemberMood.createdAt < tomorrow newYork 1699245000000) ∧
    ∃ e', createMood newYork [novemberMood] 7 samplePayload 1699245000000 21 1699245000005 =
        (⟨400, .conflict "Mood entry already exists for today" e'⟩, [novemberMood]) ∧
      e' ∈ [novemberMood] ∧ e'.user = 7 ∧
      today newYork 1699245000000 ≤ e'.createdAt ∧
      e'.createdAt < tomorrow newYork 1699245000000 :=
  ⟨⟨by decide, by decide, by decide, rfl, by decide, by decide⟩,
    createMood_conflict newYork [novemberMood] 7 samplePayload 1699245000000 21 1699245000005
      novemberMood (by decide) rfl ⟨by decide, by decide⟩⟩

/-- C10: in a time zone whose local day never goes back and lies between the `today` and
`tomorrow` of its instants, 'at most one entry per user and local calendar day' holds of the empty
collection, and when it holds of a collection none of whose entries is later than the clock, it
holds again after any sequence of create and delete requests served one after the other on a
clock that never goes back. -/
theorem mood_one_per_day_invariant (z : Zone) (hord : z.DaysInOrder) (hwin : z.DayInWindow)
    (moods : List Mood) (ops : List MoodOp) (c : Int)
    (hinv : OnePerDay z moods) (hpast : ∀ e ∈ moods, e.createdAt ≤ c)
    (hclock : ClockMonotone c ops) :
    OnePerDay z [] ∧ OnePerDay z (runMoodOps z [] ops) ∧
      OnePerDay z (runMoodOps z moods ops) := by
  have h0 : OnePerDay z [] := fun u d => by simp
  exact ⟨h0, onePerDay_run z hord hwin ops [] c h0 (fun e he => by simp at he) hclock,
    onePerDay_run z hord hwin ops moods c hinv hpast hclock⟩

/-- Witness of C10 on a server in New York, over the 25 hours of 5 November 2023 and the day
after: the requests `novemberOps` from the empty collection, where the second post of user 7 is
refused, and from the collection that holds `novemberMood`, where the first one is refused too. -/
theorem mood_one_per_day_invariant_witness :
    (newYork.DaysInOrder ∧ newYork.DayInWindow ∧ OnePerDay newYork [novemberMood] ∧
      (∀ e ∈ [novemberMood], e.createdAt ≤ 1699158600000) ∧
      ClockMonotone 1699158600000 novemberOps) ∧
    (runMoodOps newYork [] novemberOps).map (fun e => (e._id, e.user)) = [(22, 8), (24, 7)] ∧
    (runMoodOps newYork [novemberMood] novemberOps).map (fun e => (e._id, e.user)) =
      [(25, 7), (22, 8), (24, 7)] ∧
    (OnePerDay newYork [] ∧ OnePerDay newYork (runMoodOps newYork [] novemberOps) ∧
      OnePerDay newYork (runMoodOps newYork [novemberMood] novemberOps)) :=
  ⟨⟨newYork_daysInOrder, newYork_dayInWindow, fun _ _ => List.countP_le_length _, by decide,
      ⟨by decide, by decide, by decide, by decide, by decide, by decide, by decide, by decide,
        trivial⟩⟩,
    by decide, by decide,
    mood_one_per_day_invariant newYork newYork_daysInOrder newYork_dayInWindow [novemberMood]
      novemberOps 1699158600000 (fun _ _ => List.countP_le_length _) (by decide)
      ⟨by decide, by decide, by decide, by decide, by decide, by decide, by decide, by decide,
        trivial⟩⟩

/-! ### Chats and messages -/

theorem createChat_cases (users : List User) (chats : List Chat) (c : ObjectId)
    (participantId counsellorId : Option ObjectId) (chatType : Option String)
    (newId : ObjectId) (now : Int) :
    (∃ status err, createChat users chats c participantId counsellorId chatType newId now =
        (⟨status, .error err⟩, chats) ∧ status ≠ 200) ∨
    (∃ t ch, (participantId <|> counsellorId) = some t ∧
      chats.find? (isExistingChat c t (chatType.getD "student-counsellor")) = some ch ∧
      createChat users chats c participantId counsellorId chatType newId now =
        (⟨200, .chat true "Chat already exists" ch⟩, chats)) ∨
    (∃ t, (participantId <|> counsellorId) = some t ∧
      chats.find? (isExistingChat c t (chatType.getD "student-counsellor")) = none ∧
      createChat users chats c participantId counsellorId chatType newId now =
        (⟨201, .chat true "Chat created successfully"
            (newChat c t (chatType.getD "student-counsellor") newId now)⟩,
          chats ++ [newChat c t (chatType.getD "student-counsellor") newId now])) := by
  cases ht : (participantId <|> counsellorId) with
  | none =>
    exact Or.inl ⟨400, "Participant ID or counsellor ID is required",
      by simp only [createChat, ht], by decide⟩
  | some t =>
    cases hu : findById users t with
    | none =>
      exact Or.inl ⟨404, "Participant not found", by simp only [createChat, ht, hu], by decide⟩
    | some tu =>
      cases hf : chats.find? (isExistingChat c t (chatType.getD "student-counsellor")) with
      | some ch => exact Or.inr (Or.inl ⟨t, ch, rfl, hf, by simp only [createChat, ht, hu, hf]⟩)
      | none =>
        by_cases hk : chatType.getD "student-counsellor" ∈ chatTypes
        · exact Or.inr (Or.inr ⟨t, rfl, hf, by simp only [createChat, ht, hu, hf, hk, if_true]⟩)
        · exact Or.inl ⟨500, "Failed to create chat",
            by simp only [createChat, ht, hu, hf, hk, if_false], by decide⟩

theorem isExistingChat_of_pair (a b c t : ObjectId) (k : String) (ch : Chat)
    (hc : c = a ∨ c = b) (ht : t = a ∨ t = b)
    (h : (isChatOfPair a b ch && decide (ch.chatType = k) && ch.isActive) = true) :
    isExistingChat c t k ch = true := by
  simp only [isChatOfPair, Bool.and_eq_true, decide_eq_true_eq] at h
  obtain ⟨⟨⟨⟨_, ha⟩, hb⟩, hk⟩, hact⟩ := h
  have hc' : c ∈ ch.participants := by rcases hc with rfl | rfl <;> assumption
  have ht' : t ∈ ch.participants := by rcases ht with rfl | rfl <;> assumption
  simp [isExistingChat, hc', ht', hk, hact]

theorem createChat_preserves (users : List User) (chats : List Chat) (c : ObjectId)
    (participantId counsellorId : Option ObjectId) (chatType : Option String)
    (newId : ObjectId) (now : Int) (h : OneActiveChatPerPair chats) :
    OneActiveChatPerPair
      (createChat users chats c participantId counsellorId chatType newId now).2 := by
  rcases createChat_cases users chats c participantId counsellorId chatType newId now with
    ⟨_, _, he, _⟩ | ⟨_, _, _, _, he⟩ | ⟨t, _, hnone, he⟩
  · rw [he]; exact h
  · rw [he]; exact h
  · rw [he]
    intro a b k
    simp only
    rw [List.countP_append]
    generalize hnew : newChat c t (chatType.getD "student-counsellor") newId now = chat
    by_cases hp : (isChatOfPair a b chat && decide (chat.chatType = k) && chat.isActive) = true
    · have hp' := hp
      simp only [isChatOfPair, Bool.and_eq_true, decide_eq_true_eq, List.all_eq_true] at hp'
      obtain ⟨⟨⟨⟨hall, _⟩, _⟩, hk⟩, _⟩ := hp'
      have hparts : chat.participants = [c, t] := by rw [← hnew]; rfl
      have hkk : chat.chatType = chatType.getD "student-counsellor" := by rw [← hnew]; rfl
      have hc : c = a ∨ c = b := hall c (by rw [hparts]; simp)
      have ht : t = a ∨ t = b := hall t (by rw [hparts]; simp)
      have h0 : chats.countP
          (fun ch => isChatOfPair a b ch && decide (ch.chatType = k) && ch.isActive) = 0 := by
        rw [List.countP_eq_zero]
        intro ch hch hpc
        have := isExistingChat_of_pair a b c t k ch hc ht hpc
        rw [← hk, hkk] at this
        exact List.find?_eq_none.1 hnone ch hch this
      rw [h0]
      simp [List.countP_cons, hp]
    · have h0 : List.countP
          (fun ch => isChatOfPair a b ch && decide (ch.chatType = k) && ch.isActive) [chat]
          = 0 := by
        rw [List.countP_eq_zero]
        intro x hx
        have : x = chat := by simpa using hx
        rw [this]
        exact hp
      rw [h0]
      exact h a b k

theorem createChat_found (users : List User) (chats : List Chat) (c t : ObjectId)
    (participantId counsellorId : Option ObjectId) (chatType : Option String)
    (newId : ObjectId) (now : Int) (tu : User) (ch : Chat)
    (ht : (participantId <|> counsellorId) = some t) (hu : findById users t = some tu)
    (hf : chats.find? (isExistingChat c t (chatType.getD "student-counsellor")) = some ch) :
    createChat users chats c participantId counsellorId chatType newId now =
      (⟨200, .chat true "Chat already exists" ch⟩, chats) := by
  simp only [createChat, ht, hu, hf]

theorem createChat_new (users : List User) (chats : List Chat) (c t : ObjectId)
    (participantId counsellorId : Option ObjectId) (chatType : Option String)
    (newId : ObjectId) (now : Int) (tu : User)
    (ht : (participantId <|> counsellorId) = some t) (hu : findById users t = some tu)
    (hf : chats.find? (isExistingChat c t (chatType.getD "student-counsellor")) = none)
    (hk : chatType.getD "student-counsellor" ∈ chatTypes) :
    createChat users chats c participantId counsellorId chatType newId now =
      (⟨201, .chat true "Chat created successfully"
          (newChat c t (chatType.getD "student-counsellor") newId now)⟩,
        chats ++ [newChat c t (chatType.getD "student-counsellor") newId now]) := by
  simp only [createChat, ht, hu, hf, hk, if_true]

/-- C11, as the code has it: when chat creation by caller `c` answers with an existing chat, that
chat is stored, active, of the requested chat type (the default when none is given) and has both
`c` and the target among its participants; the collection is left as it was. -/
theorem createChat_existing (users : List User) (chats : List Chat) (c : ObjectId)
    (participantId counsellorId : Option ObjectId) (chatType : Option String)
    (newId : ObjectId) (now : Int) (body : ChatBody)
    (h : (createChat users chats c participantId counsellorId chatType newId now).1 =
      ⟨200, body⟩) :
    ∃ t ch, (participantId <|> counsellorId) = some t ∧
      createChat users chats c participantId counsellorId chatType newId now =
        (⟨200, .chat true "Chat already exists" ch⟩, chats) ∧
      ch ∈ chats ∧ ch.isActive = true ∧ ch.chatType = chatType.getD "student-counsellor" ∧
      c ∈ ch.participants ∧ t ∈ ch.participants := by
  rcases createChat_cases users chats c participantId counsellorId chatType newId now with
    ⟨status, err, he, hs⟩ | ⟨t, ch, ht, hf, he⟩ | ⟨t, _, _, he⟩
  · rw [he] at h
    have hst := congrArg Response.status h
    exact absurd hst hs
  · have hp := List.find?_some hf
    simp only [isExistingChat, List.all_cons, List.all_nil, Bool.and_true, Bool.and_eq_true,
      decide_eq_true_eq] at hp
    exact ⟨t, ch, ht, he, List.mem_of_find?_eq_some hf, hp.2, hp.1.2, hp.1.1.1, hp.1.1.2⟩
  · rw [he] at h
    have hst := congrArg Response.status h
    simp at hst

/-- Witness of C11: user 1 asks again for a chat with counsellor 2. -/
theorem createChat_existing_witness :
    (createChat sampleUsers [sampleChat, groupChat] 1 none (some 2) none 32 200).1 =
        ⟨200, .chat true "Chat already exists" sampleChat⟩ ∧
    ∃ t ch, ((none : Option ObjectId) <|> some 2) = some t ∧
      createChat sampleUsers [sampleChat, groupChat] 1 none (some 2) none 32 200 =
        (⟨200, .chat true "Chat already exists" ch⟩, [sampleChat, groupChat]) ∧
      ch ∈ [sampleChat, groupChat] ∧ ch.isActive = true ∧
      ch.chatType = (none : Option String).getD "student-counsellor" ∧
      1 ∈ ch.participants ∧ t ∈ ch.participants :=
  ⟨rfl, createChat_existing sampleUsers [sampleChat, groupChat] 1 none (some 2) none 32 200 _ rfl⟩

/-- Counterexample to C11 as stated: asked by user 1 for a 'group' chat with user 2, chat creation
returns the stored group chat of users 1, 2 and 3; asked by user 1 for a chat with user 1, it
returns the chat of users 1 and 2.  In both cases the participant set is not that of caller and
target. -/
theorem createChat_existing_not_exact :
    (createChat sampleUsers [sampleChat, groupChat] 1 (some 2) none (some "group") 32 200 =
        (⟨200, .chat true "Chat already exists" groupChat⟩, [sampleChat, groupChat]) ∧
      groupChat.participants.toFinset ≠ {1, 2}) ∧
    (createChat sampleUsers [sampleChat] 1 (some 1) none none 32 200 =
        (⟨200, .chat true "Chat already exists" sampleChat⟩, [sampleChat]) ∧
      sampleChat.participants.toFinset ≠ {1, 1}) :=
  ⟨⟨rfl, by decide⟩, rfl, by decide⟩

/-- C12: for a stored target user and a chat type of the schema (or none, for the default), two
chat creations in a row with the same caller, target and chat type return the same chat and
create at most one document between them; and any chat creation keeps 'at most one active chat
per participant pair and chat type' true of the collection. -/
theorem createChat_twice (users : List User) (chats : List Chat) (c t : ObjectId)
    (participantId counsellorId : Option ObjectId) (chatType : Option String)
    (id1 id2 : ObjectId) (now1 now2 : Int) (tu : User)
    (ht : (participantId <|> counsellorId) = some t) (hu : findById users t = some tu)
    (hk : chatType.getD "student-counsellor" ∈ chatTypes) :
    (∃ ch,
      (createChat users chats c participantId counsellorId chatType id1 now1 =
          (⟨200, .chat true "Chat already exists" ch⟩, chats) ∨
        createChat users chats c participantId counsellorId chatType id1 now1 =
          (⟨201, .chat true "Chat created successfully" ch⟩, chats ++ [ch])) ∧
      createChat users (createChat users chats c participantId counsellorId chatType id1 now1).2
          c participantId counsellorId chatType id2 now2 =
        (⟨200, .chat true "Chat already exists" ch⟩,
          (createChat users chats c participantId counsellorId chatType id1 now1).2)) ∧
    ∀ (c' : ObjectId) (p q : Option ObjectId) (k : Option String) (i : ObjectId) (n : Int),
      OneActiveChatPerPair chats →
        OneActiveChatPerPair (createChat users chats c' p q k i n).2 := by
  refine ⟨?_, fun c' p q k i n h => createChat_preserves users chats c' p q k i n h⟩
  cases hf : chats.find? (isExistingChat c t (chatType.getD "student-counsellor")) with
  | some ch =>
    have h1 := createChat_found users chats c t participantId counsellorId chatType id1 now1
      tu ch ht hu hf
    refine ⟨ch, Or.inl h1, ?_⟩
    rw [h1]
    exact createChat_found users chats c t participantId counsellorId chatType id2 now2
      tu ch ht hu hf
  | none =>
    have h1 := createChat_new users chats c t participantId counsellorId chatType id1 now1
      tu ht hu hf hk
    refine ⟨_, Or.inr h1, ?_⟩
    rw [h1]
    refine createChat_found users _ c t participantId counsellorId chatType id2 now2
      tu _ ht hu ?_
    rw [List.find?_append, hf]
    simp [isExistingChat, newChat]

/-- Witness of C12: user 1 asks twice for a 'student-peer' chat with user 2. -/
theorem createChat_twice_witness :
    (((none : Option ObjectId) <|> some 2) = some 2 ∧
      findById sampleUsers 2 = some counsellorUser ∧
      (some "student-peer").getD "student-counsellor" ∈ chatTypes) ∧
    (∃ ch,
      (createChat sampleUsers [sampleChat] 1 none (some 2) (some "student-peer") 32 200 =
          (⟨200, .chat true "Chat already exists" ch⟩, [sampleChat]) ∨
        createChat sampleUsers [sampleChat] 1 none (some 2) (some "student-peer") 32 200 =
          (⟨201, .chat true "Chat created successfully" ch⟩, [sampleChat] ++ [ch])) ∧
      createChat sampleUsers
          (createChat sampleUsers [sampleChat] 1 none (some 2) (some "student-peer") 32 200).2
          1 none (some 2) (some "student-peer") 33 300 =
        (⟨200, .chat true "Chat already exists" ch⟩,
          (createChat sampleUsers [sampleChat] 1 none (some 2) (some "student-peer")
            32 200).2)) ∧
    ∀ (c' : ObjectId) (p q : Option ObjectId) (k : Option String) (i : ObjectId) (n : Int),
      OneActiveChatPerPair [sampleChat] →
        OneActiveChatPerPair (createChat sampleUsers [sampleChat] c' p q k i n).2 :=
  ⟨⟨rfl, rfl, by decide⟩,
    createChat_twice sampleUsers [sampleChat] 1 2 none (some 2) (some "student-peer") 32 33
      200 300 counsellorUser rfl rfl (by decide)⟩

theorem save_length {α : Type} [Document α] (coll : List α) (x : α) :
    (save coll x).length = coll.length := by
  induction coll with
  | nil => rfl
  | cons a as ih =>
    by_cases ha : Document._id a = Document._id x
    · simp [save, ha]
    · simp [save, ha, ih]

theorem markRead_eq (messages : List Message) (id u : ObjectId) :
    markRead messages id u =
      messages.map (fun m => if m.chat = id ∧ m.sender ≠ u then { m with isRead := true } else m)
    := by
  unfold markRead
  apply List.map_congr_left
  intro m _
  by_cases h1 : m.chat = id ∧ m.sender ≠ u
  · by_cases h2 : m.isRead = false
    · simp [h1, h2]
    · have h3 : m.isRead = true := by simpa using h2
      have h4 : ¬ (m.chat = id ∧ m.sender ≠ u ∧ m.isRead = false) := fun h => h2 h.2.2
      rw [if_neg h4, if_pos h1]
      cases m
      simp_all
  · have h4 : ¬ (m.chat = id ∧ m.sender ≠ u ∧ m.isRead = false) := fun h => h1 ⟨h.1, h.2.1⟩
    rw [if_neg h4, if_neg h1]

theorem jsLength_replicate (n : Nat) (c : Char) :
    jsLength (String.mk (List.replicate n c)) = n * utf16Units c := by
  simp [jsLength, List.map_replicate, List.sum_replicate]

theorem validContent_replicate (n : Nat) (c : Char) (h : 2000 < n * utf16Units c) :
    validContent (some (String.mk (List.replicate n c))) = false := by
  simp only [validContent, Bool.and_eq_false_iff, decide_eq_false_iff_not]
  exact Or.inr (by rw [jsLength_replicate]; omega)

theorem editMessage_invalid (messages : List Message) (id : ObjectId) (m : Message)
    (content : Option String) (now : Int) (hm : findById messages id = some m)
    (hv : validContent content = false) :
    editMessage messages id m.sender content now =
      (⟨500, .error "Failed to edit message"⟩, messages) := by
  simp [editMessage, hm, hv]

/-- C13, as the code has it: on an existing message, edit and delete by a caller who is not the
sender are answered 403 and change nothing; edit by the sender with a non-empty content of at most
2000 UTF-16 code units stores that content with `isEdited = true` and `editedAt`, edit by the
sender with a missing, empty or longer content is answered 500 and changes nothing; delete by the
sender stores `isDeleted = true` and keeps the document. -/
theorem message_edit_delete (messages : List Message) :
    (∀ (id u : ObjectId) (m : Message) (content : Option String) (now : Int),
      findById messages id = some m → m.sender ≠ u →
      editMessage messages id u content now =
          (⟨403, .error "Not authorized to edit this message"⟩, messages) ∧
        deleteMessage messages id u =
          (⟨403, .error "Not authorized to delete this message"⟩, messages)) ∧
    (∀ (id : ObjectId) (m : Message) (c : String) (now : Int),
      findById messages id = some m → c ≠ "" → jsLength c ≤ 2000 →
      (editMessage messages id m.sender (some c) now).1 =
          ⟨200, .message { m with content := c, isEdited := true, editedAt := some now }⟩ ∧
        findById (editMessage messages id m.sender (some c) now).2 id =
          some { m with content := c, isEdited := true, editedAt := some now }) ∧
    (∀ (id : ObjectId) (m : Message) (content : Option String) (now : Int),
      findById messages id = some m →
      (content = none ∨ content = some "" ∨ ∃ c, content = some c ∧ 2000 < jsLength c) →
      editMessage messages id m.sender content now =
        (⟨500, .error "Failed to edit message"⟩, messages)) ∧
    (∀ (id : ObjectId) (m : Message), findById messages id = some m →
      (deleteMessage messages id m.sender).1 = ⟨200, .text "Message deleted successfully"⟩ ∧
        findById (deleteMessage messages id m.sender).2 id = some { m with isDeleted := true } ∧
        (deleteMessage messages id m.sender).2.length = messages.length) := by
  refine ⟨fun id u m content now hm hne => ?_, fun id m c now hm h1 h2 => ?_,
    fun id m content now hm hv => ?_, fun id m hm => ?_⟩
  · constructor
    · simp only [editMessage, hm, ne_eq, hne, not_false_eq_true, if_true]
    · simp only [deleteMessage, hm, ne_eq, hne, not_false_eq_true, if_true]
  · have hv : validContent (some c) = true := by simp [validContent, h1, h2]
    have he : editMessage messages id m.sender (some c) now =
        (⟨200, .message { m with content := c, isEdited := true, editedAt := some now }⟩,
          save messages { m with content := c, isEdited := true, editedAt := some now }) := by
      simp [editMessage, hm, hv]
    have hid : Document._id m = id := findById_id hm
    rw [he]
    exact ⟨rfl, findById_save_same messages id m _ hm hid⟩
  · refine editMessage_invalid messages id m content now hm ?_
    rcases hv with rfl | rfl | ⟨c, rfl, hc⟩
    · rfl
    · rfl
    · simp only [validContent, Bool.and_eq_false_iff, decide_eq_false_iff_not]
      exact Or.inr (by omega)
  · have hd : deleteMessage messages id m.sender =
        (⟨200, .text "Message deleted successfully"⟩,
          save messages { m with isDeleted := true }) := by
      simp [deleteMessage, hm]
    have hid : Document._id m = id := findById_id hm
    rw [hd]
    exact ⟨rfl, findById_save_same messages id m _ hm hid, save_length _ _⟩

/-- Witness of C13 on `sampleMessages`: message 40 was sent by user 1. -/
theorem message_edit_delete_witness :
    (editMessage sampleMessages 40 2 (some "x") 500 =
        (⟨403, .error "Not authorized to edit this message"⟩, sampleMessages) ∧
      deleteMessage sampleMessages 40 2 =
        (⟨403, .error "Not authorized to delete this message"⟩, sampleMessages)) ∧
    ((findById (editMessage sampleMessages 40 1 (some "hello there") 500).2 40).map
        (fun m => (m.content, m.isEdited, m.editedAt)) =
      some ("hello there", true, some 500)) ∧
    editMessage sampleMessages 40 1 none 500 =
      (⟨500, .error "Failed to edit message"⟩, sampleMessages) ∧
    ((findById (deleteMessage sampleMessages 40 1).2 40).map (fun m => m.isDeleted) = some true ∧
      (deleteMessage sampleMessages 40 1).2.length = 4) :=
  ⟨(message_edit_delete sampleMessages).1 40 2 helloMessage (some "x") 500 rfl (by decide),
    congrArg (Option.map fun m => (m.content, m.isEdited, m.editedAt))
      ((message_edit_delete sampleMessages).2.1 40 helloMessage "hello there" 500 rfl
        (by decide) (by decide)).2,
    (message_edit_delete sampleMessages).2.2.1 40 helloMessage none 500 rfl (Or.inl rfl),
    congrArg (Option.map fun m => m.isDeleted)
      ((message_edit_delete sampleMessages).2.2.2 40 helloMessage rfl).2.1,
    ((message_edit_delete sampleMessages).2.2.2 40 helloMessage rfl).2.2⟩

/-- Counterexample to C13 as stated: the sender of message 40 edits it with an empty content,
with a content of 2001 letters, and with a content of 1001 characters U+1F600 (2002 UTF-16 code
units); the three edits are answered 500 and the stored message keeps its content and
`isEdited = false`. -/
theorem editMessage_sender_rejected :
    (findById sampleMessages 40).map (fun m => m.sender) = some 1 ∧
    editMessage sampleMessages 40 1 (some "") 500 =
      (⟨500, .error "Failed to edit message"⟩, sampleMessages) ∧
    editMessage sampleMessages 40 1 (some (String.mk (List.replicate 2001 'a'))) 500 =
      (⟨500, .error "Failed to edit message"⟩, sampleMessages) ∧
    editMessage sampleMessages 40 1
        (some (String.mk (List.replicate 1001 (Char.ofNat 0x1F600)))) 500 =
      (⟨500, .error "Failed to edit message"⟩, sampleMessages) ∧
    (findById sampleMessages 40).map (fun m => (m.content, m.isEdited)) =
      some ("hello", false) := by
  refine ⟨rfl, rfl, ?_, ?_, rfl⟩
  · exact editMessage_invalid sampleMessages 40 helloMessage
      (some (String.mk (List.replicate 2001 'a'))) 500 rfl
      (validContent_replicate 2001 'a' (by decide))
  · exact editMessage_invalid sampleMessages 40 helloMessage
      (some (String.mk (List.replicate 1001 (Char.ofNat 0x1F600)))) 500 rfl
      (validContent_replicate 1001 (Char.ofNat 0x1F600) (by decide))

/-- C14: when a participant `u` of chat `id` fetches it, the messages of that chat not sent by `u`
are stored with `isRead = true` and every other message is stored as it was; when the caller is
not a participant the answer is 403 and the messages are left as they were. -/
theorem getChat_marks_read (chats : List Chat) (messages : List Message) (id u : ObjectId) :
    (∀ chat : Chat, findById chats id = some chat → u ∈ chat.participants →
      (getChat chats messages id u).1.status = 200 ∧
      (getChat chats messages id u).2 = messages.map (fun m =>
        if m.chat = id ∧ m.sender ≠ u then { m with isRead := true } else m) ∧
      ∀ m ∈ (getChat chats messages id u).2, m.chat = id → m.sender ≠ u → m.isRead = true) ∧
    (∀ chat : Chat, findById chats id = some chat → u ∉ chat.participants →
      getChat chats messages id u =
        (⟨403, .error "Not authorized to access this chat"⟩, messages)) := by
  constructor
  · intro chat hc hu
    have hany : chat.participants.any (fun p => decide (p = u)) = true := by
      simpa using hu
    have hg : (getChat chats messages id u).2 = markRead messages id u := by
      simp [getChat, hc, hany]
    refine ⟨by simp [getChat, hc, hany], hg.trans (markRead_eq messages id u), ?_⟩
    rw [hg, markRead_eq]
    intro m hm h1 h2
    obtain ⟨m0, _, rfl⟩ := List.mem_map.1 hm
    by_cases h0 : m0.chat = id ∧ m0.sender ≠ u
    · simp [h0]
    · rw [if_neg h0] at h1 h2
      exact absurd ⟨h1, h2⟩ h0
  · intro chat hc hu
    have hany : chat.participants.any (fun p => decide (p = u)) = false :=
      Bool.eq_false_iff.2 (fun h => hu (by simpa using h))
    simp [getChat, hc, hany]

/-- Witness of C14: user 1 fetches chat 30; user 3 is refused. -/
theorem getChat_marks_read_witness :
    (findById [sampleChat, groupChat] 30 = some sampleChat ∧ 1 ∈ sampleChat.participants ∧
      3 ∉ sampleChat.participants) ∧
    ((getChat [sampleChat, groupChat] sampleMessages 30 1).2.map
        (fun m => (m._id, m.isRead)) = [(40, false), (41, true), (42, false), (43, true)]) ∧
    getChat [sampleChat, groupChat] sampleMessages 30 3 =
      (⟨403, .error "Not authorized to access this chat"⟩, sampleMessages) :=
  ⟨⟨rfl, by decide, by decide⟩,
    by rw [((getChat_marks_read [sampleChat, groupChat] sampleMessages 30 1).1 sampleChat rfl
      (by decide)).2.1]; rfl,
    (getChat_marks_read [sampleChat, groupChat] sampleMessages 30 3).2 sampleChat rfl
      (by decide)⟩

/-! ### View counters -/

theorem findById_save_update {α : Type} [Document α] (coll : List α) (id : ObjectId) (d x : α)
    (h : findById coll id = some d) (hx : Document._id x = Document._id d) :
    findById (save coll x) id = some x :=
  findById_save_same coll id d x h (hx.trans (findById_id h))

theorem log2_eq_of_bounds (n k : Nat) (h1 : 2 ^ k ≤ n) (h2 : n < 2 ^ (k + 1)) :
    Nat.log2 n = k := by
  have hn : n ≠ 0 := by
    have : 0 < 2 ^ k := Nat.two_pow_pos k
    omega
  have ha : k ≤ n.log2 := (Nat.le_log2 hn).2 h1
  have hb : n.log2 < k + 1 := (Nat.log2_lt hn).2 h2
  omega

theorem toDouble_small (n : Nat) (h : n ≤ 2 ^ 53) : toDouble n = n := by
  by_cases hlt : n < 2 ^ 53
  · simp only [toDouble, hlt, if_true]
  · have hn : n = 2 ^ 53 := by omega
    subst hn
    have hl : Nat.log2 (2 ^ 53) = 53 := Nat.log2_two_pow
    simp only [toDouble, hl]
    norm_num

theorem incrementViews_exact (v : Nat) (h : v < 2 ^ 53) : incrementViews v = v + 1 :=
  toDouble_small (v + 1) (by omega)

theorem incrementViews_limit : incrementViews 9007199254740992 = 9007199254740992 := by
  have hl : Nat.log2 (9007199254740992 + 1) = 53 :=
    log2_eq_of_bounds _ 53 (by norm_num) (by norm_num)
  simp only [incrementViews, toDouble, hl]
  norm_num

theorem log2_bounds (n : Nat) (h : 2 ^ 53 ≤ n) :
    53 ≤ Nat.log2 n ∧ 2 ^ 52 * 2 ^ (Nat.log2 n - 52) ≤ n ∧
      n < 2 ^ 53 * 2 ^ (Nat.log2 n - 52) := by
  have hn : n ≠ 0 := by
    have : 0 < 2 ^ 53 := Nat.two_pow_pos 53
    omega
  have h53 : 53 ≤ Nat.log2 n := (Nat.le_log2 hn).2 h
  have hlo : 2 ^ Nat.log2 n ≤ n := Nat.log2_self_le hn
  have hhi : n < 2 ^ (Nat.log2 n + 1) := Nat.lt_log2_self
  have e1 : 2 ^ 52 * 2 ^ (Nat.log2 n - 52) = 2 ^ Nat.log2 n := by
    rw [← pow_add]; congr 1; omega
  have e2 : 2 ^ 53 * 2 ^ (Nat.log2 n - 52) = 2 ^ (Nat.log2 n + 1) := by
    rw [← pow_add]; congr 1; omega
  rw [e1, e2]
  exact ⟨h53, hlo, hhi⟩

/-- Above `2 ^ 53` the rounded value is a 53-bit significand times the spacing, and the
significand is not below the quotient of `n` by the spacing. -/
theorem toDouble_large (n : Nat) (h : 2 ^ 53 ≤ n) :
    ∃ q, toDouble n = q * 2 ^ (Nat.log2 n - 52) ∧ 2 ^ 52 ≤ q ∧ q ≤ 2 ^ 53 ∧
      n / 2 ^ (Nat.log2 n - 52) ≤ q := by
  obtain ⟨_, hlo, hhi⟩ := log2_bounds n h
  have hu : 0 < 2 ^ (Nat.log2 n - 52) := Nat.two_pow_pos _
  have hq1 : 2 ^ 52 ≤ n / 2 ^ (Nat.log2 n - 52) := (Nat.le_div_iff_mul_le hu).2 hlo
  have hq2 : n / 2 ^ (Nat.log2 n - 52) < 2 ^ 53 := (Nat.div_lt_iff_lt_mul hu).2 hhi
  have hnot : ¬ n < 2 ^ 53 := not_lt.2 h
  simp only [toDouble, hnot, if_false]
  split_ifs
  · exact ⟨_, rfl, hq1, le_of_lt hq2, le_refl _⟩
  · exact ⟨_, rfl, le_trans hq1 (Nat.le_succ _), hq2, Nat.le_succ _⟩
  · exact ⟨_, rfl, hq1, le_of_lt hq2, le_refl _⟩
  · exact ⟨_, rfl, le_trans hq1 (Nat.le_succ _), hq2, Nat.le_succ _⟩

theorem toDouble_mul (q e : Nat) (h1 : 2 ^ 52 ≤ q) (h2 : q ≤ 2 ^ 53) :
    toDouble (q * 2 ^ e) = q * 2 ^ e := by
  by_cases hs : q * 2 ^ e ≤ 2 ^ 53
  · exact toDouble_small _ hs
  · have hu : 0 < 2 ^ e := Nat.two_pow_pos e
    have hnot : ¬ q * 2 ^ e < 2 ^ 53 := by omega
    by_cases hq : q = 2 ^ 53
    · subst hq
      have he : 2 ^ 53 * 2 ^ e = 2 ^ (53 + e) := (pow_add 2 53 e).symm
      have hl : Nat.log2 (2 ^ 53 * 2 ^ e) = 53 + e := by rw [he]; exact Nat.log2_two_pow
      have hsub : 53 + e - 52 = e + 1 := by omega
      have hd : 2 ^ 53 * 2 ^ e = 2 ^ 52 * 2 ^ (e + 1) := by
        rw [← pow_add, ← pow_add]; congr 1; omega
      simp only [toDouble, hnot, if_false, hl, hsub]
      rw [hd, Nat.mul_mod_left, Nat.mul_div_cancel _ (Nat.two_pow_pos (e + 1))]
      simp [Nat.two_pow_pos]
    · have hq' : q < 2 ^ 53 := lt_of_le_of_ne h2 hq
      have hl : Nat.log2 (q * 2 ^ e) = 52 + e := by
        apply log2_eq_of_bounds
        · rw [pow_add]; exact Nat.mul_le_mul_right _ h1
        · have : 2 ^ (52 + e + 1) = 2 ^ 53 * 2 ^ e := by
            rw [← pow_add]; congr 1; omega
          rw [this]; exact Nat.mul_lt_mul_of_pos_right hq' hu
      have hsub : 52 + e - 52 = e := by omega
      simp only [toDouble, hnot, if_false, hl, hsub]
      rw [Nat.mul_mod_left, Nat.mul_div_cancel _ hu]
      simp [Nat.two_pow_pos]

/-- Rounding gives the value of a `Number`. -/
theorem isDouble_toDouble (n : Nat) : IsDouble (toDouble n) := by
  unfold IsDouble
  by_cases h : n < 2 ^ 53
  · have : toDouble n = n := toDouble_small n (le_of_lt h)
    rw [this, this]
  · obtain ⟨q, hq, h1, h2, _⟩ := toDouble_large n (not_lt.1 h)
    rw [hq]
    exact toDouble_mul q _ h1 h2

/-- Adding 1 to a `Number` does not lower it. -/
theorem le_incrementViews (v : Nat) (hv : IsDouble v) : v ≤ incrementViews v := by
  by_cases h : v < 2 ^ 53
  · rw [incrementViews_exact v h]; exact Nat.le_succ v
  · have h53 : 2 ^ 53 ≤ v := not_lt.1 h
    obtain ⟨q, hq, _, _, _⟩ := toDouble_large v h53
    obtain ⟨hk, hlo, hhi⟩ := log2_bounds v h53
    have hdvd : 2 ^ (Nat.log2 v - 52) ∣ v :=
      ⟨q, ((show toDouble v = v from hv).symm.trans hq).trans (mul_comm _ _)⟩
    have h2 : 2 ∣ 2 ^ (Nat.log2 v - 52) := dvd_pow_self 2 (by omega)
    have hl : Nat.log2 (v + 1) = Nat.log2 v := by
      apply log2_eq_of_bounds
      · exact le_trans (Nat.log2_self_le (by omega)) (Nat.le_succ v)
      · have hlt : v < 2 ^ (Nat.log2 v + 1) := Nat.lt_log2_self
        have hd2 : 2 ∣ 2 ^ (Nat.log2 v + 1) := dvd_pow_self 2 (by omega)
        have hv2 : 2 ∣ v := dvd_trans h2 hdvd
        omega
    obtain ⟨q', hq', _, _, hge⟩ := toDouble_large (v + 1) (by omega)
    rw [hl] at hq' hge
    unfold incrementViews
    rw [hq']
    obtain ⟨t, ht⟩ := hdvd
    have hu : 0 < 2 ^ (Nat.log2 v - 52) := Nat.two_pow_pos _
    have hdiv : t ≤ (v + 1) / 2 ^ (Nat.log2 v - 52) := by
      rw [Nat.le_div_iff_mul_le hu, mul_comm, ← ht]; exact Nat.le_succ v
    calc v = 2 ^ (Nat.log2 v - 52) * t := ht
      _ = t * 2 ^ (Nat.log2 v - 52) := mul_comm _ _
      _ ≤ q' * 2 ^ (Nat.log2 v - 52) := Nat.mul_le_mul_right _ (le_trans hdiv hge)

theorem getForumPost_found (forums : List Forum) (replies : List ForumReply) (id : ObjectId)
    (post : Forum) (h : findById forums id = some post) :
    (getForumPost forums replies id).1.status = 200 ∧
      (getForumPost forums replies id).2 =
        save forums { post with views := incrementViews post.views } := by
  simp [getForumPost, h]

theorem getForumPost_same (forums : List Forum) (replies : List ForumReply) (id : ObjectId)
    (post : Forum) (h : findById forums id = some post) :
    findById (getForumPost forums replies id).2 id =
      some { post with views := incrementViews post.views } := by
  have hid : Document._id post = id := findById_id h
  rw [(getForumPost_found forums replies id post h).2]
  exact findById_save_same forums id post _ h hid

theorem getForumPost_other (forums : List Forum) (replies : List ForumReply) (id j : ObjectId)
    (hj : id ≠ j) : findById (getForumPost forums replies id).2 j = findById forums j := by
  cases h : findById forums id with
  | none => simp [getForumPost, h]
  | some post =>
    have hid : Document._id post = id := findById_id h
    rw [(getForumPost_found forums replies id post h).2]
    exact findById_save_other forums j _ (by rw [← hid] at hj; exact hj)

theorem getResource_cases (resources : List Resource) (id : ObjectId) (user : Option User) :
    (∃ err, getResource resources id user = (⟨404, .error err⟩, resources)) ∨
    (∃ r, findById resources id = some r ∧
      getResource resources id user =
        (⟨200, .detail { r with views := incrementViews r.views }⟩,
          save resources { r with views := incrementViews r.views })) := by
  cases h : findById resources id with
  | none => exact Or.inl ⟨"Resource not found", by simp [getResource, h]⟩
  | some r =>
    by_cases hg : (!r.isPublished &&
        (match user with | none => true | some u => decide (u.role ≠ "admin"))) = true
    · exact Or.inl ⟨"Resource not found", by simp only [getResource, h, hg, if_true]⟩
    · exact Or.inr ⟨r, rfl, by simp only [getResource, h, hg]; rfl⟩

theorem getResource_published (resources : List Resource) (id : ObjectId) (user : Option User)
    (r : Resource) (h : findById resources id = some r) (hp : r.isPublished = true) :
    getResource resources id user =
      (⟨200, .detail { r with views := incrementViews r.views }⟩,
        save resources { r with views := incrementViews r.views }) := by
  simp [getResource, h, hp]

theorem getResource_other (resources : List Resource) (id j : ObjectId) (user : Option User)
    (hj : id ≠ j) : findById (getResource resources id user).2 j = findById resources j := by
  rcases getResource_cases resources id user with ⟨_, he⟩ | ⟨r, hr, he⟩
  · rw [he]
  · have hid : Document._id r = id := findById_id hr
    rw [he]
    exact findById_save_other resources j _ (by rw [← hid] at hj; exact hj)

/-- C15, as the code has it: a detail fetch of a forum post, and of a resource, that is answered
200 stores the document with `views` replaced by the double nearest to `views + 1` and nothing else
changed, whoever the caller, and that is `views + 1` while `views` is below `2 ^ 53`; `k` fetches in
a row of an existing post, and of a published resource by any `k` callers, raise `views` by exactly
`k` when `views + k` does not exceed `2 ^ 53`; no detail fetch lowers the `views` of a document,
a stored `views` being the value of a `Number`, and `views` stays the value of a `Number`. -/
theorem detail_fetch_counts_views (replies : List ForumReply) :
    (∀ (forums : List Forum) (id : ObjectId),
      (getForumPost forums replies id).1.status = 200 →
      ∃ post, findById forums id = some post ∧
        findById (getForumPost forums replies id).2 id =
          some { post with views := incrementViews post.views } ∧
        (post.views < 2 ^ 53 → incrementViews post.views = post.views + 1)) ∧
    (∀ (resources : List Resource) (id : ObjectId) (user : Option User),
      (getResource resources id user).1.status = 200 →
      ∃ r, findById resources id = some r ∧
        findById (getResource resources id user).2 id =
          some { r with views := incrementViews r.views } ∧
        (r.views < 2 ^ 53 → incrementViews r.views = r.views + 1)) ∧
    (∀ (forums : List Forum) (id : ObjectId) (post : Forum) (k : Nat),
      findById forums id = some post → post.views + k ≤ 2 ^ 53 →
      (getForumPost forums replies id).1.status = 200 ∧
      ∃ post', findById ((fun s => (getForumPost s replies id).2)^[k] forums) id = some post' ∧
        post'.views = post.views + k) ∧
    (∀ (resources : List Resource) (id : ObjectId) (r : Resource)
        (callers : List (Option User)),
      findById resources id = some r → r.isPublished = true →
      r.views + callers.length ≤ 2 ^ 53 →
      (∀ user, (getResource resources id user).1.status = 200) ∧
      ∃ r', findById (callers.foldl (fun s u => (getResource s id u).2) resources) id = some r' ∧
        r'.views = r.views + callers.length) ∧
    (∀ (forums : List Forum) (id j : ObjectId) (p : Forum), findById forums j = some p →
      IsDouble p.views →
      ∃ p', findById (getForumPost forums replies id).2 j = some p' ∧ p.views ≤ p'.views ∧
        IsDouble p'.views) ∧
    (∀ (resources : List Resource) (id j : ObjectId) (user : Option User) (r : Resource),
      findById resources j = some r → IsDouble r.views →
      ∃ r', findById (getResource resources id user).2 j = some r' ∧ r.views ≤ r'.views ∧
        IsDouble r'.views) := by
  refine ⟨?_, ?_, ?_, ?_, ?_, ?_⟩
  · intro forums id hs
    cases h : findById forums id with
    | none => simp [getForumPost, h] at hs
    | some post =>
      exact ⟨post, rfl, getForumPost_same forums replies id post h, incrementViews_exact _⟩
  · intro resources id user hs
    rcases getResource_cases resources id user with ⟨_, he⟩ | ⟨r, hr, he⟩
    · rw [he] at hs; simp at hs
    · refine ⟨r, hr, ?_, incrementViews_exact _⟩
      rw [he]
      exact findById_save_update resources id r _ hr rfl
  · intro forums id post k h hb
    refine ⟨(getForumPost_found forums replies id post h).1, ?_⟩
    induction k generalizing forums post with
    | zero => exact ⟨post, h, rfl⟩
    | succ n ih =>
      have hlt : post.views < 2 ^ 53 := by omega
      have hstep : findById (getForumPost forums replies id).2 id =
          some { post with views := post.views + 1 } := by
        rw [getForumPost_same forums replies id post h, incrementViews_exact _ hlt]
      obtain ⟨post', hf, hv⟩ := ih _ _ hstep
        (by show post.views + 1 + n ≤ 2 ^ 53; omega)
      refine ⟨post', ?_, ?_⟩
      · rw [Function.iterate_succ_apply]; exact hf
      · rw [hv]; show post.views + 1 + n = post.views + (n + 1); omega
  · intro resources id r callers h hp hb
    refine ⟨fun user => by rw [getResource_published resources id user r h hp], ?_⟩
    induction callers generalizing resources r with
    | nil => exact ⟨r, h, rfl⟩
    | cons u us ih =>
      have hb' : r.views + (us.length + 1) ≤ 2 ^ 53 := by simpa using hb
      have hlt : r.views < 2 ^ 53 := by omega
      have h1 : findById (getResource resources id u).2 id =
          some { r with views := r.views + 1 } := by
        rw [getResource_published resources id u r h hp, incrementViews_exact _ hlt]
        exact findById_save_update resources id r _ h rfl
      obtain ⟨r', hf, hv⟩ := ih _ _ h1 hp
        (by show r.views + 1 + us.length ≤ 2 ^ 53; omega)
      refine ⟨r', hf, ?_⟩
      rw [hv]; show r.views + 1 + us.length = r.views + (us.length + 1); omega
  · intro forums id j p hp hd
    by_cases hj : id = j
    · subst hj
      exact ⟨_, getForumPost_same forums replies id p hp, le_incrementViews _ hd,
        isDouble_toDouble _⟩
    · exact ⟨p, (getForumPost_other forums replies id j hj).trans hp, le_refl _, hd⟩
  · intro resources id j user r hr hd
    by_cases hj : id = j
    · subst hj
      rcases getResource_cases resources id user with ⟨_, he⟩ | ⟨r0, hr0, he⟩
      · exact ⟨r, by rw [he]; exact hr, le_refl _, hd⟩
      · have : r0 = r := by rw [hr] at hr0; exact (Option.some.inj hr0).symm
        subst this
        refine ⟨{ r0 with views := incrementViews r0.views }, ?_, le_incrementViews _ hd,
          isDouble_toDouble _⟩
        rw [he]
        exact findById_save_update resources id r0 _ hr rfl
    · exact ⟨r, (getResource_other resources id j user hj).trans hr, le_refl _, hd⟩

/-- Witness of C15: three fetches of `samplePost`, fetches of `sampleResource` by an anonymous
caller, a student and the same student again, and one fetch of `busyPost` and of `busyResource`,
whose `views` is `2 ^ 53`. -/
theorem detail_fetch_counts_views_witness :
    (findById [samplePost, freshPost] 1 = some samplePost ∧
      findById [sampleResource, draftResource] 50 = some sampleResource ∧
      sampleResource.isPublished = true ∧ samplePost.views + 3 ≤ 2 ^ 53 ∧
      sampleResource.views + [none, some studentUser, some studentUser].length ≤ 2 ^ 53 ∧
      findById [busyPost] 1 = some busyPost ∧ IsDouble busyPost.views ∧
      findById [busyResource] 50 = some busyResource ∧ IsDouble busyResource.views) ∧
    (∃ post', findById ((fun s => (getForumPost s [] 1).2)^[3] [samplePost, freshPost]) 1
        = some post' ∧ post'.views = samplePost.views + 3) ∧
    (∃ r', findById ([none, some studentUser, some studentUser].foldl
        (fun s u => (getResource s 50 u).2) [sampleResource, draftResource]) 50 = some r' ∧
      r'.views = sampleResource.views + [none, some studentUser, some studentUser].length) ∧
    (∃ p', findById (getForumPost [busyPost] [] 1).2 1 = some p' ∧
      busyPost.views ≤ p'.views ∧ IsDouble p'.views) ∧
    (∃ r', findById (getResource [busyResource] 50 none).2 50 = some r' ∧
      busyResource.views ≤ r'.views ∧ IsDouble r'.views) :=
  ⟨⟨rfl, rfl, rfl, by decide, by decide, rfl, toDouble_small _ (le_refl _), rfl,
      toDouble_small _ (le_refl _)⟩,
    ((detail_fetch_counts_views []).2.2.1 [samplePost, freshPost] 1 samplePost 3 rfl
      (by decide)).2,
    ((detail_fetch_counts_views []).2.2.2.1 [sampleResource, draftResource] 50 sampleResource
      [none, some studentUser, some studentUser] rfl rfl (by decide)).2,
    (detail_fetch_counts_views []).2.2.2.2.1 [busyPost] 1 1 busyPost rfl
      (toDouble_small _ (le_refl _)),
    (detail_fetch_counts_views []).2.2.2.2.2 [busyResource] 50 50 none busyResource rfl
      (toDouble_small _ (le_refl _))⟩

/-- Counterexample to C15 as stated: the author of `samplePost` sets its `views` to `2 ^ 53` with
`PUT /forum/1`; the detail fetch of that post is answered 200 and stores `views` at `2 ^ 53`
again, not one higher, and so does the fetch of a published resource whose `views` is `2 ^ 53`. -/
theorem detail_fetch_views_stuck :
    (updateForum [samplePost] 1 10 setViews).2 = [busyPost] ∧
    (getForumPost [busyPost] [] 1).1.status = 200 ∧
    findById (getForumPost [busyPost] [] 1).2 1 = some busyPost ∧
    busyPost.views = 9007199254740992 ∧
    busyResource.isPublished = true ∧
    (getResource [busyResource] 50 none).1.status = 200 ∧
    findById (getResource [busyResource] 50 none).2 50 = some busyResource ∧
    busyResource.views = 9007199254740992 := by
  have hp : findById [busyPost] 1 = some busyPost := rfl
  have hr : findById [busyResource] 50 = some busyResource := rfl
  have h1 : ({ busyPost with views := incrementViews busyPost.views } : Forum) = busyPost := by
    show ({ busyPost with views := incrementViews 9007199254740992 } : Forum) = busyPost
    rw [incrementViews_limit]; rfl
  have h2 : ({ busyResource with views := incrementViews busyResource.views } : Resource) =
      busyResource := by
    show ({ busyResource with views := incrementViews 9007199254740992 } : Resource) =
      busyResource
    rw [incrementViews_limit]; rfl
  refine ⟨by decide, (getForumPost_found [busyPost] [] 1 busyPost hp).1, ?_, rfl, rfl, ?_, ?_,
    rfl⟩
  · rw [getForumPost_same [busyPost] [] 1 busyPost hp, h1]
  · rw [getResource_published [busyResource] 50 none busyResource hr rfl]
  · rw [getResource_published [busyResource] 50 none busyResource hr rfl, h2]
    exact findById_save_update [busyResource] 50 busyResource busyResource hr rfl

/-! ### Pagination -/

theorem ceilDiv_is_ceiling (total limit : Nat) (hl : 0 < limit) :
    total ≤ ceilDiv total limit * limit ∧
      ∀ n, total ≤ n * limit → ceilDiv total limit ≤ n := by
  unfold ceilDiv
  constructor
  · have h := Nat.lt_mul_div_succ (total + limit - 1) hl
    have h2 : limit * ((total + limit - 1) / limit + 1) =
        (total + limit - 1) / limit * limit + limit := by ring
    omega
  · intro n hn
    have h : total + limit - 1 < (n + 1) * limit := by
      have : (n + 1) * limit = n * limit + limit := by ring
      omega
    exact Nat.lt_succ_iff.1 ((Nat.div_lt_iff_lt_mul hl).2 h)

theorem findPage_nonempty {α : Type} (coll : List α) (query : α → Bool)
    (sort : List α → List α) (page limit : Nat)
    (hsort : ∀ l, (sort l).length = l.length)
    (h : findPage coll query sort page limit ≠ []) :
    page * limit - limit < countDocuments coll query := by
  unfold findPage at h
  unfold countDocuments
  have hd : (sort (coll.filter query)).drop ((page - 1) * limit) ≠ [] := by
    intro h0
    rw [h0] at h
    exact h (List.take_nil)
  have hlen : (page - 1) * limit < (sort (coll.filter query)).length := by
    by_contra hc
    exact hd (List.drop_eq_nil_of_le (not_lt.1 hc))
  rw [hsort] at hlen
  have : page * limit - limit = (page - 1) * limit := by
    rw [Nat.sub_mul, one_mul]
  rw [this]
  exact hlen

/-- The envelope of `GET /forum`: `total` counts the posts the query matches, `totalPages` is
the least number of pages of `limit` posts that hold them, and a page with posts starts before
`total`. -/
theorem listForum_envelope (textSearch : String → Forum → Bool) (sort : List Forum → List Forum)
    (forums : List Forum) (category search : Option String) (page limit : Nat)
    (hsort : ∀ l, (sort l).length = l.length) (hl : 0 < limit) :
    (listForum textSearch sort forums category search page limit).body.total =
        (forums.filter (forumQuery textSearch category search)).length ∧
      (listForum textSearch sort forums category search page limit).body.total ≤
        (listForum textSearch sort forums category search page limit).body.totalPages * limit ∧
      (∀ n, (listForum textSearch sort forums category search page limit).body.total ≤ n * limit →
        (listForum textSearch sort forums category search page limit).body.totalPages ≤ n) ∧
      ((listForum textSearch sort forums category search page limit).body.items ≠ [] →
        (listForum textSearch sort forums category search page limit).body.currentPage * limit
          - limit < (listForum textSearch sort forums category search page limit).body.total) :=
  ⟨rfl, (ceilDiv_is_ceiling _ limit hl).1, (ceilDiv_is_ceiling _ limit hl).2,
    fun h => findPage_nonempty forums _ sort page limit hsort h⟩

/-- The envelope of `GET /admin/moderation/flagged`: whatever the `type`, `total` is the number
of flagged journal entries plus the number of flagged forum posts, `totalPages` is the least
number of pages of `limit` documents that hold `total`, and a page with items starts before
`total`; without a `type` the items are the journal page followed by the forum page and `total`
counts the documents the query matches. -/
theorem flaggedContent_envelope (sortJournals : List Journal → List Journal)
    (sortForums : List Forum → List Forum) (journals : List Journal) (forums : List Forum)
    (type : Option String) (page limit : Nat)
    (hj : ∀ l, (sortJournals l).length = l.length) (hf : ∀ l, (sortForums l).length = l.length)
    (hl : 0 < limit) :
    (flaggedContent sortJournals sortForums journals forums type page limit).body.total =
        countDocuments journals (fun d => d.isFlagged) +
          countDocuments forums (fun d => d.isFlagged) ∧
      (flaggedContent sortJournals sortForums journals forums type page limit).body.total ≤
        (flaggedContent sortJournals sortForums journals forums type page limit).body.totalPages
          * limit ∧
      (∀ n, (flaggedContent sortJournals sortForums journals forums type page limit).body.total
          ≤ n * limit →
        (flaggedContent sortJournals sortForums journals forums type page limit).body.totalPages
          ≤ n) ∧
      ((flaggedContent sortJournals sortForums journals forums type page limit).body.items ≠ [] →
        page * limit - limit <
          (flaggedContent sortJournals sortForums journals forums type page limit).body.total) ∧
      (flaggedContent sortJournals sortForums journals forums none page limit).body.items =
        (findPage journals (fun d => d.isFlagged) sortJournals page limit).map .journal ++
          (findPage forums (fun d => d.isFlagged) sortForums page limit).map .forum ∧
      (flaggedContent sortJournals sortForums journals forums none page limit).body.total =
        flaggedMatching journals forums none := by
  refine ⟨rfl, (ceilDiv_is_ceiling _ limit hl).1, (ceilDiv_is_ceiling _ limit hl).2, ?_,
    by simp [flaggedContent], by simp [flaggedContent, flaggedMatching]⟩
  intro h
  have hJ := findPage_nonempty journals (fun d => d.isFlagged) sortJournals page limit hj
  have hF := findPage_nonempty forums (fun d => d.isFlagged) sortForums page limit hf
  simp only [flaggedContent, ne_eq, List.append_eq_nil, not_and_or] at h
  show page * limit - limit < countDocuments journals (fun d => d.isFlagged) +
    countDocuments forums (fun d => d.isFlagged)
  rcases h with h | h
  · split_ifs at h with hc
    · have := hJ (fun h0 => h (by rw [h0]; rfl))
      omega
    · exact absurd rfl h
  · split_ifs at h with hc
    · have := hF (fun h0 => h (by rw [h0]; rfl))
      omega
    · exact absurd rfl h

/-- C16, at the failing input: with one flagged journal entry and one flagged forum post, the
flagged-content list asked for `type = journal` returns the one journal entry and reports
`total = 2`, while its query matches one document. -/
theorem flaggedContent_total_ignores_type :
    flaggedContent id id [sampleEntry, otherEntry] [samplePost, freshPost] (some "journal") 1 20 =
        ⟨200, { items := [.journal sampleEntry], totalPages := 1, currentPage := 1,
                total := 2 }⟩ ∧
      flaggedMatching [sampleEntry, otherEntry] [samplePost, freshPost] (some "journal") = 1 :=
  ⟨rfl, rfl⟩

/-! ### Auth middleware -/

theorem auth_of_resolves (verify : String → Option Decoded) (users : List User) (req : Request)
    (user : User) (token : String) (h : ResolvesTo verify users req user token) :
    auth verify users req = .next { req with user := some user, token := some token } := by
  obtain ⟨hb, hne, decoded, uid, hv, hd, hf, ha⟩ := h
  simp [auth, hb, hne, hv, hd, hf, ha]

theorem auth_cases (verify : String → Option Decoded) (users : List User) (req : Request) :
    (∃ err, auth verify users req = .respond 401 err ∧
      ¬ ∃ user token, ResolvesTo verify users req user token) ∨
    (∃ user token, ResolvesTo verify users req user token ∧
      auth verify users req = .next { req with user := some user, token := some token }) := by
  cases hb : bearerToken req with
  | none =>
    refine Or.inl ⟨"Access denied. No token provided.", by simp only [auth, hb], ?_⟩
    rintro ⟨user, token, h, _⟩
    rw [hb] at h
    exact Option.noConfusion h
  | some token =>
    by_cases hne : token = ""
    · refine Or.inl ⟨"Access denied. No token provided.",
        by simp only [auth, hb, hne, if_true], ?_⟩
      rintro ⟨user, token', h, h', _⟩
      rw [hb] at h
      exact h' ((Option.some.inj h).symm.trans hne)
    · cases hv : verify token with
      | none =>
        refine Or.inl ⟨"Invalid token.", by simp only [auth, hb, hne, if_false, hv], ?_⟩
        rintro ⟨user, token', h, _, decoded, uid, hv', _⟩
        rw [hb] at h
        rw [← Option.some.inj h, hv] at hv'
        exact Option.noConfusion hv'
      | some decoded =>
        cases hu : decoded.userId.bind (findById users) with
        | none =>
          refine Or.inl ⟨"Invalid token.", by simp only [auth, hb, hne, if_false, hv, hu], ?_⟩
          rintro ⟨user, token', h, _, decoded', uid, hv', hd, hf, _⟩
          rw [hb] at h
          rw [← Option.some.inj h, hv] at hv'
          rw [Option.some.inj hv', hd, Option.some_bind, hf] at hu
          exact Option.noConfusion hu
        | some user =>
          have hres : ∃ uid, decoded.userId = some uid ∧ findById users uid = some user := by
            cases hd : decoded.userId with
            | none => rw [hd] at hu; exact Option.noConfusion hu
            | some uid => exact ⟨uid, rfl, by rw [hd] at hu; exact hu⟩
          obtain ⟨uid, hd, hf⟩ := hres
          by_cases ha : user.isActive = true
          · have hr : ResolvesTo verify users req user token :=
              ⟨hb, hne, decoded, uid, hv, hd, hf, ha⟩
            exact Or.inr ⟨user, token, hr, auth_of_resolves verify users req user token hr⟩
          · refine Or.inl ⟨"Account is deactivated.", by simp [auth, hb, hne, hv, hu, ha], ?_⟩
            rintro ⟨user', token', h, _, decoded', uid', hv', hd', hf', ha'⟩
            rw [hb] at h
            rw [← Option.some.inj h, hv] at hv'
            rw [← Option.some.inj hv', hd] at hd'
            rw [← Option.some.inj hd', hf] at hf'
            rw [← Option.some.inj hf'] at ha'
            exact ha ha'

theorem resolvesTo_unique (verify : String → Option Decoded) (users : List User)
    (req : Request) (user user' : User) (token token' : String)
    (h : ResolvesTo verify users req user token) (h' : ResolvesTo verify users req user' token') :
    user = user' ∧ token = token' := by
  obtain ⟨hb, _, decoded, uid, hv, hd, hf, _⟩ := h
  obtain ⟨hb', _, decoded', uid', hv', hd', hf', _⟩ := h'
  rw [hb] at hb'
  have ht := Option.some.inj hb'
  subst ht
  rw [hv] at hv'
  have hdd := Option.some.inj hv'
  subst hdd
  rw [hd] at hd'
  have huu := Option.some.inj hd'
  subst huu
  rw [hf] at hf'
  exact ⟨Option.some.inj hf', rfl⟩

/-- C17: `auth` calls the downstream handler exactly when the request carries a token that
verifies and whose subject is a stored, active user, and then passes the request on with exactly
that user and that token attached; in every other case it answers 401. -/
theorem auth_spec (verify : String → Option Decoded) (users : List User) (req : Request) :
    (∀ req', auth verify users req = .next req' ↔
      ∃ user token, ResolvesTo verify users req user token ∧
        req' = { req with user := some user, token := some token }) ∧
    ((¬ ∃ user token, ResolvesTo verify users req user token) →
      ∃ err, auth verify users req = .respond 401 err) ∧
    (∀ status err, auth verify users req = .respond status err → status = 401) := by
  refine ⟨fun req' => ⟨fun h => ?_, fun h => ?_⟩, fun hno => ?_, fun status err h => ?_⟩
  · rcases auth_cases verify users req with ⟨err, he, _⟩ | ⟨user, token, hr, he⟩
    · rw [he] at h; exact Outcome.noConfusion h
    · rw [he] at h
      exact ⟨user, token, hr, (Outcome.next.inj h).symm⟩
  · obtain ⟨user, token, hr, rfl⟩ := h
    exact auth_of_resolves verify users req user token hr
  · rcases auth_cases verify users req with ⟨err, he, _⟩ | ⟨user, token, hr, _⟩
    · exact ⟨err, he⟩
    · exact absurd ⟨user, token, hr⟩ hno
  · rcases auth_cases verify users req with ⟨err', he, _⟩ | ⟨user, token, _, he⟩
    · rw [he] at h
      exact ((Outcome.respond.inj h).1).symm
    · rw [he] at h; exact Outcome.noConfusion h

/-- C18: for a list of roles, `requireRole` answers 401 when no user is attached, 403 when the
role of the attached user is not in the list, and calls the downstream handler, with the request
as it came, exactly when the role of the attached user is in the list. -/
theorem requireRole_spec (roles : List String) (req : Request) :
    (req.user = none → requireRole (.list roles) req = .respond 401 "Authentication required.") ∧
    (∀ user, req.user = some user → user.role ∉ roles →
      requireRole (.list roles) req = .respond 403 "Insufficient permissions.") ∧
    (∀ req', requireRole (.list roles) req = .next req' ↔
      req' = req ∧ ∃ user, req.user = some user ∧ user.role ∈ roles) := by
  refine ⟨fun h => by simp [requireRole, h], fun user h hr => ?_, fun req' => ?_⟩
  · simp [requireRole, h, Roles.includes, hr]
  · cases hu : req.user with
    | none => simp [requireRole, hu]
    | some user =>
      by_cases hr : user.role ∈ roles
      · simp [requireRole, hu, Roles.includes, hr, eq_comm]
      · simp [requireRole, hu, Roles.includes, hr]

/-- Witness of C18: the list gate of the resources router on no user, a student and an admin. -/
theorem requireRole_spec_witness :
    requireRole (.list ["admin", "counsellor"]) (requestWith none) =
        .respond 401 "Authentication required." ∧
      requireRole (.list ["admin", "counsellor"])
          { requestWith none with user := some studentUser } =
        .respond 403 "Insufficient permissions." ∧
      requireRole (.list ["admin", "counsellor"])
          { requestWith none with user := some adminUser } =
        .next { requestWith none with user := some adminUser } :=
  ⟨(requireRole_spec ["admin", "counsellor"] (requestWith none)).1 rfl,
    (requireRole_spec ["admin", "counsellor"]
      { requestWith none with user := some studentUser }).2.1 studentUser rfl (by decide),
    ((requireRole_spec ["admin", "counsellor"]
      { requestWith none with user := some adminUser }).2.2 _).2
      ⟨rfl, adminUser, rfl, by decide⟩⟩

/-- C19: `optionalAuth` always calls the downstream handler and never answers itself; it passes
the request on with the user and the token attached when the request carries a token that
verifies and whose subject is a stored, active user, and passes it on as it came otherwise. -/
theorem optionalAuth_spec (verify : String → Option Decoded) (users : List User)
    (req : Request) :
    (∃ req', optionalAuth verify users req = .next req') ∧
    (∀ status err, optionalAuth verify users req ≠ .respond status err) ∧
    (∀ user token, ResolvesTo verify users req user token →
      optionalAuth verify users req =
        .next { req with user := some user, token := some token }) ∧
    ((¬ ∃ user token, ResolvesTo verify users req user token) →
      optionalAuth verify users req = .next req) := by
  have hres : ∀ user token, ResolvesTo verify users req user token →
      optionalAuth verify users req =
        .next { req with user := some user, token := some token } := by
    rintro user token ⟨hb, hne, decoded, uid, hv, hd, hf, ha⟩
    simp [optionalAuth, hb, hne, hv, hd, hf, ha]
  have hno : (¬ ∃ user token, ResolvesTo verify users req user token) →
      optionalAuth verify users req = .next req := by
    intro hno
    cases hb : bearerToken req with
    | none => simp only [optionalAuth, hb]
    | some token =>
      by_cases hne : token = ""
      · simp only [optionalAuth, hb, hne, if_true]
      · cases hv : verify token with
        | none => simp only [optionalAuth, hb, hne, if_false, hv]
        | some decoded =>
          cases hu : decoded.userId.bind (findById users) with
          | none => simp only [optionalAuth, hb, hne, if_false, hv, hu]
          | some user =>
            by_cases ha : user.isActive = true
            · exfalso
              cases hd : decoded.userId with
              | none => rw [hd] at hu; exact Option.noConfusion hu
              | some uid =>
                rw [hd] at hu
                exact hno ⟨user, token, hb, hne, decoded, uid, hv, hd, hu, ha⟩
            · simp [optionalAuth, hb, hne, hv, hu, ha]
  have hnext : ∃ req', optionalAuth verify users req = .next req' := by
    by_cases h : ∃ user token, ResolvesTo verify users req user token
    · obtain ⟨user, token, hr⟩ := h
      exact ⟨_, hres user token hr⟩
    · exact ⟨req, hno h⟩
  refine ⟨hnext, fun status err h => ?_, hres, hno⟩
  obtain ⟨req', he⟩ := hnext
  rw [he] at h
  exact Outcome.noConfusion h

/-- Witness of C17: a valid token of an active user, no header, a token that does not verify,
a token of an unknown user and a token of a deactivated user. -/
theorem auth_spec_witness :
    ResolvesTo sampleVerify sampleUsers (requestWith (some "Bearer t1")) studentUser "t1" ∧
    auth sampleVerify sampleUsers (requestWith (some "Bearer t1")) =
      .next { requestWith (some "Bearer t1") with user := some studentUser, token := some "t1" } ∧
    (∃ err, auth sampleVerify sampleUsers (requestWith none) = .respond 401 err) ∧
    auth sampleVerify sampleUsers (requestWith (some "Bearer forged")) =
      .respond 401 "Invalid token." ∧
    auth sampleVerify sampleUsers (requestWith (some "Bearer t9")) =
      .respond 401 "Invalid token." ∧
    auth sampleVerify sampleUsers (requestWith (some "Bearer t4")) =
      .respond 401 "Account is deactivated." :=
  ⟨⟨rfl, by decide, ⟨some 1⟩, 1, rfl, rfl, rfl, rfl⟩,
    ((auth_spec sampleVerify sampleUsers (requestWith (some "Bearer t1"))).1 _).2
      ⟨studentUser, "t1", ⟨rfl, by decide, ⟨some 1⟩, 1, rfl, rfl, rfl, rfl⟩, rfl⟩,
    (auth_spec sampleVerify sampleUsers (requestWith none)).2.1
      (fun ⟨_, _, h, _⟩ => Option.noConfusion h),
    rfl, rfl, rfl⟩

/-- Witness of C19: the same requests through `optionalAuth`. -/
theorem optionalAuth_spec_witness :
    optionalAuth sampleVerify sampleUsers (requestWith (some "Bearer t1")) =
      .next { requestWith (some "Bearer t1") with user := some studentUser, token := some "t1" } ∧
    optionalAuth sampleVerify sampleUsers (requestWith none) = .next (requestWith none) ∧
    optionalAuth sampleVerify sampleUsers (requestWith (some "Bearer forged")) =
      .next (requestWith (some "Bearer forged")) ∧
    optionalAuth sampleVerify sampleUsers (requestWith (some "Bearer t4")) =
      .next (requestWith (some "Bearer t4")) :=
  ⟨(optionalAuth_spec sampleVerify sampleUsers (requestWith (some "Bearer t1"))).2.2.1
      studentUser "t1" ⟨rfl, by decide, ⟨some 1⟩, 1, rfl, rfl, rfl, rfl⟩,
    (optionalAuth_spec sampleVerify sampleUsers (requestWith none)).2.2.2
      (fun ⟨_, _, h, _⟩ => Option.noConfusion h),
    rfl, rfl⟩

theorem resolvesTo_attached (verify : String → Option Decoded) (users : List User)
    (req : Request) (user : User) (token : String) (u : Option User) (t : Option String)
    (h : ResolvesTo verify users req user token) :
    ResolvesTo verify users { req with user := u, token := t } user token := h

theorem admin_gates_admin (verify : String → Option Decoded) (users : List User)
    (req : Request) (user : User) (token : String)
    (h : ResolvesTo verify users req user token) (hr : user.role = "admin") :
    adminRouter verify users req = .next { req with user := some user, token := some token } ∧
      adminDatabase verify users req =
        .next { req with user := some user, token := some token } := by
  have h1 : adminRouter verify users req =
      .next { req with user := some user, token := some token } := by
    simp [adminRouter, auth_of_resolves verify users req user token h, Outcome.andThen,
      requireRole, Roles.includes, hr]
  refine ⟨h1, ?_⟩
  have h2 := auth_of_resolves verify users _ user token
    (resolvesTo_attached verify users req user token (some user) (some token) h)
  have hinc : (Roles.text "admin").includes "admin" = true := by decide
  simp [adminDatabase, h1, Outcome.andThen, h2, requireRole, hr, hinc]

theorem admin_gates_other (verify : String → Option Decoded) (users : List User)
    (req : Request) (user : User) (token : String)
    (h : ResolvesTo verify users req user token) (hr : user.role ≠ "admin") :
    adminRouter verify users req = .respond 403 "Insufficient permissions." ∧
      adminDatabase verify users req = .respond 403 "Insufficient permissions." := by
  have h1 : adminRouter verify users req = .respond 403 "Insufficient permissions." := by
    simp [adminRouter, auth_of_resolves verify users req user token h, Outcome.andThen,
      requireRole, Roles.includes, hr]
  exact ⟨h1, by simp [adminDatabase, h1, Outcome.andThen]⟩

theorem admin_gates_unresolved (verify : String → Option Decoded) (users : List User)
    (req : Request) (h : ¬ ∃ user token, ResolvesTo verify users req user token) :
    ∃ err, adminRouter verify users req = .respond 401 err ∧
      adminDatabase verify users req = .respond 401 err := by
  have hex : ∃ err, auth verify users req = .respond 401 err := by
    rcases auth_cases verify users req with ⟨err, he, _⟩ | ⟨user, token, hr, _⟩
    · exact ⟨err, he⟩
    · exact absurd ⟨user, token, hr⟩ h
  obtain ⟨err, he⟩ := hex
  have h1 : adminRouter verify users req = .respond 401 err := by
    simp [adminRouter, he, Outcome.andThen]
  exact ⟨err, h1, by simp [adminDatabase, h1, Outcome.andThen]⟩

/-- C20: the gate of the admin router, and the gates of `GET /database` behind it, pass a
request on to the handler only when its credential resolves to a stored, active user whose role
is exactly 'admin'; they answer 403 when it resolves to a user with any other role and 401 when
it does not resolve. -/
theorem admin_routes_admin_only (verify : String → Option Decoded) (users : List User)
    (req : Request) :
    (∀ req', (adminRouter verify users req = .next req' ∨
        adminDatabase verify users req = .next req') →
      ∃ user token, ResolvesTo verify users req user token ∧ user.role = "admin" ∧
        req' = { req with user := some user, token := some token }) ∧
    (∀ user token, ResolvesTo verify users req user token → user.role = "admin" →
      adminRouter verify users req = .next { req with user := some user, token := some token } ∧
      adminDatabase verify users req =
        .next { req with user := some user, token := some token }) ∧
    (∀ user token, ResolvesTo verify users req user token → user.role ≠ "admin" →
      adminRouter verify users req = .respond 403 "Insufficient permissions." ∧
      adminDatabase verify users req = .respond 403 "Insufficient permissions.") ∧
    ((¬ ∃ user token, ResolvesTo verify users req user token) →
      ∃ err, adminRouter verify users req = .respond 401 err ∧
        adminDatabase verify users req = .respond 401 err) := by
  refine ⟨fun req' h => ?_, admin_gates_admin verify users req,
    admin_gates_other verify users req, admin_gates_unresolved verify users req⟩
  by_cases hres : ∃ user token, ResolvesTo verify users req user token
  · obtain ⟨user, token, hr⟩ := hres
    by_cases hrole : user.role = "admin"
    · obtain ⟨h1, h2⟩ := admin_gates_admin verify users req user token hr hrole
      refine ⟨user, token, hr, hrole, ?_⟩
      rcases h with h | h
      · rw [h1] at h; exact (Outcome.next.inj h).symm
      · rw [h2] at h; exact (Outcome.next.inj h).symm
    · obtain ⟨h1, h2⟩ := admin_gates_other verify users req user token hr hrole
      rcases h with h | h
      · rw [h1] at h; exact Outcome.noConfusion h
      · rw [h2] at h; exact Outcome.noConfusion h
  · obtain ⟨err, h1, h2⟩ := admin_gates_unresolved verify users req hres
    rcases h with h | h
    · rw [h1] at h; exact Outcome.noConfusion h
    · rw [h2] at h; exact Outcome.noConfusion h

/-- Witness of C20: an admin, a student and a request without credential at both gates. -/
theorem admin_routes_admin_only_witness :
    (ResolvesTo sampleVerify sampleUsers (requestWith (some "Bearer t3")) adminUser "t3" ∧
      adminUser.role = "admin" ∧
      ResolvesTo sampleVerify sampleUsers (requestWith (some "Bearer t1")) studentUser "t1" ∧
      studentUser.role ≠ "admin") ∧
    (adminRouter sampleVerify sampleUsers (requestWith (some "Bearer t3")) =
        .next { requestWith (some "Bearer t3") with
          user := some adminUser, token := some "t3" } ∧
      adminDatabase sampleVerify sampleUsers (requestWith (some "Bearer t3")) =
        .next { requestWith (some "Bearer t3") with
          user := some adminUser, token := some "t3" }) ∧
    (adminRouter sampleVerify sampleUsers (requestWith (some "Bearer t1")) =
        .respond 403 "Insufficient permissions." ∧
      adminDatabase sampleVerify sampleUsers (requestWith (some "Bearer t1")) =
        .respond 403 "Insufficient permissions.") ∧
    (∃ err, adminRouter sampleVerify sampleUsers (requestWith none) = .respond 401 err ∧
      adminDatabase sampleVerify sampleUsers (requestWith none) = .respond 401 err) :=
  ⟨⟨⟨rfl, by decide, ⟨some 3⟩, 3, rfl, rfl, rfl, rfl⟩, rfl,
      ⟨rfl, by decide, ⟨some 1⟩, 1, rfl, rfl, rfl, rfl⟩, by decide⟩,
    (admin_routes_admin_only sampleVerify sampleUsers (requestWith (some "Bearer t3"))).2.1
      adminUser "t3" ⟨rfl, by decide, ⟨some 3⟩, 3, rfl, rfl, rfl, rfl⟩ rfl,
    (admin_routes_admin_only sampleVerify sampleUsers (requestWith (some "Bearer t1"))).2.2.1
      studentUser "t1" ⟨rfl, by decide, ⟨some 1⟩, 1, rfl, rfl, rfl, rfl⟩ (by decide),
    (admin_routes_admin_only sampleVerify sampleUsers (requestWith none)).2.2.2
      (fun ⟨_, _, h, _⟩ => Option.noConfusion h)⟩

/-- The string gate `requireRole('admin')` taken alone tests for a substring: it would pass a
role such as 'min'.  Behind the gate of the router it only ever sees the role 'admin'. -/
theorem requireRole_text_is_substring_test :
    requireRole (.text "admin") { requestWith none with
        user := some { studentUser with role := "min" } } =
      .next { requestWith none with user := some { studentUser with role := "min" } } := by
  decide

/-! ### Accounts -/

theorem find?_of_unique {α : Type} (l : List α) (p : α → Bool) (a : α) (ha : a ∈ l)
    (hp : p a = true) (huniq : ∀ b ∈ l, p b = true → b = a) : l.find? p = some a := by
  induction l with
  | nil => simp at ha
  | cons x xs ih =>
    by_cases hx : p x = true
    · rw [List.find?_cons_of_pos _ hx, huniq x (List.mem_cons_self x xs) hx]
    · rw [List.find?_cons_of_neg _ hx]
      have hax : a ∈ xs := by
        rcases List.mem_cons.1 ha with h | h
        · exact absurd (h ▸ hp) hx
        · exact h
      exact ih hax (fun b hb => huniq b (List.mem_cons_of_mem x hb))

/-- C21: when the stored user with the email of the request is deactivated, login is answered
401 whatever the password, the body carries no token and the users collection, `lastLogin`
included, is left as it was.  Emails are unique among the stored users. -/
theorem login_inactive (comparePassword : User → Option String → Bool)
    (sign : ObjectId → String) (users : List User) (u : User) (email password : Option String)
    (now : Int) (hu : u ∈ users) (he : some u.email = email)
    (huniq : (users.map (fun v => v.email)).Nodup) (hi : u.isActive = false) :
    login comparePassword sign users email password now =
      (⟨401, .error "Account is deactivated. Please contact support."⟩, users) := by
  have hfind : users.find? (fun v => decide (some v.email = email)) = some u := by
    apply find?_of_unique users _ u hu (by simpa using he)
    intro b hb hpb
    have hbe : some b.email = email := by simpa using hpb
    have hsame : b.email = u.email := Option.some.inj (hbe.trans he.symm)
    exact List.inj_on_of_nodup_map huniq hb hu hsame
  simp [login, hfind, hi]

/-- Witness of C21: the deactivated user 4 logs in with the right and with a wrong password. -/
theorem login_inactive_witness :
    (inactiveUser ∈ sampleUsers ∧ (sampleUsers.map (fun v => v.email)).Nodup ∧
      inactiveUser.isActive = false ∧ sampleCompare inactiveUser (some "pw4") = true) ∧
    login sampleCompare sampleSign sampleUsers (some "gone@example.org") (some "pw4") 900 =
      (⟨401, .error "Account is deactivated. Please contact support."⟩, sampleUsers) ∧
    login sampleCompare sampleSign sampleUsers (some "gone@example.org") (some "wrong") 900 =
      (⟨401, .error "Account is deactivated. Please contact support."⟩, sampleUsers) :=
  ⟨⟨by decide, by decide, rfl, by decide⟩,
    login_inactive sampleCompare sampleSign sampleUsers inactiveUser _ (some "pw4") 900
      (by decide) rfl (by decide) rfl,
    login_inactive sampleCompare sampleSign sampleUsers inactiveUser _ (some "wrong") 900
      (by decide) rfl (by decide) rfl⟩

/-- C22: when a stored user has the email or the username of the registration request, register
is answered 400 whatever the role and the other fields of the request, the body carries no token
and the users collection is left as it was. -/
theorem register_duplicate (build : RegisterBody → ObjectId → Option User)
    (sign : ObjectId → String) (users : List User) (body : RegisterBody) (newId : ObjectId)
    (u : User) (hu : u ∈ users)
    (h : some u.email = body.email ∨ some u.username = body.username) :
    register build sign users body newId =
      (⟨400, .error "User with this email or username already exists"⟩, users) := by
  have hsome : ∃ v, users.find? (fun v =>
      decide (some v.email = body.email) || decide (some v.username = body.username)) = some v := by
    rw [← Option.isSome_iff_exists, List.find?_isSome]
    exact ⟨u, hu, by simpa using h⟩
  obtain ⟨v, hv⟩ := hsome
  simp only [register, hv]

/-- Witness of C22: a registration as admin with the email of user 1, and one as student with
the username of user 2. -/
theorem register_duplicate_witness :
    (studentUser ∈ sampleUsers ∧ counsellorUser ∈ sampleUsers) ∧
    register sampleBuild sampleSign sampleUsers
        { username := some "new", email := some "asha@example.org", password := some "secret1",
          role := some "admin", profile := none } 9 =
      (⟨400, .error "User with this email or username already exists"⟩, sampleUsers) ∧
    register sampleBuild sampleSign sampleUsers
        { username := some "ravi", email := some "new@example.org", password := some "secret1",
          role := none, profile := none } 9 =
      (⟨400, .error "User with this email or username already exists"⟩, sampleUsers) :=
  ⟨⟨by decide, by decide⟩,
    register_duplicate sampleBuild sampleSign sampleUsers _ 9 studentUser (by decide)
      (Or.inl rfl),
    register_duplicate sampleBuild sampleSign sampleUsers _ 9 counsellorUser (by decide)
      (Or.inr rfl)⟩

theorem findPage_subset {α : Type} (coll : List α) (query : α → Bool) (sort : List α → List α)
    (page limit : Nat) (hsort : ∀ l, (sort l).Perm l) (a : α)
    (h : a ∈ findPage coll query sort page limit) : a ∈ coll ∧ query a = true := by
  unfold findPage at h
  have h1 := List.mem_of_mem_drop (List.mem_of_mem_take h)
  have h2 := (hsort _).mem_iff.1 h1
  exact List.mem_filter.1 h2

theorem findPage_first_page {α : Type} (coll : List α) (query : α → Bool)
    (sort : List α → List α) (limit : Nat) (hsort : ∀ l, (sort l).Perm l)
    (hl : coll.length ≤ limit) (a : α) (ha : a ∈ coll) (hq : query a = true) :
    a ∈ findPage coll query sort 1 limit := by
  unfold findPage
  have hlen : (sort (coll.filter query)).length ≤ limit := by
    rw [(hsort _).length_eq]
    exact le_trans (List.length_filter_le _ _) hl
  simp only [Nat.sub_self, Nat.zero_mul, List.drop_zero]
  rw [List.take_of_length_le hlen]
  exact (hsort _).mem_iff.2 (List.mem_filter.2 ⟨ha, hq⟩)

/-- C23: every entry of the public feed is a stored entry with `isPublic = true`,
`isModerated = false` and the requested mood when one is given, and comes with the username,
first name, last name and id of its stored author and no other author data; a stored entry that
is public and not moderated, flagged or not, is on the first page when the page is long
enough. -/
theorem publicFeed_spec (sort : List Journal → List Journal) (users : List User)
    (journals : List Journal) (mood : Option String) (page limit : Nat)
    (hsort : ∀ l, (sort l).Perm l) :
    (∀ item ∈ (publicFeed sort users journals mood page limit).body.items,
      item.entry ∈ journals ∧ item.entry.isPublic = true ∧ item.entry.isModerated = false ∧
      (∀ m, mood = some m → item.entry.mood = m) ∧
      item.author = (findById users item.entry.author).map (fun u =>
        { _id := u._id, username := u.username, firstName := u.firstName,
          lastName := u.lastName })) ∧
    (∀ e ∈ journals, e.isPublic = true → e.isModerated = false → e.isFlagged = true →
      (∀ m, mood = some m → e.mood = m) → journals.length ≤ limit →
      ∃ item ∈ (publicFeed sort users journals mood 1 limit).body.items, item.entry = e) := by
  constructor
  · intro item hitem
    simp only [publicFeed, List.mem_map] at hitem
    obtain ⟨e, he, rfl⟩ := hitem
    obtain ⟨hmem, hq⟩ := findPage_subset journals _ sort page limit hsort e he
    simp only [publicQuery, Bool.and_eq_true, Bool.not_eq_true'] at hq
    refine ⟨hmem, hq.1.1, hq.1.2, ?_, rfl⟩
    intro m hm
    subst hm
    simpa using hq.2
  · intro e he hp hm _ hmood hl
    have hq : publicQuery mood e = true := by
      cases mood with
      | none => simp [publicQuery, hp, hm]
      | some m => simp [publicQuery, hp, hm, hmood m rfl]
    have := findPage_first_page journals (publicQuery mood) sort limit hsort hl e he hq
    exact ⟨⟨e, populateAuthor users e.author⟩,
      by simp only [publicFeed, List.mem_map]; exact ⟨e, this, rfl⟩, rfl⟩

/-- Witness of C23: the feed over `sampleEntry` (public, flagged, not moderated) and
`otherEntry`, in stored order. -/
theorem publicFeed_spec_witness :
    (∀ l : List Journal, (id l).Perm l) ∧
    (∀ item ∈ (publicFeed id sampleUsers [sampleEntry, otherEntry] none 1 20).body.items,
      item.entry ∈ [sampleEntry, otherEntry] ∧ item.entry.isPublic = true ∧
      item.entry.isModerated = false ∧
      (∀ m, (none : Option String) = some m → item.entry.mood = m) ∧
      item.author = (findById sampleUsers item.entry.author).map (fun u =>
        { _id := u._id, username := u.username, firstName := u.firstName,
          lastName := u.lastName })) ∧
    (∃ item ∈ (publicFeed id sampleUsers [sampleEntry, otherEntry] none 1 20).body.items,
      item.entry = sampleEntry) :=
  ⟨fun l => List.Perm.refl l,
    (publicFeed_spec id sampleUsers [sampleEntry, otherEntry] none 1 20
      (fun l => List.Perm.refl l)).1,
    (publicFeed_spec id sampleUsers [sampleEntry, otherEntry] none 1 20
      (fun l => List.Perm.refl l)).2 sampleEntry (by decide) rfl rfl rfl
      (fun m h => Option.noConfusion h) (by decide)⟩

/-- The user list, the user detail and the session bodies of login and register carry no
password. -/
theorem user_endpoints_hide_password (sort : List User → List User) (users : List User)
    (role isActive : Option String) (page limit : Nat) (id : ObjectId) (caller : User) :
    (∀ item ∈ (listUsers sort users role isActive page limit).body.items, item.password = none) ∧
    (∀ u, (getUser users id caller).body = .user u → u.password = none) := by
  constructor
  · intro item hitem
    simp only [listUsers, List.mem_map] at hitem
    obtain ⟨u, _, rfl⟩ := hitem
    rfl
  · intro u hu
    unfold getUser at hu
    cases hf : findById users id with
    | none => rw [hf] at hu; simp at hu
    | some v =>
      rw [hf] at hu
      simp only at hu
      split_ifs at hu
      · have := UserBody.user.inj hu; rw [← this]; rfl
      · have := UserBody.user.inj hu; rw [← this]; rfl

/-- C24, at the failing input: the response of `GET /admin/database` over the sample users
carries the stored password of every user. -/
theorem getDatabase_exposes_password :
    (getDatabase sampleUsers [] [] [] [] [] [] []).body.users.map (fun u => u.password) =
      [some "h1", some "h2", some "h3", some "h4"] := rfl

/-! ### Resource likes -/

/-- On an array of user ids the intended toggle behaves as a set toggle: two calls by the same
user give back the same set of ids. -/
theorem toggleLike_twice (ids : List ObjectId) (u : ObjectId) :
    (toggleLike (toggleLike ids u).1 u).1.toFinset = ids.toFinset := by
  by_cases h : u ∈ ids
  · have h1 : toggleLike ids u = (ids.filter (fun id => decide (id ≠ u)), "Resource unliked") := by
      simp [toggleLike, h]
    have h2 : u ∉ ids.filter (fun id => decide (id ≠ u)) := by simp
    rw [h1]
    simp only [toggleLike, h2, if_false]
    ext x
    by_cases hx : x = u
    · subst hx; simp [h]
    · simp [hx]
  · have h1 : toggleLike ids u = (ids ++ [u], "Resource liked") := by simp [toggleLike, h]
    rw [h1]
    have h2 : u ∈ ids ++ [u] := by simp
    simp only [toggleLike, h2, if_true]
    ext x
    by_cases hx : x = u
    · subst hx; simp [h]
    · simp [hx]

/-- The like handler answers 500 on every existing resource and stores nothing. -/
theorem likeResource_fails (resources : List Resource) (id u : ObjectId) (r : Resource)
    (h : findById resources id = some r) :
    likeResource resources id u = (⟨500, .error "Failed to like resource"⟩, resources) := by
  simp [likeResource, h, LikesValue.includes]

/-- C25, at the failing input: user 1 likes the published `sampleResource`; the answer is 500
and the resource is stored as before, with `likes = 0`. -/
theorem likeResource_sample_fails :
    likeResource [sampleResource, draftResource] 50 1 =
        (⟨500, .error "Failed to like resource"⟩, [sampleResource, draftResource]) ∧
      sampleResource.likes = 0 :=
  ⟨rfl, rfl⟩

/-! ### Owner operations -/

/-- C26: on an existing journal entry, forum post and mood entry, update and delete by a caller
who is not the owner are answered 403 and leave the store as it was; the one exception is the
delete of a forum post by a caller with role 'admin', which goes through. -/
theorem owner_only (journals : List Journal) (forums : List Forum)
    (replies : List ForumReply) (moods : List Mood) :
    (∀ (id u : ObjectId) (e : Journal) (body : JournalUpdate),
      findById journals id = some e → e.author ≠ u →
      updateJournal journals id u body =
          (⟨403, .error "Not authorized to edit this entry"⟩, journals) ∧
        deleteJournal journals id u =
          (⟨403, .error "Not authorized to delete this entry"⟩, journals)) ∧
    (∀ (id : ObjectId) (caller : User) (p : Forum) (body : ForumUpdate),
      findById forums id = some p → p.author ≠ caller._id →
      updateForum forums id caller._id body =
          (⟨403, .error "Not authorized to edit this post"⟩, forums) ∧
        (caller.role ≠ "admin" →
          deleteForum forums replies id caller =
            (⟨403, .error "Not authorized to delete this post"⟩, forums, replies)) ∧
        (caller.role = "admin" →
          deleteForum forums replies id caller =
            (⟨200, .message "Post deleted successfully"⟩, findByIdAndDelete forums id,
              replies.filter (fun r => !decide (r.forum = id))))) ∧
    (∀ (id u : ObjectId) (e : Mood) (body : MoodUpdate),
      findById moods id = some e → e.user ≠ u →
      updateMood moods id u body =
          (⟨403, .error "Not authorized to edit this entry"⟩, moods) ∧
        deleteMood moods u id =
          (⟨403, .error "Not authorized to delete this entry"⟩, moods)) := by
  refine ⟨fun id u e body h hne => ?_, fun id caller p body h hne => ?_,
    fun id u e body h hne => ?_⟩
  · exact ⟨by simp [updateJournal, h, hne], by simp [deleteJournal, h, hne]⟩
  · refine ⟨by simp [updateForum, h, hne], fun hr => ?_, fun hr => ?_⟩
    · simp [deleteForum, h, hne, hr]
    · simp [deleteForum, h, hr]
  · exact ⟨by simp [updateMood, h, hne], by simp [deleteMood, h, hne]⟩

/-- Witness of C26: user 11 on the entry, the post and the mood entry of others; the admin
deletes the post of user 10. -/
theorem owner_only_witness :
    (findById [sampleEntry, otherEntry] 5 = some sampleEntry ∧ sampleEntry.author ≠ 11 ∧
      findById [samplePost, freshPost] 1 = some samplePost ∧
      samplePost.author ≠ counsellorUser._id ∧ counsellorUser.role ≠ "admin" ∧
      samplePost.author ≠ adminUser._id ∧ adminUser.role = "admin" ∧
      findById [sampleMood] 20 = some sampleMood ∧ sampleMood.user ≠ 11) ∧
    (updateJournal [sampleEntry, otherEntry] 5 11 editJournal =
        (⟨403, .error "Not authorized to edit this entry"⟩, [sampleEntry, otherEntry]) ∧
      deleteJournal [sampleEntry, otherEntry] 5 11 =
        (⟨403, .error "Not authorized to delete this entry"⟩, [sampleEntry, otherEntry])) ∧
    (updateForum [samplePost, freshPost] 1 counsellorUser._id editForum =
        (⟨403, .error "Not authorized to edit this post"⟩, [samplePost, freshPost])) ∧
    (deleteForum [samplePost, freshPost] sampleReplies 1 counsellorUser =
        (⟨403, .error "Not authorized to delete this post"⟩, [samplePost, freshPost],
          sampleReplies)) ∧
    (deleteForum [samplePost, freshPost] sampleReplies 1 adminUser =
        (⟨200, .message "Post deleted successfully"⟩,
          findByIdAndDelete [samplePost, freshPost] 1,
          sampleReplies.filter (fun r => !decide (r.forum = 1)))) ∧
    (updateMood [sampleMood] 20 11 editMood =
        (⟨403, .error "Not authorized to edit this entry"⟩, [sampleMood]) ∧
      deleteMood [sampleMood] 11 20 =
        (⟨403, .error "Not authorized to delete this entry"⟩, [sampleMood])) :=
  ⟨⟨rfl, by decide, rfl, by decide, by decide, by decide, rfl, rfl, by decide⟩,
    (owner_only [sampleEntry, otherEntry] [samplePost, freshPost] sampleReplies [sampleMood]).1
      5 11 sampleEntry editJournal rfl (by decide),
    ((owner_only [sampleEntry, otherEntry] [samplePost, freshPost] sampleReplies
      [sampleMood]).2.1 1 counsellorUser samplePost editForum rfl (by decide)).1,
    ((owner_only [sampleEntry, otherEntry] [samplePost, freshPost] sampleReplies
      [sampleMood]).2.1 1 counsellorUser samplePost editForum rfl (by decide)).2.1 (by decide),
    ((owner_only [sampleEntry, otherEntry] [samplePost, freshPost] sampleReplies
      [sampleMood]).2.1 1 adminUser samplePost editForum rfl (by decide)).2.2 rfl,
    (owner_only [sampleEntry, otherEntry] [samplePost, freshPost] sampleReplies
      [sampleMood]).2.2 20 11 sampleMood editMood rfl (by decide)⟩

/-- The flag operation on an existing entry or post with a reason of the schema (or none) stores
it with `isFlagged = true` and that reason, every other field as before; with any other reason it
is answered 500 and stores nothing. -/
theorem flag_sets_flag_only (journals : List Journal) (forums : List Forum) (id : ObjectId)
    (reason : Option String) :
    (∀ e, findById journals id = some e →
      (∀ r, reason = some r → r ∈ flagReasons) →
      findById (flagJournal journals id reason).2 id =
        some { e with isFlagged := true, flagReason := reason }) ∧
    (∀ p, findById forums id = some p →
      (∀ r, reason = some r → r ∈ flagReasons) →
      findById (flagForum forums id reason).2 id =
        some { p with isFlagged := true, flagReason := reason }) ∧
    ((∃ r, reason = some r ∧ r ∉ flagReasons) →
      (flagJournal journals id reason).2 = journals ∧
        (flagForum forums id reason).2 = forums) := by
  refine ⟨fun e he hr => ?_, fun p hp hr => ?_, fun hbad => ?_⟩
  · have hv : validReason reason = true := by
      cases hreason : reason with
      | none => rfl
      | some r => simpa [validReason] using hr r hreason
    simp only [flagJournal, he, hv, if_true]
    exact findById_save_update journals id e _ he rfl
  · have hv : validReason reason = true := by
      cases hreason : reason with
      | none => rfl
      | some r => simpa [validReason] using hr r hreason
    simp only [flagForum, hp, hv, if_true]
    exact findById_save_update forums id p _ hp rfl
  · obtain ⟨r, rfl, hr⟩ := hbad
    have hv : validReason (some r) = false := by simpa [validReason] using hr
    constructor
    · cases h : findById journals id with
      | none => simp [flagJournal, h]
      | some e => simp [flagJournal, h, hv]
    · cases h : findById forums id with
      | none => simp [flagForum, h]
      | some p => simp [flagForum, h, hv]

/-- C27, at the failing input: the author (user 10, a student) of the flagged `sampleEntry` sends
an update whose body sets `isFlagged`, `flagReason` and `isModerated`; the update is answered 200
and the entry is stored unflagged and marked as moderated. -/
theorem updateJournal_author_unflags :
    (sampleEntry.author = 10 ∧ sampleEntry.isFlagged = true ∧ sampleEntry.isModerated = false) ∧
    (updateJournal [sampleEntry, otherEntry] 5 10 unflagJournal).1.status = 200 ∧
    (findById (updateJournal [sampleEntry, otherEntry] 5 10 unflagJournal).2 5).map
        (fun e => (e.isFlagged, e.flagReason, e.isModerated)) = some (false, none, true) :=
  ⟨⟨rfl, rfl, rfl⟩, rfl, rfl⟩

/-! ### Forum post deletion -/

/-- C28: when the author of an existing forum post, or an admin, deletes it, the posts
collection keeps exactly the posts with another id and the replies collection exactly the
replies to other posts, each as it was and in its order; the post is not found afterwards and no
stored reply refers to it.  Ids are unique within the posts collection. -/
theorem deleteForum_cascades (forums : List Forum) (replies : List ForumReply) (id : ObjectId)
    (caller : User) (p : Forum) (hp : findById forums id = some p) (hu : UniqueIds forums)
    (hauth : p.author = caller._id ∨ caller.role = "admin") :
    deleteForum forums replies id caller =
        (⟨200, .message "Post deleted successfully"⟩,
          forums.filter (fun d => decide (d._id ≠ id)),
          replies.filter (fun r => decide (r.forum ≠ id))) ∧
      findById (deleteForum forums replies id caller).2.1 id = none ∧
      (∀ j, j ≠ id → findById (deleteForum forums replies id caller).2.1 j = findById forums j) ∧
      (∀ r ∈ (deleteForum forums replies id caller).2.2, r.forum ≠ id) ∧
      (∀ r ∈ replies, r.forum ≠ id → r ∈ (deleteForum forums replies id caller).2.2) := by
  have hcond : ¬ (p.author ≠ caller._id ∧ caller.role ≠ "admin") := by
    rintro ⟨h1, h2⟩
    rcases hauth with h | h
    · exact h1 h
    · exact h2 h
  have hrep : replies.filter (fun r => !decide (r.forum = id)) =
      replies.filter (fun r => decide (r.forum ≠ id)) := by
    congr 1
    funext r
    simp
  have he : deleteForum forums replies id caller =
      (⟨200, .message "Post deleted successfully"⟩,
        forums.filter (fun d => decide (d._id ≠ id)),
        replies.filter (fun r => decide (r.forum ≠ id))) := by
    simp only [deleteForum, hp, hcond, if_false]
    rw [findByIdAndDelete_eq_filter forums id hu, hrep]
    rfl
  rw [he]
  refine ⟨rfl, findById_filter_ne_same forums id,
    fun j hj => findById_filter_ne_other forums id j hj, fun r hr => ?_, fun r hr hne => ?_⟩
  · simpa using (List.mem_filter.1 hr).2
  · exact List.mem_filter.2 ⟨hr, by simpa using hne⟩

/-- Witness of C28: user 10 deletes the post `samplePost`, which has two replies. -/
theorem deleteForum_cascades_witness :
    (findById [samplePost, freshPost] 1 = some samplePost ∧
      UniqueIds [samplePost, freshPost] ∧ samplePost.author = 10) ∧
    ((deleteForum [samplePost, freshPost] sampleReplies 1
        { studentUser with _id := 10 }).2.1 = [freshPost]) ∧
    ((deleteForum [samplePost, freshPost] sampleReplies 1
        { studentUser with _id := 10 }).2.2.map (fun r => r._id) = [61]) :=
  ⟨⟨rfl, by decide, rfl⟩,
    congrArg (fun x => x.2.1) (deleteForum_cascades [samplePost, freshPost] sampleReplies 1
      { studentUser with _id := 10 } samplePost rfl (by decide) (Or.inl rfl)).1,
    congrArg (fun x => x.2.2.map (fun r => r._id))
      (deleteForum_cascades [samplePost, freshPost] sampleReplies 1
        { studentUser with _id := 10 } samplePost rfl (by decide) (Or.inl rfl)).1⟩

/-! ### Flagged-content list -/

/-- C29: the flagged-content list reports as `total` the number of flagged journal entries plus
the number of flagged forum posts whatever the `type`; its items are the journal page for
`type = journal`, the forum page for `type = forum`, and without a `type` the journal page
followed by the forum page, each item tagged with its type. -/
theorem flaggedContent_total_and_items (sortJournals : List Journal → List Journal)
    (sortForums : List Forum → List Forum) (journals : List Journal) (forums : List Forum)
    (page limit : Nat) :
    (∀ type : Option String,
      (flaggedContent sortJournals sortForums journals forums type page limit).body.total =
        (journals.filter (fun d => d.isFlagged)).length +
          (forums.filter (fun d => d.isFlagged)).length) ∧
    (flaggedContent sortJournals sortForums journals forums none page limit).body.items =
      (findPage journals (fun d => d.isFlagged) sortJournals page limit).map .journal ++
        (findPage forums (fun d => d.isFlagged) sortForums page limit).map .forum ∧
    (flaggedContent sortJournals sortForums journals forums (some "journal") page limit
      ).body.items =
      (findPage journals (fun d => d.isFlagged) sortJournals page limit).map .journal ∧
    (flaggedContent sortJournals sortForums journals forums (some "forum") page limit
      ).body.items =
      (findPage forums (fun d => d.isFlagged) sortForums page limit).map .forum := by
  refine ⟨fun type => rfl, by simp [flaggedContent], ?_, ?_⟩
  · have h : ¬ ((some "journal" : Option String) = none ∨
        (some "journal" : Option String) = some "forum") := by decide
    simp [flaggedContent, h]
  · have h : ¬ ((some "forum" : Option String) = none ∨
        (some "forum" : Option String) = some "journal") := by decide
    simp [flaggedContent, h]

/-! ### Mood streak -/

theorem streakLoop_spec (z : Zone) (today : Int) (l : List Int) (s : Nat) :
    s ≤ streakLoop z today l s ∧ streakLoop z today l s ≤ s + l.length ∧
    (∀ j t, j < streakLoop z today l s - s → l[j]? = some t →
      (today - setHoursZero z t) / (1000 * 60 * 60 * 24) = ((s + j : Nat) : Int)) ∧
    (∀ t, l[streakLoop z today l s - s]? = some t →
      (today - setHoursZero z t) / (1000 * 60 * 60 * 24) ≠ ((streakLoop z today l s : Nat) : Int))
    := by
  induction l generalizing s with
  | nil =>
    refine ⟨le_refl _, le_refl _, fun j t hj => ?_, fun t ht => ?_⟩
    · simp [streakLoop] at hj
    · simp at ht
  | cons c rest ih =>
    by_cases hc : (today - setHoursZero z c) / (1000 * 60 * 60 * 24) = (s : Int)
    · have hr : streakLoop z today (c :: rest) s = streakLoop z today rest (s + 1) := by
        simp only [streakLoop, hc, if_true]
      obtain ⟨h1, h2, h3, h4⟩ := ih (s + 1)
      rw [hr]
      refine ⟨by omega, by simp only [List.length_cons]; omega, fun j t hj ht => ?_,
        fun t ht => ?_⟩
      · cases j with
        | zero =>
          have : t = c := by simpa using ht.symm
          rw [this, hc]; simp
        | succ j' =>
          have ht' : rest[j']? = some t := by simpa using ht
          have := h3 j' t (by omega) ht'
          rw [this]
          push_cast; ring
      · have hidx : streakLoop z today rest (s + 1) - s =
            (streakLoop z today rest (s + 1) - (s + 1)) + 1 := by omega
        rw [hidx] at ht
        exact h4 t (by simpa using ht)
    · have hr : streakLoop z today (c :: rest) s = s := by
        simp only [streakLoop, hc, if_false]
      rw [hr]
      refine ⟨le_refl _, by omega, fun j t hj => by omega, fun t ht => ?_⟩
      have : t = c := by simpa using ht.symm
      rw [this]
      exact hc

theorem calculateMoodStreak_eq (z : Zone) (now : Int) (es : List Mood) :
    calculateMoodStreak z now (some es) =
      streakLoop z (setHoursZero z now) (es.map (fun e => e.createdAt)) 0 := by
  cases es with
  | nil => rfl
  | cons e rest => rfl

/-- At a fixed offset the midnights of two days are a whole number of 24 hours apart, and
`diffDays` is the number of calendar days between them. -/
theorem diffDays_fixedZone (tz now t : Int) (i : Nat) :
    (setHoursZero (fixedZone tz) now - setHoursZero (fixedZone tz) t) / (1000 * 60 * 60 * 24) =
        (i : Int) ↔
      daysBefore (fixedZone tz) now i t := by
  simp only [daysBefore, setHoursZero, Zone.utc, Zone.localDay, Zone.localTime, fixedZone,
    msPerDay]
  constructor <;> intro h <;> omega

/-- In a browser whose zone keeps one offset, `calculateMoodStreak` returns 0 for a missing and
for an empty list; on a list it returns a `k` not above the length such that entry `i` is dated
exactly `i` days before today for every `i < k` and entry `k`, when there is one, is not dated `k`
days before today, which makes `k` the largest such number; so it returns 0 when the first entry
is not dated today and the length when every entry `i` is dated `i` days before today. -/
theorem calculateMoodStreak_fixedZone (tz now : Int) :
    calculateMoodStreak (fixedZone tz) now none = 0 ∧
    calculateMoodStreak (fixedZone tz) now (some []) = 0 ∧
    ∀ es : List Mood,
      calculateMoodStreak (fixedZone tz) now (some es) ≤ es.length ∧
      (∀ i e, i < calculateMoodStreak (fixedZone tz) now (some es) → es[i]? = some e →
        daysBefore (fixedZone tz) now i e.createdAt) ∧
      (∀ e, es[calculateMoodStreak (fixedZone tz) now (some es)]? = some e →
        ¬ daysBefore (fixedZone tz) now (calculateMoodStreak (fixedZone tz) now (some es))
          e.createdAt) ∧
      (∀ k, k ≤ es.length →
        (∀ i e, i < k → es[i]? = some e → daysBefore (fixedZone tz) now i e.createdAt) →
        k ≤ calculateMoodStreak (fixedZone tz) now (some es)) ∧
      (∀ e, es[0]? = some e → ¬ daysBefore (fixedZone tz) now 0 e.createdAt →
        calculateMoodStreak (fixedZone tz) now (some es) = 0) ∧
      ((∀ i e, es[i]? = some e → daysBefore (fixedZone tz) now i e.createdAt) →
        calculateMoodStreak (fixedZone tz) now (some es) = es.length) := by
  refine ⟨rfl, rfl, fun es => ?_⟩
  obtain ⟨_, h2, h3, h4⟩ :=
    streakLoop_spec (fixedZone tz) (setHoursZero (fixedZone tz) now)
      (es.map (fun e => e.createdAt)) 0
  rw [← calculateMoodStreak_eq] at h2 h3 h4
  simp only [Nat.zero_add, Nat.sub_zero, List.length_map, List.getElem?_map] at h2 h3 h4
  have hpre : ∀ i e, i < calculateMoodStreak (fixedZone tz) now (some es) → es[i]? = some e →
      daysBefore (fixedZone tz) now i e.createdAt := by
    intro i e hi he
    exact (diffDays_fixedZone tz now e.createdAt i).1 (h3 i e.createdAt hi (by simp [he]))
  have hstop : ∀ e, es[calculateMoodStreak (fixedZone tz) now (some es)]? = some e →
      ¬ daysBefore (fixedZone tz) now (calculateMoodStreak (fixedZone tz) now (some es))
        e.createdAt := by
    intro e he hd
    exact h4 e.createdAt (by simp [he]) ((diffDays_fixedZone tz now e.createdAt _).2 hd)
  have hmax : ∀ k, k ≤ es.length →
      (∀ i e, i < k → es[i]? = some e → daysBefore (fixedZone tz) now i e.createdAt) →
      k ≤ calculateMoodStreak (fixedZone tz) now (some es) := by
    intro k hk hall
    by_contra hlt
    have hlt' : calculateMoodStreak (fixedZone tz) now (some es) < k := not_le.1 hlt
    have hin : calculateMoodStreak (fixedZone tz) now (some es) < es.length :=
      lt_of_lt_of_le hlt' hk
    have he : es[calculateMoodStreak (fixedZone tz) now (some es)]? =
        some (es[calculateMoodStreak (fixedZone tz) now (some es)]) :=
      List.getElem?_eq_getElem hin
    exact hstop _ he (hall _ _ hlt' he)
  refine ⟨h2, hpre, hstop, hmax, fun e he hd => ?_, fun hall => ?_⟩
  · by_contra hne
    exact hd (hpre 0 e (Nat.pos_of_ne_zero hne) he)
  · exact le_antisymm h2 (hmax es.length (le_refl _) (fun i e _ he => hall i e he))


/-- C30: fails in a browser in New York on 11 March 2024 at noon, the day after the clocks went
forward.  The midnight of 10 March is 23 hours before the midnight of 11 March, so `diffDays` is
`floor(23 / 24) = 0` for an entry of 10 March.  For the entries `marchMood` of today and
`springMood` of yesterday, in that order, `calculateMoodStreak` returns 1 where the claim gives 2,
the length; for `springMood` alone, which is not dated today, it returns 1 where the claim
gives 0. -/
theorem calculateMoodStreak_drops_day :
    daysBefore newYork 1710172800000 0 marchMood.createdAt ∧
    daysBefore newYork 1710172800000 1 springMood.createdAt ∧
    setHoursZero newYork 1710172800000 - setHoursZero newYork springMood.createdAt =
      23 * 3600000 ∧
    calculateMoodStreak newYork 1710172800000 (some [marchMood, springMood]) = 1 ∧
    ¬ daysBefore newYork 1710172800000 0 springMood.createdAt ∧
    calculateMoodStreak newYork 1710172800000 (some [springMood]) = 1 := by
  refine ⟨?_, ?_, by decide, by decide, ?_, by decide⟩
  · unfold daysBefore; decide
  · unfold daysBefore; decide
  · unfold daysBefore; decide

end MentalHealth
